import Mathlib

/-!
The lossy proxy and the packet checksum of reliable-udp.

A shallow embedding of `server/src/protocol.c` (the payload checksum) and of
`proxy/src/main.c` (the two forwarding pipelines and their delay tasks),
followed by the statements proved about them.

Conventions of the embedding.

* A payload byte is a `Fin 256`: the content of one `char` cell of memory.
  Whether `char` is signed is left to the C implementation, so every function
  that reads a `char` takes a flag `char_is_signed` and promotes the cell to
  `int` accordingly.
* `unsigned char` and `uint16_t` results are naturals reduced modulo `2^8` and
  `2^16` at the point where C converts.
* A C buffer is a `List (Fin 256)`; `data[i]` past the end of the list reads as
  `0` (the statements below only speak about lengths within the buffer).
-/

namespace ReliableUdp

/-! ## protocol.c: the checksum -/

/-- The `int` obtained by promoting the `char` cell `b`: the byte itself when
`char` is unsigned, its two's complement reading in `[-128, 127]` when `char`
is signed. -/
def char_value (char_is_signed : Bool) (b : Fin 256) : Int :=
  if char_is_signed && decide (128 ≤ b.val) then (b.val : Int) - 256 else (b.val : Int)

/-- Conversion of an `int` to `unsigned char`: reduction modulo `2^8`. -/
def to_unsigned_char (x : Int) : Nat := (x % 256).toNat

/-- The cell `data[i]`. -/
def read_char (data : List (Fin 256)) (i : Nat) : Fin 256 := data.getD i 0

/-- The function `checksum_one`: `result = 0; for (i = 0; i < length; i++) result += data[i] * 34;`
with `result` an `unsigned char`. -/
def checksum_one (char_is_signed : Bool) (data : List (Fin 256)) (length : Nat) : Nat :=
  (List.range length).foldl
    (fun result i =>
      to_unsigned_char ((result : Int) + char_value char_is_signed (read_char data i) * 34))
    0

/-- The function `checksum_two`: `result = 0; for (i = 0; i < length; i++) result ^= data[i];`
with `result` an `unsigned char`. -/
def checksum_two (char_is_signed : Bool) (data : List (Fin 256)) (length : Nat) : Nat :=
  (List.range length).foldl
    (fun result i =>
      to_unsigned_char (Int.xor (result : Int) (char_value char_is_signed (read_char data i))))
    0

/-- The function `calculate_checksum`: the value written to `*checksum` (the function itself
always returns `0`). The two `unsigned char` operands are multiplied as `int`
and the product is converted to `uint16_t`. -/
def calculate_checksum (char_is_signed : Bool) (data : List (Fin 256)) (length : Nat) : Nat :=
  (checksum_one char_is_signed data length * checksum_two char_is_signed data length) % 65536

/-- The function `compare_checksum`: the `int` value of `new_checksum == checksum`. -/
def compare_checksum (char_is_signed : Bool) (checksum : Nat) (data : List (Fin 256))
    (length : Nat) : Nat :=
  if calculate_checksum char_is_signed data length = checksum then 1 else 0

/-! ### The two reductions as the text describes them -/

/-- The weighted sum `(Σ data[i]·34) mod 256` over a list of bytes. -/
def weighted_sum (bytes : List (Fin 256)) : Nat :=
  (bytes.map (fun b => b.val * 34)).sum % 256

/-- The XOR of a list of bytes. -/
def xor_all (bytes : List (Fin 256)) : Nat :=
  bytes.foldl (fun acc b => acc ^^^ b.val) 0

/-! ## The packet and C strings -/

/-- Modelled from the spec: the header of `struct packet`. The declaration of
`struct packet` is in `protocol.h`, which is not among the sources; the code
reads `hd.seq_number`, `hd.ack_number`, `hd.flags` and `hd.window_size`, and
the data model adds the 16-bit `checksum`. -/
structure header where
  seq_number : Nat
  ack_number : Nat
  flags : Nat
  window_size : Nat
  checksum : Nat
deriving DecidableEq

/-- Modelled from the spec: `struct packet`, a header `hd` followed by the
payload buffer `data` (a C string buffer of fixed capacity). -/
structure packet where
  hd : header
  data : List (Fin 256)
deriving DecidableEq

/-- The bytes of the C string stored in a buffer: everything before the first
zero byte. -/
def c_string (buf : List (Fin 256)) : List (Fin 256) :=
  buf.takeWhile (fun b => b ≠ 0)

/-- The function `strlen`: the number of bytes before the first zero byte. -/
def strlen (buf : List (Fin 256)) : Nat := (c_string buf).length

/-- The function `strdup`: a fresh buffer holding the string and its terminator. -/
def strdup (buf : List (Fin 256)) : List (Fin 256) := c_string buf ++ [0]

/-- The function `strcpy(dst, src)`: the string of `src` and its terminator are written over
the first cells of `dst`; the cells of `dst` after the terminator keep their
content. (A string longer than `dst` makes the list longer: the model does not
bound the copy, as `strcpy` does not.) -/
def strcpy (dst src : List (Fin 256)) : List (Fin 256) :=
  c_string src ++ [0] ++ dst.drop ((c_string src).length + 1)

/-! ## proxy/src/main.c: states, statistics codes, context -/

/-- The type `enum gui_stats`. -/
inductive gui_stats
  | SENT_PACKET
  | RECEIVED_PACKET
  | RECEIVED_ACK
  | RESENT_PACKET
  | DROPPED_CLIENT_PACKET
  | DELAYED_CLIENT_PACKET
  | DROPPED_SERVER_PACKET
  | DELAYED_SERVER_PACKET
  | CORRUPTED_DATA
deriving DecidableEq, Repr

/-- The state identifiers used in the transition tables: `FSM_INIT` and
`FSM_EXIT` of `fsm.h`, `enum main_application_states` and
`enum server_thread_states`. In C the two enums both start at `FSM_USER_START`
and so share numeric values (see `fsm_state.value`); a transition table only
ever mixes names whose values differ, so the names are kept apart here. -/
inductive fsm_state
  | FSM_INIT
  | FSM_EXIT
  | STATE_PARSE_ARGUMENTS
  | STATE_HANDLE_ARGUMENTS
  | STATE_CONVERT_ADDRESS
  | STATE_CREATE_SOCKET
  | STATE_BIND_SOCKET
  | STATE_LISTEN
  | STATE_CREATE_GUI_THREAD
  | STATE_CREATE_WINDOW
  | STATE_CREATE_SERVER_THREAD
  | STATE_CREATE_KEYBOARD_THREAD
  | STATE_LISTEN_CLIENT
  | STATE_CLIENT_CALCULATE_LOSSINESS
  | STATE_CLIENT_DROP
  | STATE_CLIENT_DELAY_PACKET
  | STATE_CLIENT_CORRUPT
  | STATE_SEND_CLIENT_PACKET
  | STATE_CLEANUP
  | STATE_ERROR
  | STATE_LISTEN_SERVER
  | STATE_SERVER_CALCULATE_LOSSINESS
  | STATE_SERVER_DELAY_PACKET
  | STATE_SERVER_DROP
  | STATE_SERVER_CORRUPT
  | STATE_SEND_SERVER_PACKET
deriving DecidableEq, Repr

open gui_stats fsm_state

/-- The `int` value of a state identifier, given the three constants of
`fsm.h` (which is not among the sources). -/
def fsm_state.value (fsm_init fsm_exit fsm_user_start : Int) : fsm_state → Int
  | FSM_INIT => fsm_init
  | FSM_EXIT => fsm_exit
  | STATE_PARSE_ARGUMENTS => fsm_user_start
  | STATE_HANDLE_ARGUMENTS => fsm_user_start + 1
  | STATE_CONVERT_ADDRESS => fsm_user_start + 2
  | STATE_CREATE_SOCKET => fsm_user_start + 3
  | STATE_BIND_SOCKET => fsm_user_start + 4
  | STATE_LISTEN => fsm_user_start + 5
  | STATE_CREATE_GUI_THREAD => fsm_user_start + 6
  | STATE_CREATE_WINDOW => fsm_user_start + 7
  | STATE_CREATE_SERVER_THREAD => fsm_user_start + 8
  | STATE_CREATE_KEYBOARD_THREAD => fsm_user_start + 9
  | STATE_LISTEN_CLIENT => fsm_user_start + 10
  | STATE_CLIENT_CALCULATE_LOSSINESS => fsm_user_start + 11
  | STATE_CLIENT_DROP => fsm_user_start + 12
  | STATE_CLIENT_DELAY_PACKET => fsm_user_start + 13
  | STATE_CLIENT_CORRUPT => fsm_user_start + 14
  | STATE_SEND_CLIENT_PACKET => fsm_user_start + 15
  | STATE_CLEANUP => fsm_user_start + 16
  | STATE_ERROR => fsm_user_start + 17
  | STATE_LISTEN_SERVER => fsm_user_start
  | STATE_SERVER_CALCULATE_LOSSINESS => fsm_user_start + 1
  | STATE_SERVER_DELAY_PACKET => fsm_user_start + 2
  | STATE_SERVER_DROP => fsm_user_start + 3
  | STATE_SERVER_CORRUPT => fsm_user_start + 4
  | STATE_SEND_SERVER_PACKET => fsm_user_start + 5

/-- The record `struct arguments`, the context shared by every thread of the proxy. File
pointers, socket addresses and thread handles are abstract values (`0` is `NULL`
for a file pointer); `thread_pool` is the number of `pthread_t` cells the pool
currently holds. The address and port strings are left out. -/
structure arguments where
  client_sockfd : Int
  server_sockfd : Int
  num_of_threads : Int
  proxy_gui_fd : Int
  connected_gui_fd : Int
  is_connected_gui : Int
  server_addr_struct : Nat
  client_addr_struct : Nat
  proxy_addr_struct : Nat
  gui_addr_struct : Nat
  thread_pool : Int
  server_packet : packet
  client_packet : packet
  client_delay_rate : Nat
  server_delay_rate : Nat
  client_drop_rate : Nat
  server_drop_rate : Nat
  corruption_rate : Nat
  sent_data : Nat
  received_data : Nat
deriving DecidableEq

/-- The start routines handed to `pthread_create`. -/
inductive thread_routine
  | init_gui_function
  | init_server_thread
  | init_keyboard_thread
  | init_client_delay_thread
  | init_server_delay_thread
deriving DecidableEq, Repr

/-- The calls a handler makes that are visible outside it, in program order.
`pthread_create` records the index of the `thread_pool` cell that receives the
handle (`none` for the three named threads). -/
inductive action
  | receive_packet (sockfd : Int)
  | send_packet (sockfd : Int) (pt : packet) (addr : Nat) (fp : Nat)
  | send_stats_gui (fd : Int) (code : gui_stats)
  | pthread_create (routine : thread_routine) (pool_index : Option Int)
  | pthread_join_server_thread
  | socket_close (fd : Int)
  | fclose (fp : Nat)
  | delay_packet (seconds : Nat)
deriving DecidableEq

/-- What a handler leaves behind: the state it returns, the context after it,
and the calls it made. -/
structure handler_result where
  next : fsm_state
  args : arguments
  trace : List action

/-- The parts of `proxy_config.h` / `proxy_config.c` used by `main.c`; neither
file is among the sources, so they are parameters of the model: the three
result codes, `calculate_lossiness` (any function of the three rates: the
random draw it makes is part of the function chosen) and `corrupt_data` (any
function from the buffer it is given and the length to the buffer it leaves
in `*data`). -/
structure proxy_config where
  DROP : Int
  DELAY : Int
  CORRUPT : Int
  calculate_lossiness : Nat → Nat → Nat → Int
  corrupt_data : List (Fin 256) → Nat → List (Fin 256)

/-- The results of the calls into the operating system and the other modules
during one pass through the handlers: `receive_packet` (its return value and
the packet it leaves in the buffer), `send_packet`, `realloc`, the value of
`exit_flag`, and the start-up calls. -/
structure environment where
  exit_flag : Int
  receive_result : Int
  received : packet
  send_result : Int
  realloc_ok : Bool
  parse_arguments_result : Int
  parsed_rates : Nat × Nat × Nat × Nat × Nat
  handle_arguments_result : Int
  fopen_received_data : Nat
  fopen_sent_data : Nat
  convert_address_result : Nat → Int
  converted_address : Nat → Nat
  socket_create_result : Nat → Int
  socket_bind_result : Nat → Int
  start_listening_result : Int
  pthread_create_result : thread_routine → Int

def DELAY_TIME : Nat := 5

/-- The guarded call `if (is_connected_gui) send_stats_gui(connected_gui_fd, code);`. -/
def stats_if_connected (ctx : arguments) (code : gui_stats) : List action :=
  if ctx.is_connected_gui ≠ 0 then [action.send_stats_gui ctx.connected_gui_fd code] else []

/-! ## The client-to-server pipeline -/

/-- The handler `listen_client_handler`. With `exit_flag` clear the loop body runs once:
`receive_packet` fills `client_packet`, `-1` leads to `STATE_ERROR`, otherwise
`RECEIVED_PACKET` is reported and the handler returns. -/
def listen_client_handler (exit_flag : Int) (receive_result : Int) (received : packet)
    (ctx : arguments) : handler_result :=
  if exit_flag ≠ 0 then
    { next := STATE_CLEANUP, args := ctx, trace := [] }
  else
    let ctx1 := { ctx with client_packet := received }
    if receive_result = -1 then
      { next := STATE_ERROR, args := ctx1, trace := [action.receive_packet ctx.client_sockfd] }
    else
      { next := STATE_CLIENT_CALCULATE_LOSSINESS, args := ctx1,
        trace := action.receive_packet ctx.client_sockfd
          :: stats_if_connected ctx1 RECEIVED_PACKET }

/-- The handler `calculate_client_lossiness_handler`. -/
def calculate_client_lossiness_handler (cfg : proxy_config) (ctx : arguments) :
    handler_result :=
  let result := cfg.calculate_lossiness ctx.client_drop_rate ctx.client_delay_rate
    ctx.corruption_rate
  if result = cfg.DROP then
    { next := STATE_CLIENT_DROP, args := ctx, trace := [] }
  else if result = cfg.DELAY then
    { next := STATE_CLIENT_DELAY_PACKET, args := ctx, trace := [] }
  else if result = cfg.CORRUPT then
    { next := STATE_CLIENT_CORRUPT, args := ctx, trace := [] }
  else
    { next := STATE_SEND_CLIENT_PACKET, args := ctx, trace := [] }

/-- The handler `client_drop_packet_handler`. -/
def client_drop_packet_handler (ctx : arguments) : handler_result :=
  { next := STATE_LISTEN_CLIENT, args := ctx,
    trace := stats_if_connected ctx DROPPED_CLIENT_PACKET }

/-- The handler `client_delay_packet_handler`. `num_of_threads` is incremented, the pool is
reallocated to `num_of_threads` cells (`NULL` leads to `STATE_ERROR` with the
old pool kept), the new thread is started with the context pointer as its
argument and its handle is stored at index `num_of_threads`. -/
def client_delay_packet_handler (realloc_ok : Bool) (ctx : arguments) : handler_result :=
  let ctx1 := { ctx with num_of_threads := ctx.num_of_threads + 1 }
  if realloc_ok = false then
    { next := STATE_ERROR, args := ctx1, trace := [] }
  else
    let ctx2 := { ctx1 with thread_pool := ctx1.num_of_threads }
    { next := STATE_LISTEN_CLIENT, args := ctx2,
      trace := action.pthread_create thread_routine.init_client_delay_thread
          (some ctx2.num_of_threads)
        :: stats_if_connected ctx2 DELAYED_CLIENT_PACKET }

/-- The handler `client_corrupt_packet_handler`. An empty string returns at once; otherwise
`CORRUPTED_DATA` is reported, the string of `client_packet.data` is duplicated,
`corrupt_data` works on the duplicate, and the result is copied back over
`client_packet.data`. -/
def client_corrupt_packet_handler (cfg : proxy_config) (ctx : arguments) : handler_result :=
  if strlen ctx.client_packet.data = 0 then
    { next := STATE_SEND_CLIENT_PACKET, args := ctx, trace := [] }
  else
    let temp := strdup ctx.client_packet.data
    let temp1 := cfg.corrupt_data temp (strlen ctx.client_packet.data)
    { next := STATE_SEND_CLIENT_PACKET,
      args := { ctx with
        client_packet := { ctx.client_packet with data := strcpy ctx.client_packet.data temp1 } },
      trace := stats_if_connected ctx CORRUPTED_DATA }

/-- The handler `send_client_packet_handler`. -/
def send_client_packet_handler (send_result : Int) (ctx : arguments) : handler_result :=
  let sent := action.send_packet ctx.server_sockfd ctx.client_packet ctx.server_addr_struct
    ctx.sent_data
  if send_result < 0 then
    { next := STATE_ERROR, args := ctx, trace := [sent] }
  else
    { next := STATE_LISTEN_CLIENT, args := ctx,
      trace := sent :: stats_if_connected ctx SENT_PACKET }

/-! ## The server-to-client pipeline -/

/-- The handler `listen_server_handler`. -/
def listen_server_handler (exit_flag : Int) (receive_result : Int) (received : packet)
    (ctx : arguments) : handler_result :=
  if exit_flag ≠ 0 then
    { next := FSM_EXIT, args := ctx, trace := [] }
  else
    let ctx1 := { ctx with server_packet := received }
    if receive_result = -1 then
      { next := STATE_ERROR, args := ctx1, trace := [action.receive_packet ctx.server_sockfd] }
    else
      { next := STATE_SERVER_CALCULATE_LOSSINESS, args := ctx1,
        trace := action.receive_packet ctx.server_sockfd
          :: stats_if_connected ctx1 RECEIVED_PACKET }

/-- The handler `calculate_server_lossiness_handler`. -/
def calculate_server_lossiness_handler (cfg : proxy_config) (ctx : arguments) :
    handler_result :=
  let result := cfg.calculate_lossiness ctx.server_drop_rate ctx.server_delay_rate
    ctx.corruption_rate
  if result = cfg.DROP then
    { next := STATE_SERVER_DROP, args := ctx, trace := [] }
  else if result = cfg.DELAY then
    { next := STATE_SERVER_DELAY_PACKET, args := ctx, trace := [] }
  else if result = cfg.CORRUPT then
    { next := STATE_SERVER_CORRUPT, args := ctx, trace := [] }
  else
    { next := STATE_SEND_SERVER_PACKET, args := ctx, trace := [] }

/-- The handler `server_drop_packet_handler`. -/
def server_drop_packet_handler (ctx : arguments) : handler_result :=
  { next := STATE_LISTEN_SERVER, args := ctx,
    trace := stats_if_connected ctx DROPPED_SERVER_PACKET }

/-- The handler `server_delay_packet_handler`. -/
def server_delay_packet_handler (realloc_ok : Bool) (ctx : arguments) : handler_result :=
  let ctx1 := { ctx with num_of_threads := ctx.num_of_threads + 1 }
  if realloc_ok = false then
    { next := STATE_ERROR, args := ctx1, trace := [] }
  else
    let ctx2 := { ctx1 with thread_pool := ctx1.num_of_threads }
    { next := STATE_LISTEN_SERVER, args := ctx2,
      trace := action.pthread_create thread_routine.init_server_delay_thread
          (some ctx2.num_of_threads)
        :: stats_if_connected ctx2 DELAYED_SERVER_PACKET }

/-- The handler `server_corrupt_packet_handler`. The test and the length passed to
`corrupt_data` read `server_packet.data`; the string that is duplicated is
`client_packet.data` (`temp = strdup(ctx->args->client_packet.data)`); the
result is copied over `server_packet.data`. -/
def server_corrupt_packet_handler (cfg : proxy_config) (ctx : arguments) : handler_result :=
  if strlen ctx.server_packet.data = 0 then
    { next := STATE_SEND_SERVER_PACKET, args := ctx, trace := [] }
  else
    let temp := strdup ctx.client_packet.data
    let temp1 := cfg.corrupt_data temp (strlen ctx.server_packet.data)
    { next := STATE_SEND_SERVER_PACKET,
      args := { ctx with
        server_packet := { ctx.server_packet with data := strcpy ctx.server_packet.data temp1 } },
      trace := stats_if_connected ctx CORRUPTED_DATA }

/-- The handler `send_server_packet_handler`. -/
def send_server_packet_handler (send_result : Int) (ctx : arguments) : handler_result :=
  let sent := action.send_packet ctx.client_sockfd ctx.server_packet ctx.client_addr_struct
    ctx.sent_data
  if send_result < 0 then
    { next := STATE_ERROR, args := ctx, trace := [sent] }
  else
    { next := STATE_LISTEN_SERVER, args := ctx,
      trace := sent :: stats_if_connected ctx SENT_PACKET }

/-! ## The delay tasks -/

/-- The thread routine `init_client_delay_thread`, from the return of `delay_packet` on. The
thread keeps `temp_packet = &ctx->args->client_packet`, a pointer into the
shared context, so `ctx` here is the context as it is when the delay is over. -/
def init_client_delay_thread (ctx : arguments) : List action :=
  action.delay_packet DELAY_TIME
    :: action.send_packet ctx.server_sockfd ctx.client_packet ctx.server_addr_struct
        ctx.sent_data
    :: stats_if_connected ctx SENT_PACKET

/-- The thread routine `init_server_delay_thread`, from the return of `delay_packet` on, with
`temp_packet = &ctx->args->server_packet`. -/
def init_server_delay_thread (ctx : arguments) : List action :=
  action.delay_packet DELAY_TIME
    :: action.send_packet ctx.client_sockfd ctx.server_packet ctx.client_addr_struct
        ctx.sent_data
    :: stats_if_connected ctx SENT_PACKET

/-! ## Start-up, clean-up and the transition tables -/

/-- The function `create_file`: the return value and the pointer stored in `*fp`. -/
def create_file (fopen_result : Nat) : Int × Nat :=
  (if fopen_result = 0 then -1 else 0, fopen_result)

/-- The handler `parse_arguments_handler`; `parse_arguments` writes the five rates. -/
def parse_arguments_handler (env : environment) (ctx : arguments) : handler_result :=
  let ctx1 := { ctx with
    client_delay_rate := env.parsed_rates.1
    client_drop_rate := env.parsed_rates.2.1
    server_delay_rate := env.parsed_rates.2.2.1
    server_drop_rate := env.parsed_rates.2.2.2.1
    corruption_rate := env.parsed_rates.2.2.2.2 }
  if env.parse_arguments_result = -1 then
    { next := STATE_ERROR, args := ctx1, trace := [] }
  else
    { next := STATE_HANDLE_ARGUMENTS, args := ctx1, trace := [] }

/-- The handler `handle_arguments_handler`. -/
def handle_arguments_handler (env : environment) (ctx : arguments) : handler_result :=
  if env.handle_arguments_result ≠ 0 then
    { next := STATE_ERROR, args := ctx, trace := [] }
  else
    let ctx1 := { ctx with received_data := (create_file env.fopen_received_data).2 }
    if (create_file env.fopen_received_data).1 = -1 then
      { next := STATE_ERROR, args := ctx1, trace := [] }
    else
      let ctx2 := { ctx1 with sent_data := (create_file env.fopen_sent_data).2 }
      if (create_file env.fopen_sent_data).1 = -1 then
        { next := STATE_ERROR, args := ctx2, trace := [] }
      else
        { next := STATE_CONVERT_ADDRESS, args := ctx2, trace := [] }

/-- The handler `convert_address_handler`: four calls of `convert_address`, numbered in
program order. -/
def convert_address_handler (env : environment) (ctx : arguments) : handler_result :=
  let ctx1 := { ctx with proxy_addr_struct := env.converted_address 0 }
  if env.convert_address_result 0 ≠ 0 then
    { next := STATE_ERROR, args := ctx1, trace := [] }
  else
    let ctx2 := { ctx1 with server_addr_struct := env.converted_address 1 }
    if env.convert_address_result 1 ≠ 0 then
      { next := STATE_ERROR, args := ctx2, trace := [] }
    else
      let ctx3 := { ctx2 with client_addr_struct := env.converted_address 2 }
      if env.convert_address_result 2 ≠ 0 then
        { next := STATE_ERROR, args := ctx3, trace := [] }
      else
        let ctx4 := { ctx3 with gui_addr_struct := env.converted_address 3 }
        if env.convert_address_result 3 ≠ 0 then
          { next := STATE_ERROR, args := ctx4, trace := [] }
        else
          { next := STATE_CREATE_SOCKET, args := ctx4, trace := [] }

/-- The handler `create_socket_handler`: three calls of `socket_create`. -/
def create_socket_handler (env : environment) (ctx : arguments) : handler_result :=
  let ctx1 := { ctx with client_sockfd := env.socket_create_result 0 }
  if ctx1.client_sockfd = -1 then
    { next := STATE_ERROR, args := ctx1, trace := [] }
  else
    let ctx2 := { ctx1 with server_sockfd := env.socket_create_result 1 }
    if ctx2.server_sockfd = -1 then
      { next := STATE_ERROR, args := ctx2, trace := [] }
    else
      let ctx3 := { ctx2 with proxy_gui_fd := env.socket_create_result 2 }
      if ctx3.proxy_gui_fd = -1 then
        { next := STATE_ERROR, args := ctx3, trace := [] }
      else
        { next := STATE_BIND_SOCKET, args := ctx3, trace := [] }

/-- The handler `bind_socket_handler`: three calls of `socket_bind`. -/
def bind_socket_handler (env : environment) (ctx : arguments) : handler_result :=
  if env.socket_bind_result 0 ≠ 0 then
    { next := STATE_ERROR, args := ctx, trace := [] }
  else if env.socket_bind_result 1 ≠ 0 then
    { next := STATE_ERROR, args := ctx, trace := [] }
  else if env.socket_bind_result 2 ≠ 0 then
    { next := STATE_ERROR, args := ctx, trace := [] }
  else
    { next := STATE_LISTEN, args := ctx, trace := [] }

/-- The handler `listen_handler`. -/
def listen_handler (env : environment) (ctx : arguments) : handler_result :=
  if env.start_listening_result ≠ 0 then
    { next := STATE_ERROR, args := ctx, trace := [] }
  else
    { next := STATE_CREATE_GUI_THREAD, args := ctx, trace := [] }

/-- The handler `create_gui_thread_handler`. -/
def create_gui_thread_handler (env : environment) (ctx : arguments) : handler_result :=
  let call := action.pthread_create thread_routine.init_gui_function none
  if env.pthread_create_result thread_routine.init_gui_function < 0 then
    { next := STATE_ERROR, args := ctx, trace := [call] }
  else
    { next := STATE_CREATE_SERVER_THREAD, args := ctx, trace := [call] }

/-- The handler `create_server_thread_handler`. -/
def create_server_thread_handler (env : environment) (ctx : arguments) : handler_result :=
  let call := action.pthread_create thread_routine.init_server_thread none
  if env.pthread_create_result thread_routine.init_server_thread < 0 then
    { next := STATE_ERROR, args := ctx, trace := [call] }
  else
    { next := STATE_CREATE_KEYBOARD_THREAD, args := ctx, trace := [call] }

/-- The handler `create_keyboard_thread_handler`. -/
def create_keyboard_thread_handler (env : environment) (ctx : arguments) : handler_result :=
  let call := action.pthread_create thread_routine.init_keyboard_thread none
  if env.pthread_create_result thread_routine.init_keyboard_thread < 0 then
    { next := STATE_ERROR, args := ctx, trace := [call] }
  else
    { next := STATE_LISTEN_CLIENT, args := ctx, trace := [call] }

/-- The guarded call `if (fd) socket_close(fd, err)`. -/
def close_if_set (fd : Int) : List action :=
  if fd ≠ 0 then [action.socket_close fd] else []

/-- The handler `cleanup_handler`. -/
def cleanup_handler (ctx : arguments) : handler_result :=
  { next := FSM_EXIT, args := ctx,
    trace := [action.pthread_join_server_thread]
      ++ close_if_set ctx.client_sockfd ++ close_if_set ctx.server_sockfd
      ++ close_if_set ctx.proxy_gui_fd ++ close_if_set ctx.connected_gui_fd
      ++ [action.fclose ctx.sent_data, action.fclose ctx.received_data] }

/-- The handler `error_handler`. -/
def error_handler (ctx : arguments) : handler_result :=
  { next := STATE_CLEANUP, args := ctx, trace := [] }

/-- The handler functions named in the transition tables. -/
inductive handler
  | parse_arguments_handler
  | handle_arguments_handler
  | convert_address_handler
  | create_socket_handler
  | bind_socket_handler
  | listen_handler
  | create_gui_thread_handler
  | create_server_thread_handler
  | create_keyboard_thread_handler
  | listen_client_handler
  | calculate_client_lossiness_handler
  | client_drop_packet_handler
  | client_delay_packet_handler
  | client_corrupt_packet_handler
  | send_client_packet_handler
  | cleanup_handler
  | error_handler
  | listen_server_handler
  | calculate_server_lossiness_handler
  | server_drop_packet_handler
  | server_delay_packet_handler
  | server_corrupt_packet_handler
  | send_server_packet_handler
deriving DecidableEq, Repr

/-- A call of a handler function through its pointer. -/
def run_handler (h : handler) (cfg : proxy_config) (env : environment) (ctx : arguments) :
    handler_result :=
  match h with
  | .parse_arguments_handler => parse_arguments_handler env ctx
  | .handle_arguments_handler => handle_arguments_handler env ctx
  | .convert_address_handler => convert_address_handler env ctx
  | .create_socket_handler => create_socket_handler env ctx
  | .bind_socket_handler => bind_socket_handler env ctx
  | .listen_handler => listen_handler env ctx
  | .create_gui_thread_handler => create_gui_thread_handler env ctx
  | .create_server_thread_handler => create_server_thread_handler env ctx
  | .create_keyboard_thread_handler => create_keyboard_thread_handler env ctx
  | .listen_client_handler =>
      listen_client_handler env.exit_flag env.receive_result env.received ctx
  | .calculate_client_lossiness_handler => calculate_client_lossiness_handler cfg ctx
  | .client_drop_packet_handler => client_drop_packet_handler ctx
  | .client_delay_packet_handler => client_delay_packet_handler env.realloc_ok ctx
  | .client_corrupt_packet_handler => client_corrupt_packet_handler cfg ctx
  | .send_client_packet_handler => send_client_packet_handler env.send_result ctx
  | .cleanup_handler => cleanup_handler ctx
  | .error_handler => error_handler ctx
  | .listen_server_handler =>
      listen_server_handler env.exit_flag env.receive_result env.received ctx
  | .calculate_server_lossiness_handler => calculate_server_lossiness_handler cfg ctx
  | .server_drop_packet_handler => server_drop_packet_handler ctx
  | .server_delay_packet_handler => server_delay_packet_handler env.realloc_ok ctx
  | .server_corrupt_packet_handler => server_corrupt_packet_handler cfg ctx
  | .send_server_packet_handler => send_server_packet_handler env.send_result ctx

/-- The record `struct fsm_transition`: a row of a transition table; `perform` is `none`
for a `NULL` handler. -/
structure fsm_transition where
  from_id : fsm_state
  to_id : fsm_state
  perform : Option handler
deriving DecidableEq

/-- The table `transitions` of `main`. -/
def main_transitions : List fsm_transition :=
  [ ⟨FSM_INIT, STATE_PARSE_ARGUMENTS, some .parse_arguments_handler⟩,
    ⟨STATE_PARSE_ARGUMENTS, STATE_HANDLE_ARGUMENTS, some .handle_arguments_handler⟩,
    ⟨STATE_HANDLE_ARGUMENTS, STATE_CONVERT_ADDRESS, some .convert_address_handler⟩,
    ⟨STATE_CONVERT_ADDRESS, STATE_CREATE_SOCKET, some .create_socket_handler⟩,
    ⟨STATE_CREATE_SOCKET, STATE_BIND_SOCKET, some .bind_socket_handler⟩,
    ⟨STATE_BIND_SOCKET, STATE_LISTEN, some .listen_handler⟩,
    ⟨STATE_LISTEN, STATE_CREATE_GUI_THREAD, some .create_gui_thread_handler⟩,
    ⟨STATE_CREATE_GUI_THREAD, STATE_CREATE_SERVER_THREAD, some .create_server_thread_handler⟩,
    ⟨STATE_CREATE_SERVER_THREAD, STATE_CREATE_KEYBOARD_THREAD,
      some .create_keyboard_thread_handler⟩,
    ⟨STATE_CREATE_KEYBOARD_THREAD, STATE_LISTEN_CLIENT, some .listen_client_handler⟩,
    ⟨STATE_LISTEN_CLIENT, STATE_CLIENT_CALCULATE_LOSSINESS,
      some .calculate_client_lossiness_handler⟩,
    ⟨STATE_LISTEN_CLIENT, STATE_CLEANUP, some .cleanup_handler⟩,
    ⟨STATE_CLIENT_CALCULATE_LOSSINESS, STATE_CLIENT_DROP, some .client_drop_packet_handler⟩,
    ⟨STATE_CLIENT_CALCULATE_LOSSINESS, STATE_CLIENT_DELAY_PACKET,
      some .client_delay_packet_handler⟩,
    ⟨STATE_CLIENT_CALCULATE_LOSSINESS, STATE_CLIENT_CORRUPT,
      some .client_corrupt_packet_handler⟩,
    ⟨STATE_CLIENT_CALCULATE_LOSSINESS, STATE_SEND_CLIENT_PACKET,
      some .send_client_packet_handler⟩,
    ⟨STATE_CLIENT_DROP, STATE_LISTEN_CLIENT, some .listen_client_handler⟩,
    ⟨STATE_CLIENT_DELAY_PACKET, STATE_LISTEN_CLIENT, some .listen_client_handler⟩,
    ⟨STATE_CLIENT_CORRUPT, STATE_SEND_CLIENT_PACKET, some .send_client_packet_handler⟩,
    ⟨STATE_SEND_CLIENT_PACKET, STATE_LISTEN_CLIENT, some .listen_client_handler⟩,
    ⟨STATE_ERROR, STATE_CLEANUP, some .cleanup_handler⟩,
    ⟨STATE_PARSE_ARGUMENTS, STATE_ERROR, some .error_handler⟩,
    ⟨STATE_HANDLE_ARGUMENTS, STATE_ERROR, some .error_handler⟩,
    ⟨STATE_CONVERT_ADDRESS, STATE_ERROR, some .error_handler⟩,
    ⟨STATE_CREATE_SOCKET, STATE_ERROR, some .error_handler⟩,
    ⟨STATE_BIND_SOCKET, STATE_ERROR, some .error_handler⟩,
    ⟨STATE_CREATE_WINDOW, STATE_ERROR, some .error_handler⟩,
    ⟨STATE_CREATE_SERVER_THREAD, STATE_ERROR, some .error_handler⟩,
    ⟨STATE_CREATE_KEYBOARD_THREAD, STATE_ERROR, some .error_handler⟩,
    ⟨STATE_LISTEN_CLIENT, STATE_ERROR, some .error_handler⟩,
    ⟨STATE_CLIENT_DROP, STATE_ERROR, some .error_handler⟩,
    ⟨STATE_SEND_CLIENT_PACKET, STATE_ERROR, some .error_handler⟩,
    ⟨STATE_CLEANUP, FSM_EXIT, none⟩ ]

/-- The table `transitions` of `init_server_thread`. -/
def server_transitions : List fsm_transition :=
  [ ⟨FSM_INIT, STATE_LISTEN_SERVER, some .listen_server_handler⟩,
    ⟨STATE_LISTEN_SERVER, STATE_SERVER_CALCULATE_LOSSINESS,
      some .calculate_server_lossiness_handler⟩,
    ⟨STATE_SERVER_CALCULATE_LOSSINESS, STATE_SERVER_DROP, some .server_drop_packet_handler⟩,
    ⟨STATE_SERVER_CALCULATE_LOSSINESS, STATE_SERVER_DELAY_PACKET,
      some .server_delay_packet_handler⟩,
    ⟨STATE_SERVER_CALCULATE_LOSSINESS, STATE_SERVER_CORRUPT,
      some .server_corrupt_packet_handler⟩,
    ⟨STATE_SERVER_CALCULATE_LOSSINESS, STATE_SEND_SERVER_PACKET,
      some .send_server_packet_handler⟩,
    ⟨STATE_SERVER_DROP, STATE_LISTEN_SERVER, some .listen_server_handler⟩,
    ⟨STATE_SERVER_DELAY_PACKET, STATE_LISTEN_SERVER, some .listen_server_handler⟩,
    ⟨STATE_SERVER_CORRUPT, STATE_SEND_SERVER_PACKET, some .send_server_packet_handler⟩,
    ⟨STATE_SEND_SERVER_PACKET, STATE_LISTEN_SERVER, some .listen_server_handler⟩,
    ⟨STATE_LISTEN_SERVER, FSM_EXIT, none⟩,
    ⟨STATE_ERROR, FSM_EXIT, none⟩ ]

/-- Modelled from the spec: the look-up made by the table-of-transitions
harness `fsm_run` (`fsm.c` is not among the sources): the first row of the
table whose `from_id` and `to_id` are the current pair. -/
def find_transition (table : List fsm_transition) (from_id to_id : fsm_state) :
    Option fsm_transition :=
  table.find? (fun row => decide (row.from_id = from_id ∧ row.to_id = to_id))

/-- Modelled from the spec: one packet's pass through a pipeline under the
harness `fsm_run` (`fsm.c` is not among the sources). Starting with the pair
`(from_id, to_id)`, the handler of the row for the pair runs and the state it
returns becomes the new `to_id`; the pass is over when a handler returns
`listen` (the pipeline is back at its listen state), when the pair has no row
or a row without handler, or when `FSM_EXIT` is reached. The result is the pair
the harness is left with, the context, and the calls made, `none` when `fuel`
handler calls were not enough. -/
def run_cycle (table : List fsm_transition) (listen : fsm_state) (cfg : proxy_config)
    (env : environment) :
    Nat → fsm_state → fsm_state → arguments → Option (fsm_state × handler_result)
  | 0, _, _, _ => none
  | fuel + 1, from_id, to_id, ctx =>
    match find_transition table from_id to_id with
    | some ⟨_, _, some h⟩ =>
      let r := run_handler h cfg env ctx
      if r.next = listen ∨ r.next = FSM_EXIT then some (to_id, r)
      else
        (run_cycle table listen cfg env fuel to_id r.next r.args).map
          (fun out => (out.1, { out.2 with trace := r.trace ++ out.2.trace }))
    | _ => some (from_id, { next := to_id, args := ctx, trace := [] })

/-- The statistics codes sent during a run, in order. -/
def stats_codes (tr : List action) : List gui_stats :=
  tr.filterMap (fun a => match a with
    | action.send_stats_gui _ code => some code
    | _ => none)

/-- The packets handed to `send_packet` during a run, in order. -/
def sent_packets (tr : List action) : List packet :=
  tr.filterMap (fun a => match a with
    | action.send_packet _ pt _ _ => some pt
    | _ => none)

/-! ## Sample values used in the concrete evaluations below -/

/-- A data packet (`seq 100`, `ack 200`, flags `8`, window `5`) with the given
checksum and payload buffer. -/
def sample_packet (checksum : Nat) (data : List (Fin 256)) : packet :=
  { hd := { seq_number := 100, ack_number := 200, flags := 8, window_size := 5,
            checksum := checksum },
    data := data }

/-- A context after start-up with an observer connected: both packet buffers
hold the given packets. -/
def sample_args (client_packet server_packet : packet) : arguments :=
  { client_sockfd := 3, server_sockfd := 4, num_of_threads := 0, proxy_gui_fd := 5,
    connected_gui_fd := 6, is_connected_gui := 1, server_addr_struct := 1,
    client_addr_struct := 2, proxy_addr_struct := 3, gui_addr_struct := 4, thread_pool := 0,
    server_packet := server_packet, client_packet := client_packet,
    client_delay_rate := 0, server_delay_rate := 0, client_drop_rate := 0,
    server_drop_rate := 0, corruption_rate := 0, sent_data := 7, received_data := 8 }

/-- One possible `corrupt_data`: it adds one to the first byte of the buffer. -/
def increment_first_byte (buf : List (Fin 256)) (_length : Nat) : List (Fin 256) :=
  match buf with
  | [] => []
  | b :: rest => (b + 1) :: rest

/-- A configuration with result codes `DROP = 1`, `DELAY = 2`, `CORRUPT = 3`, a
`calculate_lossiness` that answers `result` and `increment_first_byte` as
`corrupt_data`. -/
def sample_config (result : Int) : proxy_config :=
  { DROP := 1, DELAY := 2, CORRUPT := 3, calculate_lossiness := fun _ _ _ => result,
    corrupt_data := increment_first_byte }

/-- An environment in which every start-up call succeeds, `exit_flag` is clear
and `receive_packet` delivers `received`; `send_packet` returns `send_result`
and `realloc` succeeds iff `realloc_ok`. -/
def sample_environment (received : packet) (send_result : Int) (realloc_ok : Bool) :
    environment :=
  { exit_flag := 0, receive_result := 0, received := received, send_result := send_result,
    realloc_ok := realloc_ok, parse_arguments_result := 0, parsed_rates := (0, 0, 0, 0, 0),
    handle_arguments_result := 0, fopen_received_data := 8, fopen_sent_data := 7,
    convert_address_result := fun _ => 0, converted_address := fun n => n + 1,
    socket_create_result := fun n => n + 3, socket_bind_result := fun _ => 0,
    start_listening_result := 0, pthread_create_result := fun _ => 0 }
/-! ## protocol.c: flag classification and the dispatcher -/

/-- The six flag constants of `protocol.h`, which is not among the sources:
they are parameters of the model. -/
structure flag_constants where
  SYN : Int
  SYNACK : Int
  ACK : Int
  PSHACK : Int
  FINACK : Int
  RSTACK : Int

/-- Modelled from the spec: the result codes of `read_flags`, an enumeration of
`protocol.h` (not among the sources), one name per code the source uses. -/
inductive flag_result
  | ESTABLISH_HANDSHAKE
  | SEND_HANDSHAKE_ACK
  | RECV_ACK
  | SEND_ACK
  | END_CONNECTION
  | RECV_RST
  | UNKNOWN_FLAG
deriving DecidableEq, Repr

open flag_result

/-- The function `read_flags`: the 8-bit `flags` is compared with the
constants in the order `SYN`, `SYNACK`, `PSHACK`, `ACK`, `FINACK`, `RSTACK`. -/
def read_flags (k : flag_constants) (flags : Nat) : flag_result :=
  if (flags : Int) = k.SYN then ESTABLISH_HANDSHAKE
  else if (flags : Int) = k.SYNACK then SEND_HANDSHAKE_ACK
  else if (flags : Int) = k.PSHACK then SEND_ACK
  else if (flags : Int) = k.ACK then RECV_ACK
  else if (flags : Int) = k.FINACK then END_CONNECTION
  else if (flags : Int) = k.RSTACK then RECV_RST
  else UNKNOWN_FLAG

/-- The helper functions `read_received_packet` hands a packet to. -/
inductive protocol_helper
  | send_syn_ack_packet
  | send_handshake_ack_packet
  | send_data_ack_packet
  | recv_termination_request
deriving DecidableEq, Repr

/-- The function `read_received_packet`: its return value and the helper it
called, if any. The `switch` has cases for `ESTABLISH_HANDSHAKE`,
`SEND_HANDSHAKE_ACK`, `SEND_ACK` and `END_CONNECTION`, each calling a helper
whose result is ignored before `return 0`; `RECV_RST`, `UNKNOWN_FLAG` and
`default` return `-1`. -/
def read_received_packet (k : flag_constants) (pt : packet) : Int × Option protocol_helper :=
  match read_flags k pt.hd.flags with
  | ESTABLISH_HANDSHAKE => (0, some protocol_helper.send_syn_ack_packet)
  | SEND_HANDSHAKE_ACK => (0, some protocol_helper.send_handshake_ack_packet)
  | SEND_ACK => (0, some protocol_helper.send_data_ack_packet)
  | END_CONNECTION => (0, some protocol_helper.recv_termination_request)
  | RECV_RST => (-1, none)
  | UNKNOWN_FLAG => (-1, none)
  | _ => (-1, none)

/-! ## server/src/command_line.c: numeric arguments -/

/-- What the C library's `strtoumax(string, &endptr, 10)` leaves behind: the
value it returns, the character `*endptr` at which it stopped (`0` for the
terminator of the string) and the value of `errno` after the call (which the
caller set to `0` before it). -/
structure strtoumax_result where
  parsed_value : Nat
  end_char : Nat
  errno : Int

/-- The function `convert_to_int`, after its call of `strtoumax`: the return
value and the content of `*value` (an `uint8_t`) when it returns, given the
content `value` of `*value` before the call. -/
def convert_to_int (r : strtoumax_result) (value : Nat) : Int × Nat :=
  if r.errno ≠ 0 then (-1, value)
  else if r.end_char ≠ 0 then (-1, value)
  else if r.parsed_value > 100 then (-1, value)
  else (0, r.parsed_value % 256)

/-! ## main and the harness -/

/-- The calls of `send_packet` in a run, in order: socket, packet and
destination address. -/
def send_calls (tr : List action) : List (Int × packet × Nat) :=
  tr.filterMap (fun a => match a with
    | action.send_packet sockfd pt addr _ => some (sockfd, pt, addr)
    | _ => none)

/-- The calls of `receive_packet` in a run, in order: the socket read. -/
def receive_calls (tr : List action) : List Int :=
  tr.filterMap (fun a => match a with
    | action.receive_packet sockfd => some sockfd
    | _ => none)

/-- The start routines handed to `pthread_create` in a run, in order. -/
def started_threads (tr : List action) : List thread_routine :=
  tr.filterMap (fun a => match a with
    | action.pthread_create routine _ => some routine
    | _ => none)

/-- The file pointers handed to `fclose` in a run, in order. -/
def fclose_calls (tr : List action) : List Nat :=
  tr.filterMap (fun a => match a with
    | action.fclose fp => some fp
    | _ => none)

/-- What a run of the harness leaves behind: whether its loop ended within the
handler calls allowed, the pair of states it is left with, the context, the
handlers it called and the calls they made, both in order. -/
structure fsm_run_result where
  finished : Bool
  from_id : fsm_state
  to_id : fsm_state
  args : arguments
  calls : List handler
  trace : List action

/-- Modelled from the spec: the table-of-transitions harness `fsm_run`
(`fsm.c` is not among the sources). With the pair `(from_id, to_id)` it looks
up the row, calls the row's handler, and goes on with `to_id` and the state
the handler returned; the loop ends when a handler returns `FSM_EXIT`, or when
the pair has no row or a row without handler. The `k`-th handler call gets
the results `envs k` of the calls it makes into the operating system. At most
`fuel` handlers are called; `finished` is `false` when that was not enough. -/
def fsm_run (table : List fsm_transition) (cfg : proxy_config) (envs : Nat → environment) :
    Nat → Nat → fsm_state → fsm_state → arguments → fsm_run_result
  | 0, _, from_id, to_id, ctx =>
    { finished := false, from_id := from_id, to_id := to_id, args := ctx, calls := [],
      trace := [] }
  | fuel + 1, k, from_id, to_id, ctx =>
    match find_transition table from_id to_id with
    | some ⟨_, _, some h⟩ =>
      let r := run_handler h cfg (envs k) ctx
      if r.next = FSM_EXIT then
        { finished := true, from_id := to_id, to_id := FSM_EXIT, args := r.args, calls := [h],
          trace := r.trace }
      else
        let rest := fsm_run table cfg envs fuel (k + 1) to_id r.next r.args
        { rest with calls := h :: rest.calls, trace := r.trace ++ rest.trace }
    | _ =>
      { finished := true, from_id := from_id, to_id := to_id, args := ctx, calls := [],
        trace := [] }

/-- The context `args` of `main` before the state machine starts: the
designated initialiser sets the five rates, `num_of_threads` and
`is_connected_gui` to `0` and leaves every other member zero; a packet buffer
of `max_payload` cells is all zero. -/
def initial_arguments (max_payload : Nat) : arguments :=
  { client_sockfd := 0, server_sockfd := 0, num_of_threads := 0, proxy_gui_fd := 0,
    connected_gui_fd := 0, is_connected_gui := 0, server_addr_struct := 0,
    client_addr_struct := 0, proxy_addr_struct := 0, gui_addr_struct := 0, thread_pool := 0,
    server_packet := { hd := { seq_number := 0, ack_number := 0, flags := 0, window_size := 0,
                               checksum := 0 },
                       data := List.replicate max_payload 0 },
    client_packet := { hd := { seq_number := 0, ack_number := 0, flags := 0, window_size := 0,
                               checksum := 0 },
                       data := List.replicate max_payload 0 },
    client_delay_rate := 0, server_delay_rate := 0, client_drop_rate := 0,
    server_drop_rate := 0, corruption_rate := 0, sent_data := 0, received_data := 0 }

/-- The function `main` of the proxy: it runs the state machine on the table
`transitions` from the pair `(FSM_INIT, STATE_PARSE_ARGUMENTS)` and then
executes `return 0;`. The result is `none` when the state machine has not
ended within `fuel` handler calls, and when the run has called `fclose` with a
null pointer: the behaviour of the program is undefined from that call on, so
`return 0;` is not known to be reached. The call of `pthread_join` on the
member `server_thread`, which the initialiser leaves zero until
`create_server_thread_handler` has run, is taken to return; its result is not
used. -/
def main (cfg : proxy_config) (envs : Nat → environment) (fuel : Nat) (max_payload : Nat) :
    Option Int :=
  let run := fsm_run main_transitions cfg envs fuel 0 FSM_INIT STATE_PARSE_ARGUMENTS
    (initial_arguments max_payload)
  if run.finished = true ∧ 0 ∉ fclose_calls run.trace then some 0 else none

/-! ### Success of the start-up calls -/

/-- The call of `parse_arguments` succeeds. -/
abbrev parse_ok (env : environment) : Prop := env.parse_arguments_result ≠ -1

/-- The calls of `handle_arguments` and of both `create_file` succeed. -/
abbrev handle_ok (env : environment) : Prop :=
  env.handle_arguments_result = 0 ∧ env.fopen_received_data ≠ 0 ∧ env.fopen_sent_data ≠ 0

/-- The four calls of `convert_address` succeed. -/
abbrev convert_ok (env : environment) : Prop :=
  env.convert_address_result 0 = 0 ∧ env.convert_address_result 1 = 0
    ∧ env.convert_address_result 2 = 0 ∧ env.convert_address_result 3 = 0

/-- The three calls of `socket_create` succeed. -/
abbrev sockets_ok (env : environment) : Prop :=
  env.socket_create_result 0 ≠ -1 ∧ env.socket_create_result 1 ≠ -1
    ∧ env.socket_create_result 2 ≠ -1

/-- The three calls of `socket_bind` succeed. -/
abbrev bind_ok (env : environment) : Prop :=
  env.socket_bind_result 0 = 0 ∧ env.socket_bind_result 1 = 0 ∧ env.socket_bind_result 2 = 0

/-- The call of `start_listening` succeeds. -/
abbrev listen_ok (env : environment) : Prop := env.start_listening_result = 0

/-- The given call of `pthread_create` is not taken for a failure by its
handler (the test is `result < 0`). -/
abbrev thread_ok (env : environment) (routine : thread_routine) : Prop :=
  ¬ env.pthread_create_result routine < 0

/-- Flag constants used in the concrete evaluations: `SYN = 1`, `SYNACK = 2`,
`ACK = 4`, `PSHACK = 8`, `FINACK = 16`, `RSTACK = 32`. -/
def sample_flags : flag_constants :=
  { SYN := 1, SYNACK := 2, ACK := 4, PSHACK := 8, FINACK := 16, RSTACK := 32 }

/-! ## The delay pool, the return statements, and port numbers -/

/-- The indices of `thread_pool` at which the calls of `pthread_create` in a
run store the new thread handle, in order. -/
def pool_indices (tr : List action) : List Int :=
  tr.filterMap (fun a => match a with
    | action.pthread_create _ (some index) => some index
    | _ => none)

/-- The number of calls of `pthread_join(server_thread, NULL)` in a run. -/
def join_calls (tr : List action) : Nat :=
  (tr.filter (fun a => decide (a = action.pthread_join_server_thread))).length

/-- The states named in the `return` statements of each handler. -/
def possible_next : handler → List fsm_state
  | .parse_arguments_handler => [STATE_ERROR, STATE_HANDLE_ARGUMENTS]
  | .handle_arguments_handler => [STATE_ERROR, STATE_CONVERT_ADDRESS]
  | .convert_address_handler => [STATE_ERROR, STATE_CREATE_SOCKET]
  | .create_socket_handler => [STATE_ERROR, STATE_BIND_SOCKET]
  | .bind_socket_handler => [STATE_ERROR, STATE_LISTEN]
  | .listen_handler => [STATE_ERROR, STATE_CREATE_GUI_THREAD]
  | .create_gui_thread_handler => [STATE_ERROR, STATE_CREATE_SERVER_THREAD]
  | .create_server_thread_handler => [STATE_ERROR, STATE_CREATE_KEYBOARD_THREAD]
  | .create_keyboard_thread_handler => [STATE_ERROR, STATE_LISTEN_CLIENT]
  | .listen_client_handler =>
      [STATE_ERROR, STATE_CLIENT_CALCULATE_LOSSINESS, STATE_CLEANUP]
  | .calculate_client_lossiness_handler =>
      [STATE_CLIENT_DROP, STATE_CLIENT_DELAY_PACKET, STATE_CLIENT_CORRUPT,
        STATE_SEND_CLIENT_PACKET]
  | .client_drop_packet_handler => [STATE_LISTEN_CLIENT]
  | .client_delay_packet_handler => [STATE_ERROR, STATE_LISTEN_CLIENT]
  | .client_corrupt_packet_handler => [STATE_SEND_CLIENT_PACKET]
  | .send_client_packet_handler => [STATE_ERROR, STATE_LISTEN_CLIENT]
  | .cleanup_handler => [FSM_EXIT]
  | .error_handler => [STATE_CLEANUP]
  | .listen_server_handler =>
      [STATE_ERROR, STATE_SERVER_CALCULATE_LOSSINESS, FSM_EXIT]
  | .calculate_server_lossiness_handler =>
      [STATE_SERVER_DROP, STATE_SERVER_DELAY_PACKET, STATE_SERVER_CORRUPT,
        STATE_SEND_SERVER_PACKET]
  | .server_drop_packet_handler => [STATE_LISTEN_SERVER]
  | .server_delay_packet_handler => [STATE_ERROR, STATE_LISTEN_SERVER]
  | .server_corrupt_packet_handler => [STATE_SEND_SERVER_PACKET]
  | .send_server_packet_handler => [STATE_ERROR, STATE_LISTEN_SERVER]

/-- The pairs `(to, r)` for which a table has a row `(from, to, handler)` whose
handler has a `return r;` while the table has no row for the pair `(to, r)`. -/
def open_pairs (table : List fsm_transition) : List (fsm_state × fsm_state) :=
  (table.flatMap (fun row =>
    match row.perform with
    | none => []
    | some h =>
      ((possible_next h).filter (fun r => (find_transition table row.to_id r).isNone)).map
        (fun r => (row.to_id, r)))).eraseDups

/-! ### The C library's `strtoumax` for base 10 -/

/-- The white-space characters of the C locale: space, and `\t \n \v \f \r`. -/
def is_space (c : Nat) : Bool := decide (c = 32 ∨ (9 ≤ c ∧ c ≤ 13))

/-- The decimal digits `'0'` to `'9'`. -/
def is_digit (c : Nat) : Bool := decide (48 ≤ c ∧ c ≤ 57)

/-- The number written by a sequence of decimal digits. -/
def digits_value (digits : List Nat) : Nat :=
  digits.foldl (fun acc c => acc * 10 + (c - 48)) 0

/-- The largest `uintmax_t`, for a 64-bit `uintmax_t`. -/
def UINTMAX_MAX : Nat := 2 ^ 64 - 1

/-- The value of `ERANGE` (any non-zero value serves). -/
def ERANGE : Int := 34

/-- The C library function `strtoumax(str, &endptr, 10)` called with `errno`
set to `0`, as the C standard describes `strtoul` and its relatives; `str` is
the characters of the string before its terminator. Leading white space is
skipped, one sign `+` or `-` is accepted, then the longest run of decimal
digits is converted. Without a digit no conversion is performed: the result is
`0` and `endptr` is `str` itself; the standard leaves `errno` open there, so it
is the parameter `no_conversion_errno`. A value above `UINTMAX_MAX` gives
`UINTMAX_MAX` with `errno = ERANGE`; after a `-` the value is negated in
`uintmax_t`. -/
def strtoumax (no_conversion_errno : Int) (str : List Nat) : strtoumax_result :=
  let after_space := str.dropWhile is_space
  let negative := decide (after_space.head? = some 45)
  let after_sign :=
    match after_space with
    | c :: rest => if c = 43 ∨ c = 45 then rest else after_space
    | [] => []
  let digits := after_sign.takeWhile is_digit
  let rest := after_sign.dropWhile is_digit
  if digits = [] then
    { parsed_value := 0, end_char := str.headD 0, errno := no_conversion_errno }
  else if digits_value digits > UINTMAX_MAX then
    { parsed_value := UINTMAX_MAX, end_char := rest.headD 0, errno := ERANGE }
  else
    { parsed_value :=
        if negative then (2 ^ 64 - digits_value digits) % 2 ^ 64 else digits_value digits,
      end_char := rest.headD 0, errno := 0 }

/-- The function `parse_in_port_t` (the client copy and the server copy are the
same text), after its call of `strtoumax`: the return value and the content
of `*port` (an `in_port_t`, 16 bits) when it returns, given the content `port`
of `*port` before the call. -/
def parse_in_port_t (r : strtoumax_result) (port : Nat) : Int × Nat :=
  if r.errno ≠ 0 then (-1, port)
  else if r.end_char ≠ 0 then (-1, port)
  else if r.parsed_value > 65535 then (-1, port)
  else (0, r.parsed_value % 65536)

/-! ## Lemmas on the checksum loops -/

theorem foldl_range_read_char {β : Type} (f : β → Fin 256 → β) (init : β)
    (data : List (Fin 256)) :
    ∀ n, n ≤ data.length →
      (List.range n).foldl (fun r i => f r (read_char data i)) init
        = (data.take n).foldl f init := by
  intro n
  induction n with
  | zero => intro _; simp
  | succ k ih =>
    intro hk
    have hlt : k < data.length := hk
    rw [List.range_succ, List.foldl_append, ih (Nat.le_of_lt hlt), List.take_succ,
      List.foldl_append]
    simp [read_char, List.getD, List.getElem?_eq_getElem hlt]

theorem add_step_eq (s : Bool) (r : Nat) (b : Fin 256) :
    to_unsigned_char ((r : Int) + char_value s b * 34) = (r + b.val * 34) % 256 := by
  unfold to_unsigned_char char_value
  split <;> omega

theorem sub_xor_255 : ∀ x < 256, 255 - x = 255 ^^^ x := by
  set_option maxRecDepth 100000 in decide

theorem xor_step_eq (s : Bool) (r : Nat) (hr : r < 256) (b : Fin 256) :
    to_unsigned_char (Int.xor (r : Int) (char_value s b)) = r ^^^ b.val := by
  have hb : b.val < 256 := b.isLt
  have hx : r ^^^ b.val < 256 := @Nat.xor_lt_two_pow r b.val 8 hr hb
  unfold to_unsigned_char char_value
  split
  · rename_i h
    simp only [Bool.and_eq_true, decide_eq_true_eq] at h
    obtain ⟨_, h128⟩ := h
    have hneg : (b.val : Int) - 256 = Int.negSucc (255 - b.val) := by
      rw [Int.negSucc_eq]; omega
    rw [hneg]
    have hxor : Int.xor (r : Int) (Int.negSucc (255 - b.val))
        = Int.negSucc (r ^^^ (255 - b.val)) := rfl
    rw [hxor]
    have hy : r ^^^ (255 - b.val) < 256 :=
      @Nat.xor_lt_two_pow r (255 - b.val) 8 hr (by omega)
    have h1 : 255 - (r ^^^ (255 - b.val)) = r ^^^ b.val := by
      rw [sub_xor_255 _ hy, sub_xor_255 _ hb, ← Nat.xor_assoc, ← Nat.xor_assoc,
        Nat.xor_comm 255 r, Nat.xor_assoc r 255 255, Nat.xor_self, Nat.xor_zero]
    rw [Int.negSucc_eq]
    omega
  · have hxor : Int.xor (r : Int) (b.val : Int) = ((r ^^^ b.val : Nat) : Int) := rfl
    rw [hxor]
    omega

theorem xor_all_lt (bytes : List (Fin 256)) : xor_all bytes < 256 := by
  unfold xor_all
  induction bytes using List.reverseRecOn with
  | nil => simp
  | append_singleton l b ih =>
    rw [List.foldl_append]
    exact @Nat.xor_lt_two_pow _ b.val 8 ih b.isLt

theorem checksum_one_eq (s : Bool) (data : List (Fin 256)) (n : Nat) (h : n ≤ data.length) :
    checksum_one s data n = weighted_sum (data.take n) := by
  unfold checksum_one
  rw [foldl_range_read_char
    (fun result b => to_unsigned_char ((result : Int) + char_value s b * 34)) 0 data n h]
  unfold weighted_sum
  induction data.take n using List.reverseRecOn with
  | nil => simp
  | append_singleton l b ih =>
    rw [List.foldl_append, List.map_append, List.sum_append]
    simp only [List.foldl_cons, List.foldl_nil, List.map_cons, List.map_nil, List.sum_cons,
      List.sum_nil]
    rw [ih, add_step_eq]
    omega

theorem checksum_two_eq (s : Bool) (data : List (Fin 256)) (n : Nat) (h : n ≤ data.length) :
    checksum_two s data n = xor_all (data.take n) := by
  unfold checksum_two
  rw [foldl_range_read_char
    (fun result b => to_unsigned_char (Int.xor (result : Int) (char_value s b))) 0 data n h]
  induction data.take n using List.reverseRecOn with
  | nil => simp [xor_all]
  | append_singleton l b ih =>
    rw [List.foldl_append]
    simp only [List.foldl_cons, List.foldl_nil]
    rw [ih, xor_step_eq s _ (xor_all_lt l)]
    simp [xor_all, List.foldl_append]

theorem weighted_sum_lt (bytes : List (Fin 256)) : weighted_sum bytes < 256 :=
  Nat.mod_lt _ (by decide)

theorem calculate_checksum_eq (s : Bool) (data : List (Fin 256)) (n : Nat)
    (h : n ≤ data.length) :
    calculate_checksum s data n = weighted_sum (data.take n) * xor_all (data.take n) := by
  unfold calculate_checksum
  rw [checksum_one_eq s data n h, checksum_two_eq s data n h]
  have h1 := weighted_sum_lt (data.take n)
  have h2 := xor_all_lt (data.take n)
  have h3 : weighted_sum (data.take n) * xor_all (data.take n) ≤ 255 * 255 :=
    Nat.mul_le_mul (by omega) (by omega)
  omega

/-! ## The checksum: statements -/

/-- C1: for every byte sequence and every length `n` within it, under either
signedness of `char`, `calculate_checksum` stores `c1 * c2` where `c1` is the
sum of the first `n` bytes times 34 modulo 256 (the value of `checksum_one`)
and `c2` is the XOR of the first `n` bytes (the value of `checksum_two`); the
product is at most 65025, so the conversion to the 16-bit checksum does not
truncate; and the result is the same for any buffer with the same first `n`
bytes (the function is given no header field). -/
theorem calculate_checksum_is_product (char_is_signed : Bool) (data : List (Fin 256))
    (n : Nat) (h : n ≤ data.length) :
    checksum_one char_is_signed data n
        = ((data.take n).map (fun b => b.val * 34)).sum % 256
      ∧ checksum_two char_is_signed data n
        = (data.take n).foldl (fun acc b => acc ^^^ b.val) 0
      ∧ calculate_checksum char_is_signed data n
        = checksum_one char_is_signed data n * checksum_two char_is_signed data n
      ∧ checksum_one char_is_signed data n ≤ 255
      ∧ checksum_two char_is_signed data n ≤ 255
      ∧ calculate_checksum char_is_signed data n ≤ 65025
      ∧ (∀ other : List (Fin 256), other.take n = data.take n →
          calculate_checksum char_is_signed other n
            = calculate_checksum char_is_signed data n) := by
  have h1 := checksum_one_eq char_is_signed data n h
  have h2 := checksum_two_eq char_is_signed data n h
  have h3 := calculate_checksum_eq char_is_signed data n h
  have b1 := weighted_sum_lt (data.take n)
  have b2 := xor_all_lt (data.take n)
  have b3 : weighted_sum (data.take n) * xor_all (data.take n) ≤ 255 * 255 :=
    Nat.mul_le_mul (by omega) (by omega)
  refine ⟨h1, h2, ?_, ?_, ?_, ?_, ?_⟩
  · rw [h3, h1, h2]
  · omega
  · omega
  · omega
  · intro other hother
    have hlen : n ≤ other.length := by
      have := congrArg List.length hother
      simp only [List.length_take] at this
      omega
    rw [h3, calculate_checksum_eq char_is_signed other n hlen, hother]

/-- C1, at the signed reading of the three bytes `200, 129, 3`. -/
theorem calculate_checksum_is_product_witness :
    3 ≤ ([200, 129, 3] : List (Fin 256)).length
      ∧ calculate_checksum true [200, 129, 3] 3
        = checksum_one true [200, 129, 3] 3 * checksum_two true [200, 129, 3] 3
      ∧ calculate_checksum true [200, 129, 3] 3 ≤ 65025 :=
  ⟨by decide,
   (calculate_checksum_is_product true [200, 129, 3] 3 (by decide)).2.2.1,
   (calculate_checksum_is_product true [200, 129, 3] 3 (by decide)).2.2.2.2.2.1⟩

/-- C2: for every checksum value `c`, buffer and length, `compare_checksum`
returns non-zero exactly when `c` is the value `calculate_checksum` computes
over the same bytes; its result is `0` or `1`; and applied to a freshly
calculated checksum of the same data and length it returns `1`. -/
theorem compare_checksum_iff (char_is_signed : Bool) (c : Nat) (data : List (Fin 256))
    (n : Nat) :
    (compare_checksum char_is_signed c data n ≠ 0
        ↔ c = calculate_checksum char_is_signed data n)
      ∧ (compare_checksum char_is_signed c data n = 1
        ∨ compare_checksum char_is_signed c data n = 0)
      ∧ compare_checksum char_is_signed (calculate_checksum char_is_signed data n) data n
        = 1 := by
  unfold compare_checksum
  refine ⟨?_, ?_, by simp⟩
  · by_cases hc : calculate_checksum char_is_signed data n = c
    · simp [hc]
    · simp only [hc, if_false, ne_eq, not_true_eq_false, false_iff]
      exact fun h => hc h.symm
  · by_cases hc : calculate_checksum char_is_signed data n = c <;> simp [hc]

/-! ## The corrupt step -/

/-- What `server_corrupt_packet_handler` leaves in `server_packet.data` when the
server payload is not empty: the copy over it of `corrupt_data` applied to the
duplicate of `client_packet.data`. -/
theorem server_corrupt_reads_client_buffer (cfg : proxy_config) (ctx : arguments)
    (h : strlen ctx.server_packet.data ≠ 0) :
    (server_corrupt_packet_handler cfg ctx).args.server_packet.data
      = strcpy ctx.server_packet.data
          (cfg.corrupt_data (strdup ctx.client_packet.data)
            (strlen ctx.server_packet.data)) := by
  simp [server_corrupt_packet_handler, h]

/-- What `client_corrupt_packet_handler` leaves in `client_packet.data` when the
client payload is not empty. -/
theorem client_corrupt_reads_client_buffer (cfg : proxy_config) (ctx : arguments)
    (h : strlen ctx.client_packet.data ≠ 0) :
    (client_corrupt_packet_handler cfg ctx).args.client_packet.data
      = strcpy ctx.client_packet.data
          (cfg.corrupt_data (strdup ctx.client_packet.data)
            (strlen ctx.client_packet.data)) := by
  simp [client_corrupt_packet_handler, h]

/-- C3, evaluated at a failing input of the server-to-client pipeline. The
client buffer holds the payload `"a"`, the server packet has payload `"b"` and
the checksum `392` that is valid for it, and `corrupt_data` adds one to the
first byte. The client pipeline's corrupt step on `"b"` yields a packet that
fails `compare_checksum`; the server pipeline's corrupt step leaves the server
packet as it was, so it still passes `compare_checksum`. -/
theorem server_corrupt_packet_still_verifies :
    strlen (sample_packet 392 [98, 0, 0, 0]).data = 1
      ∧ compare_checksum false 392 [98, 0, 0, 0] (strlen [98, 0, 0, 0]) = 1
      ∧ compare_checksum false
          (client_corrupt_packet_handler (sample_config 3)
            (sample_args (sample_packet 392 [98, 0, 0, 0])
              (sample_packet 0 [0, 0, 0, 0]))).args.client_packet.hd.checksum
          (client_corrupt_packet_handler (sample_config 3)
            (sample_args (sample_packet 392 [98, 0, 0, 0])
              (sample_packet 0 [0, 0, 0, 0]))).args.client_packet.data
          (strlen (client_corrupt_packet_handler (sample_config 3)
            (sample_args (sample_packet 392 [98, 0, 0, 0])
              (sample_packet 0 [0, 0, 0, 0]))).args.client_packet.data) = 0
      ∧ (server_corrupt_packet_handler (sample_config 3)
            (sample_args (sample_packet 0 [97, 0, 0, 0])
              (sample_packet 392 [98, 0, 0, 0]))).args.server_packet
          = sample_packet 392 [98, 0, 0, 0]
      ∧ compare_checksum false
          (server_corrupt_packet_handler (sample_config 3)
            (sample_args (sample_packet 0 [97, 0, 0, 0])
              (sample_packet 392 [98, 0, 0, 0]))).args.server_packet.hd.checksum
          (server_corrupt_packet_handler (sample_config 3)
            (sample_args (sample_packet 0 [97, 0, 0, 0])
              (sample_packet 392 [98, 0, 0, 0]))).args.server_packet.data
          (strlen (server_corrupt_packet_handler (sample_config 3)
            (sample_args (sample_packet 0 [97, 0, 0, 0])
              (sample_packet 392 [98, 0, 0, 0]))).args.server_packet.data) = 1 := by
  decide

/-- C8, evaluated at a failing input. Two contexts hold the same server packet
(payload `"b"`) and differ only in the client buffer (`"a"` against `"x"`);
with a `corrupt_data` that adds one to the first byte, the payloads left by
`server_corrupt_packet_handler` are `"b"` and `"y"`: they differ, and neither is
the `"c"` that corrupting the server packet's own payload gives. -/
theorem server_corrupt_depends_on_client_buffer :
    (sample_args (sample_packet 0 [97, 0, 0, 0]) (sample_packet 392 [98, 0, 0, 0])).server_packet
        = (sample_args (sample_packet 0 [120, 0, 0, 0])
            (sample_packet 392 [98, 0, 0, 0])).server_packet
      ∧ (server_corrupt_packet_handler (sample_config 3)
            (sample_args (sample_packet 0 [97, 0, 0, 0])
              (sample_packet 392 [98, 0, 0, 0]))).args.server_packet.data = [98, 0, 0, 0]
      ∧ (server_corrupt_packet_handler (sample_config 3)
            (sample_args (sample_packet 0 [120, 0, 0, 0])
              (sample_packet 392 [98, 0, 0, 0]))).args.server_packet.data = [121, 0, 0, 0]
      ∧ strcpy [98, 0, 0, 0] (increment_first_byte (strdup [98, 0, 0, 0]) (strlen [98, 0, 0, 0]))
          = [99, 0, 0, 0] := by
  decide

theorem c_string_terminated (l rest : List (Fin 256)) :
    c_string (c_string l ++ [0] ++ rest) = c_string l := by
  unfold c_string
  induction l with
  | nil => simp
  | cons a l ih =>
    by_cases ha : a = 0
    · simp [ha]
    · simp only [List.takeWhile_cons, ne_eq, ha, not_false_eq_true, decide_True, if_true,
        List.cons_append, List.cons.injEq, true_and]
      simpa using ih

theorem strlen_le_length (l : List (Fin 256)) : strlen l ≤ l.length := by
  unfold strlen c_string
  exact (List.takeWhile_sublist _).length_le

theorem take_strlen (l : List (Fin 256)) : l.take (strlen l) = c_string l := by
  unfold strlen c_string
  induction l with
  | nil => simp
  | cons a l ih =>
    by_cases ha : a = 0
    · simp [ha]
    · simp only [ne_eq, decide_not] at ih
      simp [ha, ih]

theorem strlen_strcpy (dst src : List (Fin 256)) : strlen (strcpy dst src) = strlen src := by
  unfold strlen strcpy
  rw [c_string_terminated]

theorem take_strlen_strcpy (dst src : List (Fin 256)) :
    (strcpy dst src).take (strlen src) = c_string src := by
  unfold strlen strcpy
  rw [List.append_assoc, List.take_left']
  rfl

/-- The checksum of a buffer after `strcpy(dst, src)`, over its string, is the
checksum of `src` over its string. -/
theorem calculate_checksum_strcpy (s : Bool) (dst src : List (Fin 256)) :
    calculate_checksum s (strcpy dst src) (strlen (strcpy dst src))
      = calculate_checksum s src (strlen src) := by
  rw [strlen_strcpy]
  have h1 : strlen src ≤ (strcpy dst src).length := by
    have := strlen_le_length (strcpy dst src)
    rw [strlen_strcpy] at this
    exact this
  rw [calculate_checksum_eq s _ _ h1, calculate_checksum_eq s _ _ (strlen_le_length src),
    take_strlen_strcpy, take_strlen]

/-- The client pipeline's corrupt step invalidates the checksum whenever
`corrupt_data` does what is asked of it: if the payload is not empty, the
stored checksum is valid for it, and the string `corrupt_data` leaves has a
checksum other than that of the string it was given, then the packet left in
`client_packet` fails `compare_checksum`. -/
theorem client_corrupt_invalidates_checksum (s : Bool) (cfg : proxy_config)
    (ctx : arguments) (hne : strlen ctx.client_packet.data ≠ 0)
    (hvalid : compare_checksum s ctx.client_packet.hd.checksum ctx.client_packet.data
      (strlen ctx.client_packet.data) = 1)
    (hcorrupt : calculate_checksum s
        (cfg.corrupt_data (strdup ctx.client_packet.data) (strlen ctx.client_packet.data))
        (strlen (cfg.corrupt_data (strdup ctx.client_packet.data)
          (strlen ctx.client_packet.data)))
      ≠ calculate_checksum s ctx.client_packet.data (strlen ctx.client_packet.data)) :
    compare_checksum s (client_corrupt_packet_handler cfg ctx).args.client_packet.hd.checksum
      (client_corrupt_packet_handler cfg ctx).args.client_packet.data
      (strlen (client_corrupt_packet_handler cfg ctx).args.client_packet.data) = 0 := by
  have hstored : calculate_checksum s ctx.client_packet.data (strlen ctx.client_packet.data)
      = ctx.client_packet.hd.checksum := by
    unfold compare_checksum at hvalid
    by_contra hc
    simp [hc] at hvalid
  rw [client_corrupt_reads_client_buffer cfg ctx hne]
  have hhd : (client_corrupt_packet_handler cfg ctx).args.client_packet.hd
      = ctx.client_packet.hd := by
    simp [client_corrupt_packet_handler, hne]
  rw [hhd]
  unfold compare_checksum
  rw [calculate_checksum_strcpy, ← hstored, if_neg hcorrupt]

/-- The server pipeline's corrupt step, for every `corrupt_data`: when the
server payload is not empty, whether the packet left in `server_packet` passes
`compare_checksum` is decided by the string `corrupt_data` makes of the client
buffer, not by the server payload. -/
theorem server_corrupt_checksum_from_client_buffer (s : Bool) (cfg : proxy_config)
    (ctx : arguments) (hne : strlen ctx.server_packet.data ≠ 0) :
    compare_checksum s (server_corrupt_packet_handler cfg ctx).args.server_packet.hd.checksum
        (server_corrupt_packet_handler cfg ctx).args.server_packet.data
        (strlen (server_corrupt_packet_handler cfg ctx).args.server_packet.data)
      = compare_checksum s ctx.server_packet.hd.checksum
          (cfg.corrupt_data (strdup ctx.client_packet.data) (strlen ctx.server_packet.data))
          (strlen (cfg.corrupt_data (strdup ctx.client_packet.data)
            (strlen ctx.server_packet.data))) := by
  rw [server_corrupt_reads_client_buffer cfg ctx hne]
  have hhd : (server_corrupt_packet_handler cfg ctx).args.server_packet.hd
      = ctx.server_packet.hd := by
    simp [server_corrupt_packet_handler, hne]
  rw [hhd]
  unfold compare_checksum
  rw [calculate_checksum_strcpy]

/-! ## The pass path -/

/-- C4: with `exit_flag` clear and a receive that does not fail, when the
classification result is none of `DROP`, `DELAY`, `CORRUPT`, the listen handler
stores the received packet, the classify handler returns the send state without
touching the context, the transition table runs the send handler for that pair,
and the packet handed to `send_packet` is the received packet, header and
payload buffer, whatever its flags; the context after the send handler is the
one the listen handler left. This holds for the client pipeline and for the
server pipeline. -/
theorem pass_path_forwards_received_packet (cfg : proxy_config) (ctx : arguments)
    (received : packet) (receive_result send_result : Int)
    (hrecv : receive_result ≠ -1) :
    (cfg.calculate_lossiness ctx.client_drop_rate ctx.client_delay_rate ctx.corruption_rate
          ≠ cfg.DROP →
      cfg.calculate_lossiness ctx.client_drop_rate ctx.client_delay_rate ctx.corruption_rate
          ≠ cfg.DELAY →
      cfg.calculate_lossiness ctx.client_drop_rate ctx.client_delay_rate ctx.corruption_rate
          ≠ cfg.CORRUPT →
      (listen_client_handler 0 receive_result received ctx).next
          = STATE_CLIENT_CALCULATE_LOSSINESS
        ∧ (listen_client_handler 0 receive_result received ctx).args
          = { ctx with client_packet := received }
        ∧ (calculate_client_lossiness_handler cfg
            (listen_client_handler 0 receive_result received ctx).args).next
          = STATE_SEND_CLIENT_PACKET
        ∧ (calculate_client_lossiness_handler cfg
            (listen_client_handler 0 receive_result received ctx).args).args
          = { ctx with client_packet := received }
        ∧ (find_transition main_transitions STATE_CLIENT_CALCULATE_LOSSINESS
            STATE_SEND_CLIENT_PACKET).map (fun row => row.perform)
          = some (some handler.send_client_packet_handler)
        ∧ sent_packets (send_client_packet_handler send_result
            (calculate_client_lossiness_handler cfg
              (listen_client_handler 0 receive_result received ctx).args).args).trace
          = [received]
        ∧ (send_client_packet_handler send_result
            (calculate_client_lossiness_handler cfg
              (listen_client_handler 0 receive_result received ctx).args).args).args
          = { ctx with client_packet := received })
    ∧ (cfg.calculate_lossiness ctx.server_drop_rate ctx.server_delay_rate ctx.corruption_rate
          ≠ cfg.DROP →
      cfg.calculate_lossiness ctx.server_drop_rate ctx.server_delay_rate ctx.corruption_rate
          ≠ cfg.DELAY →
      cfg.calculate_lossiness ctx.server_drop_rate ctx.server_delay_rate ctx.corruption_rate
          ≠ cfg.CORRUPT →
      (listen_server_handler 0 receive_result received ctx).next
          = STATE_SERVER_CALCULATE_LOSSINESS
        ∧ (listen_server_handler 0 receive_result received ctx).args
          = { ctx with server_packet := received }
        ∧ (calculate_server_lossiness_handler cfg
            (listen_server_handler 0 receive_result received ctx).args).next
          = STATE_SEND_SERVER_PACKET
        ∧ (calculate_server_lossiness_handler cfg
            (listen_server_handler 0 receive_result received ctx).args).args
          = { ctx with server_packet := received }
        ∧ (find_transition server_transitions STATE_SERVER_CALCULATE_LOSSINESS
            STATE_SEND_SERVER_PACKET).map (fun row => row.perform)
          = some (some handler.send_server_packet_handler)
        ∧ sent_packets (send_server_packet_handler send_result
            (calculate_server_lossiness_handler cfg
              (listen_server_handler 0 receive_result received ctx).args).args).trace
          = [received]
        ∧ (send_server_packet_handler send_result
            (calculate_server_lossiness_handler cfg
              (listen_server_handler 0 receive_result received ctx).args).args).args
          = { ctx with server_packet := received }) := by
  constructor
  · intro h1 h2 h3
    have hl : listen_client_handler 0 receive_result received ctx
        = { next := STATE_CLIENT_CALCULATE_LOSSINESS,
            args := { ctx with client_packet := received },
            trace := action.receive_packet ctx.client_sockfd
              :: stats_if_connected { ctx with client_packet := received } RECEIVED_PACKET } := by
      simp [listen_client_handler, hrecv]
    have hc : calculate_client_lossiness_handler cfg { ctx with client_packet := received }
        = { next := STATE_SEND_CLIENT_PACKET, args := { ctx with client_packet := received },
            trace := [] } := by
      simp [calculate_client_lossiness_handler, h1, h2, h3]
    rw [hl]
    simp only [hc]
    refine ⟨trivial, trivial, trivial, trivial, by decide, ?_, ?_⟩
    · unfold send_client_packet_handler stats_if_connected sent_packets
      by_cases hs : send_result < 0 <;> by_cases hg : ctx.is_connected_gui = 0 <;> simp [hs, hg]
    · unfold send_client_packet_handler
      by_cases hs : send_result < 0 <;> simp [hs]
  · intro h1 h2 h3
    have hl : listen_server_handler 0 receive_result received ctx
        = { next := STATE_SERVER_CALCULATE_LOSSINESS,
            args := { ctx with server_packet := received },
            trace := action.receive_packet ctx.server_sockfd
              :: stats_if_connected { ctx with server_packet := received } RECEIVED_PACKET } := by
      simp [listen_server_handler, hrecv]
    have hc : calculate_server_lossiness_handler cfg { ctx with server_packet := received }
        = { next := STATE_SEND_SERVER_PACKET, args := { ctx with server_packet := received },
            trace := [] } := by
      simp [calculate_server_lossiness_handler, h1, h2, h3]
    rw [hl]
    simp only [hc]
    refine ⟨trivial, trivial, trivial, trivial, by decide, ?_, ?_⟩
    · unfold send_server_packet_handler stats_if_connected sent_packets
      by_cases hs : send_result < 0 <;> by_cases hg : ctx.is_connected_gui = 0 <;> simp [hs, hg]
    · unfold send_server_packet_handler
      by_cases hs : send_result < 0 <;> simp [hs]

/-- The witness of C4: a packet with the unrecognised flags value `77`, all
rates zero and a classification result `0` that is none of the three codes. -/
theorem pass_path_forwards_received_packet_witness :
    (0 : Int) ≠ -1
      ∧ sent_packets (send_client_packet_handler 0
            (calculate_client_lossiness_handler (sample_config 0)
              (listen_client_handler 0 0
                { hd := { seq_number := 1, ack_number := 2, flags := 77, window_size := 5,
                          checksum := 9 },
                  data := [104, 105, 0, 0] }
                (sample_args (sample_packet 0 [0, 0, 0, 0])
                  (sample_packet 0 [0, 0, 0, 0]))).args).args).trace
          = [{ hd := { seq_number := 1, ack_number := 2, flags := 77, window_size := 5,
                       checksum := 9 },
               data := [104, 105, 0, 0] }]
      ∧ sent_packets (send_server_packet_handler 0
            (calculate_server_lossiness_handler (sample_config 0)
              (listen_server_handler 0 0
                { hd := { seq_number := 1, ack_number := 2, flags := 77, window_size := 5,
                          checksum := 9 },
                  data := [104, 105, 0, 0] }
                (sample_args (sample_packet 0 [0, 0, 0, 0])
                  (sample_packet 0 [0, 0, 0, 0]))).args).args).trace
          = [{ hd := { seq_number := 1, ack_number := 2, flags := 77, window_size := 5,
                       checksum := 9 },
               data := [104, 105, 0, 0] }] :=
  ⟨by decide,
   ((pass_path_forwards_received_packet (sample_config 0)
      (sample_args (sample_packet 0 [0, 0, 0, 0]) (sample_packet 0 [0, 0, 0, 0]))
      { hd := { seq_number := 1, ack_number := 2, flags := 77, window_size := 5,
                checksum := 9 },
        data := [104, 105, 0, 0] } 0 0 (by decide)).1
      (by decide) (by decide) (by decide)).2.2.2.2.2.1,
   ((pass_path_forwards_received_packet (sample_config 0)
      (sample_args (sample_packet 0 [0, 0, 0, 0]) (sample_packet 0 [0, 0, 0, 0]))
      { hd := { seq_number := 1, ack_number := 2, flags := 77, window_size := 5,
                checksum := 9 },
        data := [104, 105, 0, 0] } 0 0 (by decide)).2
      (by decide) (by decide) (by decide)).2.2.2.2.2.1⟩

/-! ## The delay tasks -/

/-- C6: when the payload of the direction's packet has effective length zero,
the corrupt handler of that direction returns the send state, leaves the whole
context (so the whole packet) unchanged and makes no call at all, so no
`CORRUPTED_DATA` is sent, whatever `is_connected_gui` is. -/
theorem corrupt_skips_empty_payload (cfg : proxy_config) (ctx : arguments) :
    (strlen ctx.client_packet.data = 0 →
      (client_corrupt_packet_handler cfg ctx).next = STATE_SEND_CLIENT_PACKET
        ∧ (client_corrupt_packet_handler cfg ctx).args = ctx
        ∧ (client_corrupt_packet_handler cfg ctx).trace = [])
    ∧ (strlen ctx.server_packet.data = 0 →
      (server_corrupt_packet_handler cfg ctx).next = STATE_SEND_SERVER_PACKET
        ∧ (server_corrupt_packet_handler cfg ctx).args = ctx
        ∧ (server_corrupt_packet_handler cfg ctx).trace = []) := by
  constructor
  · intro h
    simp [client_corrupt_packet_handler, h]
  · intro h
    simp [server_corrupt_packet_handler, h]

/-- The witness of C6: both buffers start with a zero byte followed by other
bytes, and an observer is connected. -/
theorem corrupt_skips_empty_payload_witness :
    strlen (sample_args (sample_packet 0 [0, 120, 121, 0])
        (sample_packet 0 [0, 55, 0, 0])).client_packet.data = 0
      ∧ strlen (sample_args (sample_packet 0 [0, 120, 121, 0])
        (sample_packet 0 [0, 55, 0, 0])).server_packet.data = 0
      ∧ (client_corrupt_packet_handler (sample_config 3)
          (sample_args (sample_packet 0 [0, 120, 121, 0])
            (sample_packet 0 [0, 55, 0, 0]))).trace = []
      ∧ (server_corrupt_packet_handler (sample_config 3)
          (sample_args (sample_packet 0 [0, 120, 121, 0])
            (sample_packet 0 [0, 55, 0, 0]))).trace = [] :=
  ⟨by decide, by decide,
   ((corrupt_skips_empty_payload (sample_config 3)
      (sample_args (sample_packet 0 [0, 120, 121, 0]) (sample_packet 0 [0, 55, 0, 0]))).1
      (by decide)).2.2,
   ((corrupt_skips_empty_payload (sample_config 3)
      (sample_args (sample_packet 0 [0, 120, 121, 0]) (sample_packet 0 [0, 55, 0, 0]))).2
      (by decide)).2.2⟩

/-- C7: the corrupt step leaves the header alone. For every context (with an
empty payload or not) and every `corrupt_data`, after
`client_corrupt_packet_handler` the five header fields of `client_packet` are
what they were and the context differs from the one before at most in
`client_packet.data`; after `server_corrupt_packet_handler` the same holds for
`server_packet`. -/
theorem corrupt_keeps_header (cfg : proxy_config) (ctx : arguments) :
    ((client_corrupt_packet_handler cfg ctx).args.client_packet.hd.seq_number
          = ctx.client_packet.hd.seq_number
      ∧ (client_corrupt_packet_handler cfg ctx).args.client_packet.hd.ack_number
          = ctx.client_packet.hd.ack_number
      ∧ (client_corrupt_packet_handler cfg ctx).args.client_packet.hd.flags
          = ctx.client_packet.hd.flags
      ∧ (client_corrupt_packet_handler cfg ctx).args.client_packet.hd.window_size
          = ctx.client_packet.hd.window_size
      ∧ (client_corrupt_packet_handler cfg ctx).args.client_packet.hd.checksum
          = ctx.client_packet.hd.checksum
      ∧ (client_corrupt_packet_handler cfg ctx).args
          = { ctx with client_packet := { ctx.client_packet with
                data := (client_corrupt_packet_handler cfg ctx).args.client_packet.data } })
    ∧ ((server_corrupt_packet_handler cfg ctx).args.server_packet.hd.seq_number
          = ctx.server_packet.hd.seq_number
      ∧ (server_corrupt_packet_handler cfg ctx).args.server_packet.hd.ack_number
          = ctx.server_packet.hd.ack_number
      ∧ (server_corrupt_packet_handler cfg ctx).args.server_packet.hd.flags
          = ctx.server_packet.hd.flags
      ∧ (server_corrupt_packet_handler cfg ctx).args.server_packet.hd.window_size
          = ctx.server_packet.hd.window_size
      ∧ (server_corrupt_packet_handler cfg ctx).args.server_packet.hd.checksum
          = ctx.server_packet.hd.checksum
      ∧ (server_corrupt_packet_handler cfg ctx).args
          = { ctx with server_packet := { ctx.server_packet with
                data := (server_corrupt_packet_handler cfg ctx).args.server_packet.data } }) := by
  constructor
  · unfold client_corrupt_packet_handler
    by_cases h : strlen ctx.client_packet.data = 0 <;> simp [h]
  · unfold server_corrupt_packet_handler
    by_cases h : strlen ctx.server_packet.data = 0 <;> simp [h]

/-! ## Classification -/

/-- C9: with the three result codes pairwise different, the client classify
handler calls `calculate_lossiness` on `client_drop_rate`, `client_delay_rate`
and `corruption_rate` and returns the client drop state iff the result is
`DROP`, the client delay state iff it is `DELAY`, the client corrupt state iff
it is `CORRUPT`, and the client send state iff it is none of them; it changes
nothing and calls nothing else; its result is the same whatever
`server_drop_rate` and `server_delay_rate` are. The server classify handler
does the same with `server_drop_rate`, `server_delay_rate`, `corruption_rate`
and the server states, whatever `client_drop_rate` and `client_delay_rate`
are. -/
theorem classify_uses_own_rates (cfg : proxy_config) (ctx : arguments)
    (h12 : cfg.DROP ≠ cfg.DELAY) (h13 : cfg.DROP ≠ cfg.CORRUPT)
    (h23 : cfg.DELAY ≠ cfg.CORRUPT) :
    (((calculate_client_lossiness_handler cfg ctx).next = STATE_CLIENT_DROP
        ↔ cfg.calculate_lossiness ctx.client_drop_rate ctx.client_delay_rate
            ctx.corruption_rate = cfg.DROP)
      ∧ ((calculate_client_lossiness_handler cfg ctx).next = STATE_CLIENT_DELAY_PACKET
        ↔ cfg.calculate_lossiness ctx.client_drop_rate ctx.client_delay_rate
            ctx.corruption_rate = cfg.DELAY)
      ∧ ((calculate_client_lossiness_handler cfg ctx).next = STATE_CLIENT_CORRUPT
        ↔ cfg.calculate_lossiness ctx.client_drop_rate ctx.client_delay_rate
            ctx.corruption_rate = cfg.CORRUPT)
      ∧ ((calculate_client_lossiness_handler cfg ctx).next = STATE_SEND_CLIENT_PACKET
        ↔ (cfg.calculate_lossiness ctx.client_drop_rate ctx.client_delay_rate
              ctx.corruption_rate ≠ cfg.DROP
          ∧ cfg.calculate_lossiness ctx.client_drop_rate ctx.client_delay_rate
              ctx.corruption_rate ≠ cfg.DELAY
          ∧ cfg.calculate_lossiness ctx.client_drop_rate ctx.client_delay_rate
              ctx.corruption_rate ≠ cfg.CORRUPT))
      ∧ (calculate_client_lossiness_handler cfg ctx).args = ctx
      ∧ (calculate_client_lossiness_handler cfg ctx).trace = []
      ∧ (∀ drop delay : Nat,
          (calculate_client_lossiness_handler cfg
            { ctx with server_drop_rate := drop, server_delay_rate := delay }).next
          = (calculate_client_lossiness_handler cfg ctx).next))
    ∧ (((calculate_server_lossiness_handler cfg ctx).next = STATE_SERVER_DROP
        ↔ cfg.calculate_lossiness ctx.server_drop_rate ctx.server_delay_rate
            ctx.corruption_rate = cfg.DROP)
      ∧ ((calculate_server_lossiness_handler cfg ctx).next = STATE_SERVER_DELAY_PACKET
        ↔ cfg.calculate_lossiness ctx.server_drop_rate ctx.server_delay_rate
            ctx.corruption_rate = cfg.DELAY)
      ∧ ((calculate_server_lossiness_handler cfg ctx).next = STATE_SERVER_CORRUPT
        ↔ cfg.calculate_lossiness ctx.server_drop_rate ctx.server_delay_rate
            ctx.corruption_rate = cfg.CORRUPT)
      ∧ ((calculate_server_lossiness_handler cfg ctx).next = STATE_SEND_SERVER_PACKET
        ↔ (cfg.calculate_lossiness ctx.server_drop_rate ctx.server_delay_rate
              ctx.corruption_rate ≠ cfg.DROP
          ∧ cfg.calculate_lossiness ctx.server_drop_rate ctx.server_delay_rate
              ctx.corruption_rate ≠ cfg.DELAY
          ∧ cfg.calculate_lossiness ctx.server_drop_rate ctx.server_delay_rate
              ctx.corruption_rate ≠ cfg.CORRUPT))
      ∧ (calculate_server_lossiness_handler cfg ctx).args = ctx
      ∧ (calculate_server_lossiness_handler cfg ctx).trace = []
      ∧ (∀ drop delay : Nat,
          (calculate_server_lossiness_handler cfg
            { ctx with client_drop_rate := drop, client_delay_rate := delay }).next
          = (calculate_server_lossiness_handler cfg ctx).next)) := by
  constructor
  · unfold calculate_client_lossiness_handler
    by_cases h1 : cfg.calculate_lossiness ctx.client_drop_rate ctx.client_delay_rate
        ctx.corruption_rate = cfg.DROP
    · simp [h1, h12, h13]
    · by_cases h2 : cfg.calculate_lossiness ctx.client_drop_rate ctx.client_delay_rate
          ctx.corruption_rate = cfg.DELAY
      · simp [h2, h12.symm, h23]
      · by_cases h3 : cfg.calculate_lossiness ctx.client_drop_rate ctx.client_delay_rate
            ctx.corruption_rate = cfg.CORRUPT
        · simp [h3, h13.symm, h23.symm]
        · simp [h1, h2, h3]
  · unfold calculate_server_lossiness_handler
    by_cases h1 : cfg.calculate_lossiness ctx.server_drop_rate ctx.server_delay_rate
        ctx.corruption_rate = cfg.DROP
    · simp [h1, h12, h13]
    · by_cases h2 : cfg.calculate_lossiness ctx.server_drop_rate ctx.server_delay_rate
          ctx.corruption_rate = cfg.DELAY
      · simp [h2, h12.symm, h23]
      · by_cases h3 : cfg.calculate_lossiness ctx.server_drop_rate ctx.server_delay_rate
            ctx.corruption_rate = cfg.CORRUPT
        · simp [h3, h13.symm, h23.symm]
        · simp [h1, h2, h3]

/-- The witness of C9: result codes `1`, `2`, `3` and a `calculate_lossiness`
that answers `DELAY`; both classify handlers return their delay state. -/
theorem classify_uses_own_rates_witness :
    (sample_config 2).DROP ≠ (sample_config 2).DELAY
      ∧ (sample_config 2).DROP ≠ (sample_config 2).CORRUPT
      ∧ (sample_config 2).DELAY ≠ (sample_config 2).CORRUPT
      ∧ (calculate_client_lossiness_handler (sample_config 2)
          (sample_args (sample_packet 0 [0, 0, 0, 0]) (sample_packet 0 [0, 0, 0, 0]))).next
        = STATE_CLIENT_DELAY_PACKET
      ∧ (calculate_server_lossiness_handler (sample_config 2)
          (sample_args (sample_packet 0 [0, 0, 0, 0]) (sample_packet 0 [0, 0, 0, 0]))).next
        = STATE_SERVER_DELAY_PACKET :=
  ⟨by decide, by decide, by decide,
   (classify_uses_own_rates (sample_config 2)
      (sample_args (sample_packet 0 [0, 0, 0, 0]) (sample_packet 0 [0, 0, 0, 0]))
      (by decide) (by decide) (by decide)).1.2.1.mpr (by decide),
   (classify_uses_own_rates (sample_config 2)
      (sample_args (sample_packet 0 [0, 0, 0, 0]) (sample_packet 0 [0, 0, 0, 0]))
      (by decide) (by decide) (by decide)).2.2.1.mpr (by decide)⟩

/-! ## Statistics per packet -/

theorem run_cycle_continue (table : List fsm_transition) (listen : fsm_state)
    (cfg : proxy_config) (env : environment) (fuel : Nat) (from_id to_id : fsm_state)
    (ctx : arguments) (h : handler) (r : handler_result)
    (hfind : (find_transition table from_id to_id).map (fun row => row.perform)
      = some (some h))
    (hr : run_handler h cfg env ctx = r)
    (hn1 : r.next ≠ listen) (hn2 : r.next ≠ FSM_EXIT) :
    run_cycle table listen cfg env (fuel + 1) from_id to_id ctx
      = (run_cycle table listen cfg env fuel to_id r.next r.args).map
          (fun out => (out.1, { out.2 with trace := r.trace ++ out.2.trace })) := by
  rw [run_cycle]
  cases hrow : find_transition table from_id to_id with
  | none => rw [hrow] at hfind; simp at hfind
  | some row =>
    rw [hrow] at hfind
    obtain ⟨a, b, p⟩ := row
    simp only [Option.map_some', Option.some.injEq] at hfind
    subst hfind
    simp only [hr]
    rw [if_neg (by simp [hn1, hn2])]

theorem run_cycle_stop (table : List fsm_transition) (listen : fsm_state)
    (cfg : proxy_config) (env : environment) (fuel : Nat) (from_id to_id : fsm_state)
    (ctx : arguments) (h : handler) (r : handler_result)
    (hfind : (find_transition table from_id to_id).map (fun row => row.perform)
      = some (some h))
    (hr : run_handler h cfg env ctx = r)
    (hn : r.next = listen ∨ r.next = FSM_EXIT) :
    run_cycle table listen cfg env (fuel + 1) from_id to_id ctx = some (to_id, r) := by
  rw [run_cycle]
  cases hrow : find_transition table from_id to_id with
  | none => rw [hrow] at hfind; simp at hfind
  | some row =>
    rw [hrow] at hfind
    obtain ⟨a, b, p⟩ := row
    simp only [Option.map_some', Option.some.injEq] at hfind
    subst hfind
    simp only [hr]
    rw [if_pos hn]

theorem run_cycle_no_handler (table : List fsm_transition) (listen : fsm_state)
    (cfg : proxy_config) (env : environment) (fuel : Nat) (from_id to_id : fsm_state)
    (ctx : arguments)
    (hfind : find_transition table from_id to_id = none) :
    run_cycle table listen cfg env (fuel + 1) from_id to_id ctx
      = some (from_id, { next := to_id, args := ctx, trace := [] }) := by
  rw [run_cycle, hfind]

theorem listen_client_received (env : environment) (ctx : arguments) (cfg : proxy_config)
    (hconn : ctx.is_connected_gui ≠ 0) (hexit : env.exit_flag = 0)
    (hrecv : env.receive_result ≠ -1) :
    run_handler handler.listen_client_handler cfg env ctx
      = { next := STATE_CLIENT_CALCULATE_LOSSINESS,
          args := { ctx with client_packet := env.received },
          trace := [action.receive_packet ctx.client_sockfd,
            action.send_stats_gui ctx.connected_gui_fd RECEIVED_PACKET] } := by
  simp [run_handler, listen_client_handler, hexit, hrecv, stats_if_connected, hconn]

theorem listen_server_received (env : environment) (ctx : arguments) (cfg : proxy_config)
    (hconn : ctx.is_connected_gui ≠ 0) (hexit : env.exit_flag = 0)
    (hrecv : env.receive_result ≠ -1) :
    run_handler handler.listen_server_handler cfg env ctx
      = { next := STATE_SERVER_CALCULATE_LOSSINESS,
          args := { ctx with server_packet := env.received },
          trace := [action.receive_packet ctx.server_sockfd,
            action.send_stats_gui ctx.connected_gui_fd RECEIVED_PACKET] } := by
  simp [run_handler, listen_server_handler, hexit, hrecv, stats_if_connected, hconn]


theorem client_cycle_from_classify (cfg : proxy_config) (env : environment) (ctx1 : arguments)
    (fuel : Nat) (hconn : ctx1.is_connected_gui ≠ 0) (hsend : 0 ≤ env.send_result)
    (hrealloc : env.realloc_ok = true) :
    ∃ out, run_cycle main_transitions STATE_LISTEN_CLIENT cfg env (fuel + 1 + 1 + 1) STATE_LISTEN_CLIENT
          STATE_CLIENT_CALCULATE_LOSSINESS ctx1 = some out
      ∧ out.2.next = STATE_LISTEN_CLIENT
      ∧ stats_codes out.2.trace
        = (match (calculate_client_lossiness_handler cfg ctx1).next with
            | STATE_CLIENT_DROP => [DROPPED_CLIENT_PACKET]
            | STATE_CLIENT_DELAY_PACKET => [DELAYED_CLIENT_PACKET]
            | STATE_CLIENT_CORRUPT =>
              if strlen ctx1.client_packet.data = 0 then [SENT_PACKET]
              else [CORRUPTED_DATA, SENT_PACKET]
            | _ => [SENT_PACKET]) := by
  have hs : ¬ env.send_result < 0 := by omega
  have hsendh : ∀ c : arguments, c.is_connected_gui ≠ 0 →
      run_handler handler.send_client_packet_handler cfg env c
        = { next := STATE_LISTEN_CLIENT, args := c,
            trace := [action.send_packet c.server_sockfd c.client_packet c.server_addr_struct
              c.sent_data, action.send_stats_gui c.connected_gui_fd SENT_PACKET] } := by
    intro c hc
    simp [run_handler, send_client_packet_handler, hs, stats_if_connected, hc]
  by_cases h1 : cfg.calculate_lossiness ctx1.client_drop_rate ctx1.client_delay_rate
      ctx1.corruption_rate = cfg.DROP
  · have hcalc : calculate_client_lossiness_handler cfg ctx1
        = { next := STATE_CLIENT_DROP, args := ctx1, trace := [] } := by
      unfold calculate_client_lossiness_handler
      dsimp only
      rw [if_pos h1]
    have hdrop : run_handler handler.client_drop_packet_handler cfg env ctx1
        = { next := STATE_LISTEN_CLIENT, args := ctx1,
            trace := [action.send_stats_gui ctx1.connected_gui_fd DROPPED_CLIENT_PACKET] } := by
      simp [run_handler, client_drop_packet_handler, stats_if_connected, hconn]
    rw [run_cycle_continue main_transitions STATE_LISTEN_CLIENT cfg env (fuel + 1 + 1)
      STATE_LISTEN_CLIENT STATE_CLIENT_CALCULATE_LOSSINESS ctx1 _ _ (by decide)
      (show run_handler handler.calculate_client_lossiness_handler cfg env ctx1 = _ from hcalc)
      (by simp) (by simp)]
    dsimp only
    rw [run_cycle_stop main_transitions STATE_LISTEN_CLIENT cfg env (fuel + 1)
      STATE_CLIENT_CALCULATE_LOSSINESS STATE_CLIENT_DROP ctx1 _ _ (by decide) hdrop (by simp)]
    rw [hcalc]
    exact ⟨_, rfl, rfl, rfl⟩
  · by_cases h2 : cfg.calculate_lossiness ctx1.client_drop_rate ctx1.client_delay_rate
        ctx1.corruption_rate = cfg.DELAY
    · have hcalc : calculate_client_lossiness_handler cfg ctx1
          = { next := STATE_CLIENT_DELAY_PACKET, args := ctx1, trace := [] } := by
        unfold calculate_client_lossiness_handler
        dsimp only
        rw [if_neg h1, if_pos h2]
      have hdelay : run_handler handler.client_delay_packet_handler cfg env ctx1
          = { next := STATE_LISTEN_CLIENT,
              args := { ctx1 with num_of_threads := ctx1.num_of_threads + 1,
                                  thread_pool := ctx1.num_of_threads + 1 },
              trace := [action.pthread_create thread_routine.init_client_delay_thread
                  (some (ctx1.num_of_threads + 1)),
                action.send_stats_gui ctx1.connected_gui_fd DELAYED_CLIENT_PACKET] } := by
        simp [run_handler, client_delay_packet_handler, hrealloc, stats_if_connected, hconn]
      rw [run_cycle_continue main_transitions STATE_LISTEN_CLIENT cfg env (fuel + 1 + 1)
        STATE_LISTEN_CLIENT STATE_CLIENT_CALCULATE_LOSSINESS ctx1 _ _ (by decide)
        (show run_handler handler.calculate_client_lossiness_handler cfg env ctx1 = _ from hcalc)
        (by simp) (by simp)]
      dsimp only
      rw [run_cycle_stop main_transitions STATE_LISTEN_CLIENT cfg env (fuel + 1)
        STATE_CLIENT_CALCULATE_LOSSINESS STATE_CLIENT_DELAY_PACKET ctx1 _ _ (by decide) hdelay (by simp)]
      rw [hcalc]
      exact ⟨_, rfl, rfl, rfl⟩
    · by_cases h3 : cfg.calculate_lossiness ctx1.client_drop_rate ctx1.client_delay_rate
          ctx1.corruption_rate = cfg.CORRUPT
      · have hcalc : calculate_client_lossiness_handler cfg ctx1
            = { next := STATE_CLIENT_CORRUPT, args := ctx1, trace := [] } := by
          unfold calculate_client_lossiness_handler
          dsimp only
          rw [if_neg h1, if_neg h2, if_pos h3]
        rw [run_cycle_continue main_transitions STATE_LISTEN_CLIENT cfg env (fuel + 1 + 1)
          STATE_LISTEN_CLIENT STATE_CLIENT_CALCULATE_LOSSINESS ctx1 _ _ (by decide)
          (show run_handler handler.calculate_client_lossiness_handler cfg env ctx1 = _
            from hcalc)
          (by simp) (by simp)]
        dsimp only
        rw [hcalc]
        by_cases h4 : strlen ctx1.client_packet.data = 0
        · have hcor : run_handler handler.client_corrupt_packet_handler cfg env ctx1
              = { next := STATE_SEND_CLIENT_PACKET, args := ctx1, trace := [] } := by
            simp [run_handler, client_corrupt_packet_handler, h4]
          rw [run_cycle_continue main_transitions STATE_LISTEN_CLIENT cfg env (fuel + 1)
            STATE_CLIENT_CALCULATE_LOSSINESS STATE_CLIENT_CORRUPT ctx1 _ _ (by decide) hcor
            (by simp) (by simp)]
          dsimp only
          rw [run_cycle_stop main_transitions STATE_LISTEN_CLIENT cfg env fuel
            STATE_CLIENT_CORRUPT STATE_SEND_CLIENT_PACKET ctx1 _ _ (by decide)
            (hsendh ctx1 hconn) (by simp)]
          simp [h4, stats_codes]
        · have hcor : run_handler handler.client_corrupt_packet_handler cfg env ctx1
              = { next := STATE_SEND_CLIENT_PACKET,
                  args := { ctx1 with client_packet := { ctx1.client_packet with
                    data := strcpy ctx1.client_packet.data
                      (cfg.corrupt_data (strdup ctx1.client_packet.data)
                        (strlen ctx1.client_packet.data)) } },
                  trace := [action.send_stats_gui ctx1.connected_gui_fd CORRUPTED_DATA] } := by
            simp [run_handler, client_corrupt_packet_handler, h4, stats_if_connected, hconn]
          rw [run_cycle_continue main_transitions STATE_LISTEN_CLIENT cfg env (fuel + 1)
            STATE_CLIENT_CALCULATE_LOSSINESS STATE_CLIENT_CORRUPT ctx1 _ _ (by decide) hcor
            (by simp) (by simp)]
          dsimp only
          rw [run_cycle_stop main_transitions STATE_LISTEN_CLIENT cfg env fuel
            STATE_CLIENT_CORRUPT STATE_SEND_CLIENT_PACKET _ _ _ (by decide)
            (hsendh { ctx1 with client_packet := { ctx1.client_packet with
                data := strcpy ctx1.client_packet.data
                  (cfg.corrupt_data (strdup ctx1.client_packet.data)
                    (strlen ctx1.client_packet.data)) } } hconn) (by simp)]
          simp [h4, stats_codes]
      · have hcalc : calculate_client_lossiness_handler cfg ctx1
            = { next := STATE_SEND_CLIENT_PACKET, args := ctx1, trace := [] } := by
          unfold calculate_client_lossiness_handler
          dsimp only
          rw [if_neg h1, if_neg h2, if_neg h3]
        rw [run_cycle_continue main_transitions STATE_LISTEN_CLIENT cfg env (fuel + 1 + 1)
          STATE_LISTEN_CLIENT STATE_CLIENT_CALCULATE_LOSSINESS ctx1 _ _ (by decide)
          (show run_handler handler.calculate_client_lossiness_handler cfg env ctx1 = _
            from hcalc)
          (by simp) (by simp)]
        dsimp only
        rw [run_cycle_stop main_transitions STATE_LISTEN_CLIENT cfg env (fuel + 1)
          STATE_CLIENT_CALCULATE_LOSSINESS STATE_SEND_CLIENT_PACKET ctx1 _ _ (by decide)
          (hsendh ctx1 hconn) (by simp)]
        rw [hcalc]
        simp [stats_codes]

theorem server_cycle_from_classify (cfg : proxy_config) (env : environment) (ctx1 : arguments)
    (fuel : Nat) (hconn : ctx1.is_connected_gui ≠ 0) (hsend : 0 ≤ env.send_result)
    (hrealloc : env.realloc_ok = true) :
    ∃ out, run_cycle server_transitions STATE_LISTEN_SERVER cfg env (fuel + 1 + 1 + 1) STATE_LISTEN_SERVER
          STATE_SERVER_CALCULATE_LOSSINESS ctx1 = some out
      ∧ out.2.next = STATE_LISTEN_SERVER
      ∧ stats_codes out.2.trace
        = (match (calculate_server_lossiness_handler cfg ctx1).next with
            | STATE_SERVER_DROP => [DROPPED_SERVER_PACKET]
            | STATE_SERVER_DELAY_PACKET => [DELAYED_SERVER_PACKET]
            | STATE_SERVER_CORRUPT =>
              if strlen ctx1.server_packet.data = 0 then [SENT_PACKET]
              else [CORRUPTED_DATA, SENT_PACKET]
            | _ => [SENT_PACKET]) := by
  have hs : ¬ env.send_result < 0 := by omega
  have hsendh : ∀ c : arguments, c.is_connected_gui ≠ 0 →
      run_handler handler.send_server_packet_handler cfg env c
        = { next := STATE_LISTEN_SERVER, args := c,
            trace := [action.send_packet c.client_sockfd c.server_packet c.client_addr_struct
              c.sent_data, action.send_stats_gui c.connected_gui_fd SENT_PACKET] } := by
    intro c hc
    simp [run_handler, send_server_packet_handler, hs, stats_if_connected, hc]
  by_cases h1 : cfg.calculate_lossiness ctx1.server_drop_rate ctx1.server_delay_rate
      ctx1.corruption_rate = cfg.DROP
  · have hcalc : calculate_server_lossiness_handler cfg ctx1
        = { next := STATE_SERVER_DROP, args := ctx1, trace := [] } := by
      unfold calculate_server_lossiness_handler
      dsimp only
      rw [if_pos h1]
    have hdrop : run_handler handler.server_drop_packet_handler cfg env ctx1
        = { next := STATE_LISTEN_SERVER, args := ctx1,
            trace := [action.send_stats_gui ctx1.connected_gui_fd DROPPED_SERVER_PACKET] } := by
      simp [run_handler, server_drop_packet_handler, stats_if_connected, hconn]
    rw [run_cycle_continue server_transitions STATE_LISTEN_SERVER cfg env (fuel + 1 + 1)
      STATE_LISTEN_SERVER STATE_SERVER_CALCULATE_LOSSINESS ctx1 _ _ (by decide)
      (show run_handler handler.calculate_server_lossiness_handler cfg env ctx1 = _ from hcalc)
      (by simp) (by simp)]
    dsimp only
    rw [run_cycle_stop server_transitions STATE_LISTEN_SERVER cfg env (fuel + 1)
      STATE_SERVER_CALCULATE_LOSSINESS STATE_SERVER_DROP ctx1 _ _ (by decide) hdrop (by simp)]
    rw [hcalc]
    exact ⟨_, rfl, rfl, rfl⟩
  · by_cases h2 : cfg.calculate_lossiness ctx1.server_drop_rate ctx1.server_delay_rate
        ctx1.corruption_rate = cfg.DELAY
    · have hcalc : calculate_server_lossiness_handler cfg ctx1
          = { next := STATE_SERVER_DELAY_PACKET, args := ctx1, trace := [] } := by
        unfold calculate_server_lossiness_handler
        dsimp only
        rw [if_neg h1, if_pos h2]
      have hdelay : run_handler handler.server_delay_packet_handler cfg env ctx1
          = { next := STATE_LISTEN_SERVER,
              args := { ctx1 with num_of_threads := ctx1.num_of_threads + 1,
                                  thread_pool := ctx1.num_of_threads + 1 },
              trace := [action.pthread_create thread_routine.init_server_delay_thread
                  (some (ctx1.num_of_threads + 1)),
                action.send_stats_gui ctx1.connected_gui_fd DELAYED_SERVER_PACKET] } := by
        simp [run_handler, server_delay_packet_handler, hrealloc, stats_if_connected, hconn]
      rw [run_cycle_continue server_transitions STATE_LISTEN_SERVER cfg env (fuel + 1 + 1)
        STATE_LISTEN_SERVER STATE_SERVER_CALCULATE_LOSSINESS ctx1 _ _ (by decide)
        (show run_handler handler.calculate_server_lossiness_handler cfg env ctx1 = _ from hcalc)
        (by simp) (by simp)]
      dsimp only
      rw [run_cycle_stop server_transitions STATE_LISTEN_SERVER cfg env (fuel + 1)
        STATE_SERVER_CALCULATE_LOSSINESS STATE_SERVER_DELAY_PACKET ctx1 _ _ (by decide) hdelay (by simp)]
      rw [hcalc]
      exact ⟨_, rfl, rfl, rfl⟩
    · by_cases h3 : cfg.calculate_lossiness ctx1.server_drop_rate ctx1.server_delay_rate
          ctx1.corruption_rate = cfg.CORRUPT
      · have hcalc : calculate_server_lossiness_handler cfg ctx1
            = { next := STATE_SERVER_CORRUPT, args := ctx1, trace := [] } := by
          unfold calculate_server_lossiness_handler
          dsimp only
          rw [if_neg h1, if_neg h2, if_pos h3]
        rw [run_cycle_continue server_transitions STATE_LISTEN_SERVER cfg env (fuel + 1 + 1)
          STATE_LISTEN_SERVER STATE_SERVER_CALCULATE_LOSSINESS ctx1 _ _ (by decide)
          (show run_handler handler.calculate_server_lossiness_handler cfg env ctx1 = _
            from hcalc)
          (by simp) (by simp)]
        dsimp only
        rw [hcalc]
        by_cases h4 : strlen ctx1.server_packet.data = 0
        · have hcor : run_handler handler.server_corrupt_packet_handler cfg env ctx1
              = { next := STATE_SEND_SERVER_PACKET, args := ctx1, trace := [] } := by
            simp [run_handler, server_corrupt_packet_handler, h4]
          rw [run_cycle_continue server_transitions STATE_LISTEN_SERVER cfg env (fuel + 1)
            STATE_SERVER_CALCULATE_LOSSINESS STATE_SERVER_CORRUPT ctx1 _ _ (by decide) hcor
            (by simp) (by simp)]
          dsimp only
          rw [run_cycle_stop server_transitions STATE_LISTEN_SERVER cfg env fuel
            STATE_SERVER_CORRUPT STATE_SEND_SERVER_PACKET ctx1 _ _ (by decide)
            (hsendh ctx1 hconn) (by simp)]
          simp [h4, stats_codes]
        · have hcor : run_handler handler.server_corrupt_packet_handler cfg env ctx1
              = { next := STATE_SEND_SERVER_PACKET,
                  args := { ctx1 with server_packet := { ctx1.server_packet with
                    data := strcpy ctx1.server_packet.data
                      (cfg.corrupt_data (strdup ctx1.client_packet.data)
                        (strlen ctx1.server_packet.data)) } },
                  trace := [action.send_stats_gui ctx1.connected_gui_fd CORRUPTED_DATA] } := by
            simp [run_handler, server_corrupt_packet_handler, h4, stats_if_connected, hconn]
          rw [run_cycle_continue server_transitions STATE_LISTEN_SERVER cfg env (fuel + 1)
            STATE_SERVER_CALCULATE_LOSSINESS STATE_SERVER_CORRUPT ctx1 _ _ (by decide) hcor
            (by simp) (by simp)]
          dsimp only
          rw [run_cycle_stop server_transitions STATE_LISTEN_SERVER cfg env fuel
            STATE_SERVER_CORRUPT STATE_SEND_SERVER_PACKET _ _ _ (by decide)
            (hsendh { ctx1 with server_packet := { ctx1.server_packet with
                data := strcpy ctx1.server_packet.data
                  (cfg.corrupt_data (strdup ctx1.client_packet.data)
                    (strlen ctx1.server_packet.data)) } } hconn) (by simp)]
          simp [h4, stats_codes]
      · have hcalc : calculate_server_lossiness_handler cfg ctx1
            = { next := STATE_SEND_SERVER_PACKET, args := ctx1, trace := [] } := by
          unfold calculate_server_lossiness_handler
          dsimp only
          rw [if_neg h1, if_neg h2, if_neg h3]
        rw [run_cycle_continue server_transitions STATE_LISTEN_SERVER cfg env (fuel + 1 + 1)
          STATE_LISTEN_SERVER STATE_SERVER_CALCULATE_LOSSINESS ctx1 _ _ (by decide)
          (show run_handler handler.calculate_server_lossiness_handler cfg env ctx1 = _
            from hcalc)
          (by simp) (by simp)]
        dsimp only
        rw [run_cycle_stop server_transitions STATE_LISTEN_SERVER cfg env (fuel + 1)
          STATE_SERVER_CALCULATE_LOSSINESS STATE_SEND_SERVER_PACKET ctx1 _ _ (by decide)
          (hsendh ctx1 hconn) (by simp)]
        rw [hcalc]
        simp [stats_codes]

/-- C10, as stated, fails on the failure paths. With an observer connected, a
packet is received and classified to be sent, and `send_packet` returns `-1`:
the client pipeline sends `RECEIVED_PACKET` and no terminal code, and so does
the server pipeline. The same happens when the packet is classified to be
delayed and `realloc` fails. -/
theorem stats_without_terminal_on_failure :
    (run_cycle main_transitions STATE_LISTEN_CLIENT (sample_config 0)
        (sample_environment (sample_packet 21922 [97, 0, 0, 0]) (-1) true) 7
        STATE_SEND_CLIENT_PACKET STATE_LISTEN_CLIENT
        (sample_args (sample_packet 0 [0, 0, 0, 0]) (sample_packet 0 [0, 0, 0, 0]))).map
          (fun out => stats_codes out.2.trace) = some [RECEIVED_PACKET]
      ∧ (run_cycle server_transitions STATE_LISTEN_SERVER (sample_config 0)
        (sample_environment (sample_packet 21922 [97, 0, 0, 0]) (-1) true) 7
        STATE_SEND_SERVER_PACKET STATE_LISTEN_SERVER
        (sample_args (sample_packet 0 [0, 0, 0, 0]) (sample_packet 0 [0, 0, 0, 0]))).map
          (fun out => stats_codes out.2.trace) = some [RECEIVED_PACKET]
      ∧ (run_cycle main_transitions STATE_LISTEN_CLIENT (sample_config 2)
        (sample_environment (sample_packet 21922 [97, 0, 0, 0]) 0 false) 7
        STATE_SEND_CLIENT_PACKET STATE_LISTEN_CLIENT
        (sample_args (sample_packet 0 [0, 0, 0, 0]) (sample_packet 0 [0, 0, 0, 0]))).map
          (fun out => stats_codes out.2.trace) = some [RECEIVED_PACKET]
      ∧ (run_cycle server_transitions STATE_LISTEN_SERVER (sample_config 2)
        (sample_environment (sample_packet 21922 [97, 0, 0, 0]) 0 false) 7
        STATE_SEND_SERVER_PACKET STATE_LISTEN_SERVER
        (sample_args (sample_packet 0 [0, 0, 0, 0]) (sample_packet 0 [0, 0, 0, 0]))).map
          (fun out => stats_codes out.2.trace) = some [RECEIVED_PACKET] := by
  decide

/-- C10, amended. With an observer connected, `exit_flag` clear and a receive
that does not fail: on every handler path on which `send_packet` and the
thread-pool `realloc` succeed, four handler calls are enough for the pipeline
to be back at its listen state, and the codes it sent for the packet are
`RECEIVED_PACKET` followed by exactly one terminal code (the direction's
`DROPPED_*`, its `DELAYED_*`, or `SENT_PACKET`), with `CORRUPTED_DATA` between
them exactly on the corrupt path with a non-empty payload. On the paths where
`send_packet` fails or `realloc` fails, the send handler and the delay handler
return `STATE_ERROR` and send no code. -/
theorem stats_per_packet (cfg : proxy_config) (env : environment) (ctx : arguments)
    (fuel : Nat) (hconn : ctx.is_connected_gui ≠ 0) (hexit : env.exit_flag = 0)
    (hrecv : env.receive_result ≠ -1) :
    (0 ≤ env.send_result → env.realloc_ok = true →
      (∀ from_id, from_id ∈ [STATE_CREATE_KEYBOARD_THREAD, STATE_CLIENT_DROP,
            STATE_CLIENT_DELAY_PACKET, STATE_SEND_CLIENT_PACKET] →
        ∃ out, run_cycle main_transitions STATE_LISTEN_CLIENT cfg env (fuel + 4) from_id
              STATE_LISTEN_CLIENT ctx = some out
          ∧ out.2.next = STATE_LISTEN_CLIENT
          ∧ stats_codes out.2.trace
            = RECEIVED_PACKET ::
              (match (calculate_client_lossiness_handler cfg
                  { ctx with client_packet := env.received }).next with
                | STATE_CLIENT_DROP => [DROPPED_CLIENT_PACKET]
                | STATE_CLIENT_DELAY_PACKET => [DELAYED_CLIENT_PACKET]
                | STATE_CLIENT_CORRUPT =>
                  if strlen env.received.data = 0 then [SENT_PACKET]
                  else [CORRUPTED_DATA, SENT_PACKET]
                | _ => [SENT_PACKET]))
      ∧ (∀ from_id, from_id ∈ [FSM_INIT, STATE_SERVER_DROP, STATE_SERVER_DELAY_PACKET,
            STATE_SEND_SERVER_PACKET] →
        ∃ out, run_cycle server_transitions STATE_LISTEN_SERVER cfg env (fuel + 4) from_id
              STATE_LISTEN_SERVER ctx = some out
          ∧ out.2.next = STATE_LISTEN_SERVER
          ∧ stats_codes out.2.trace
            = RECEIVED_PACKET ::
              (match (calculate_server_lossiness_handler cfg
                  { ctx with server_packet := env.received }).next with
                | STATE_SERVER_DROP => [DROPPED_SERVER_PACKET]
                | STATE_SERVER_DELAY_PACKET => [DELAYED_SERVER_PACKET]
                | STATE_SERVER_CORRUPT =>
                  if strlen env.received.data = 0 then [SENT_PACKET]
                  else [CORRUPTED_DATA, SENT_PACKET]
                | _ => [SENT_PACKET])))
    ∧ (env.send_result < 0 →
        (send_client_packet_handler env.send_result ctx).next = STATE_ERROR
        ∧ stats_codes (send_client_packet_handler env.send_result ctx).trace = []
        ∧ (send_server_packet_handler env.send_result ctx).next = STATE_ERROR
        ∧ stats_codes (send_server_packet_handler env.send_result ctx).trace = [])
    ∧ ((client_delay_packet_handler false ctx).next = STATE_ERROR
        ∧ (client_delay_packet_handler false ctx).trace = []
        ∧ (server_delay_packet_handler false ctx).next = STATE_ERROR
        ∧ (server_delay_packet_handler false ctx).trace = []) := by
  refine ⟨?_, ?_, ?_⟩
  · intro hsend hrealloc
    constructor
    · intro from_id hfrom
      have hfind : (find_transition main_transitions from_id STATE_LISTEN_CLIENT).map
          (fun row => row.perform) = some (some handler.listen_client_handler) := by
        simp only [List.mem_cons, List.mem_singleton, List.not_mem_nil, or_false] at hfrom
        rcases hfrom with h | h | h | h <;> subst h <;> decide
      have hl := listen_client_received env ctx cfg hconn hexit hrecv
      have e : fuel + 4 = fuel + 1 + 1 + 1 + 1 := rfl
      rw [e, run_cycle_continue main_transitions STATE_LISTEN_CLIENT cfg env (fuel + 1 + 1 + 1)
        from_id STATE_LISTEN_CLIENT ctx _ _ hfind hl (by simp) (by simp)]
      dsimp only
      obtain ⟨out1, ho, hn, hst⟩ := client_cycle_from_classify cfg env
        { ctx with client_packet := env.received } fuel hconn hsend hrealloc
      rw [ho]
      refine ⟨_, rfl, hn, ?_⟩
      dsimp only at hst ⊢
      rw [← hst]
      simp [stats_codes]
    · intro from_id hfrom
      have hfind : (find_transition server_transitions from_id STATE_LISTEN_SERVER).map
          (fun row => row.perform) = some (some handler.listen_server_handler) := by
        simp only [List.mem_cons, List.mem_singleton, List.not_mem_nil, or_false] at hfrom
        rcases hfrom with h | h | h | h <;> subst h <;> decide
      have hl := listen_server_received env ctx cfg hconn hexit hrecv
      have e : fuel + 4 = fuel + 1 + 1 + 1 + 1 := rfl
      rw [e, run_cycle_continue server_transitions STATE_LISTEN_SERVER cfg env
        (fuel + 1 + 1 + 1) from_id STATE_LISTEN_SERVER ctx _ _ hfind hl (by simp) (by simp)]
      dsimp only
      obtain ⟨out1, ho, hn, hst⟩ := server_cycle_from_classify cfg env
        { ctx with server_packet := env.received } fuel hconn hsend hrealloc
      rw [ho]
      refine ⟨_, rfl, hn, ?_⟩
      dsimp only at hst ⊢
      rw [← hst]
      simp [stats_codes]
  · intro hfail
    simp [send_client_packet_handler, send_server_packet_handler, hfail, stats_codes]
  · simp [client_delay_packet_handler, server_delay_packet_handler]

/-- The witness of C10 (amended): an observer is connected, the packet with
payload `"b"` is received and classified `CORRUPT`, and every call succeeds;
the client pipeline sends `RECEIVED_PACKET`, `CORRUPTED_DATA`, `SENT_PACKET`. -/
theorem stats_per_packet_witness :
    (sample_args (sample_packet 0 [0, 0, 0, 0]) (sample_packet 0 [0, 0, 0, 0])).is_connected_gui
        ≠ 0
      ∧ (sample_environment (sample_packet 392 [98, 0, 0, 0]) 0 true).exit_flag = 0
      ∧ (sample_environment (sample_packet 392 [98, 0, 0, 0]) 0 true).receive_result ≠ -1
      ∧ ∃ out, run_cycle main_transitions STATE_LISTEN_CLIENT (sample_config 3)
            (sample_environment (sample_packet 392 [98, 0, 0, 0]) 0 true) (0 + 4)
            STATE_SEND_CLIENT_PACKET STATE_LISTEN_CLIENT
            (sample_args (sample_packet 0 [0, 0, 0, 0]) (sample_packet 0 [0, 0, 0, 0]))
          = some out
        ∧ out.2.next = STATE_LISTEN_CLIENT
        ∧ stats_codes out.2.trace = [RECEIVED_PACKET, CORRUPTED_DATA, SENT_PACKET] := by
  refine ⟨by decide, by decide, by decide, ?_⟩
  obtain ⟨out, h1, h2, h3⟩ :=
    ((stats_per_packet (sample_config 3)
      (sample_environment (sample_packet 392 [98, 0, 0, 0]) 0 true)
      (sample_args (sample_packet 0 [0, 0, 0, 0]) (sample_packet 0 [0, 0, 0, 0])) 0
      (by decide) (by decide) (by decide)).1 (by decide) (by decide)).1
      STATE_SEND_CLIENT_PACKET (by decide)
  exact ⟨out, h1, h2, h3.trans (by decide)⟩

/-! ## Send errors, destinations, termination -/

/-- C11, as stated, fails: with `send_packet` returning `-1`, the send handler
of either direction returns `STATE_ERROR`, not its listen state, and sends no
`SENT_PACKET`. -/
theorem send_failure_returns_error :
    (send_client_packet_handler (-1)
        (sample_args (sample_packet 21922 [97, 0, 0, 0]) (sample_packet 392 [98, 0, 0, 0]))).next
        ≠ STATE_LISTEN_CLIENT
      ∧ (send_server_packet_handler (-1)
        (sample_args (sample_packet 21922 [97, 0, 0, 0]) (sample_packet 392 [98, 0, 0, 0]))).next
        ≠ STATE_LISTEN_SERVER
      ∧ (send_client_packet_handler (-1)
        (sample_args (sample_packet 21922 [97, 0, 0, 0]) (sample_packet 392 [98, 0, 0, 0]))).next
        = STATE_ERROR
      ∧ (send_server_packet_handler (-1)
        (sample_args (sample_packet 21922 [97, 0, 0, 0]) (sample_packet 392 [98, 0, 0, 0]))).next
        = STATE_ERROR := by
  decide

/-- C11, amended: for every context and every result of `send_packet`, the
send handler of either direction returns `STATE_ERROR` when the result is
negative, sending no statistics code, and returns its direction's listen state
otherwise, sending `SENT_PACKET` when an observer is connected; it never
changes the context. -/
theorem send_handler_next_state (ctx : arguments) (send_result : Int) :
    (send_client_packet_handler send_result ctx).next
        = (if send_result < 0 then STATE_ERROR else STATE_LISTEN_CLIENT)
      ∧ stats_codes (send_client_packet_handler send_result ctx).trace
        = (if send_result < 0 then []
           else if ctx.is_connected_gui ≠ 0 then [SENT_PACKET] else [])
      ∧ (send_client_packet_handler send_result ctx).args = ctx
      ∧ (send_server_packet_handler send_result ctx).next
        = (if send_result < 0 then STATE_ERROR else STATE_LISTEN_SERVER)
      ∧ stats_codes (send_server_packet_handler send_result ctx).trace
        = (if send_result < 0 then []
           else if ctx.is_connected_gui ≠ 0 then [SENT_PACKET] else [])
      ∧ (send_server_packet_handler send_result ctx).args = ctx := by
  unfold send_client_packet_handler send_server_packet_handler stats_if_connected stats_codes
  by_cases hs : send_result < 0 <;> by_cases hg : ctx.is_connected_gui = 0 <;> simp [hs, hg]

theorem send_calls_stats_if_connected (ctx : arguments) (code : gui_stats) :
    send_calls (stats_if_connected ctx code) = [] := by
  unfold stats_if_connected send_calls
  split <;> rfl

theorem send_calls_close_if_set (fd : Int) : send_calls (close_if_set fd) = [] := by
  unfold close_if_set send_calls
  split <;> rfl

theorem send_calls_append (a b : List action) :
    send_calls (a ++ b) = send_calls a ++ send_calls b := by
  unfold send_calls
  exact List.filterMap_append _ _ _

theorem send_calls_cons_other (a : action) (rest : List action)
    (h : ∀ sockfd pt addr fp, a ≠ action.send_packet sockfd pt addr fp) :
    send_calls (a :: rest) = send_calls rest := by
  unfold send_calls
  cases a <;> first | rfl | exact absurd rfl (h _ _ _ _)

/-- The handlers other than the two send handlers make no call of
`send_packet`. -/
theorem send_calls_other_handlers (cfg : proxy_config) (env : environment) (ctx : arguments)
    (h : handler) (h1 : h ≠ handler.send_client_packet_handler)
    (h2 : h ≠ handler.send_server_packet_handler) :
    send_calls (run_handler h cfg env ctx).trace = [] := by
  cases h
  case send_client_packet_handler => exact absurd rfl h1
  case send_server_packet_handler => exact absurd rfl h2
  case parse_arguments_handler =>
    simp only [run_handler, parse_arguments_handler]; split <;> rfl
  case handle_arguments_handler =>
    simp only [run_handler, handle_arguments_handler]; repeat' split
    all_goals rfl
  case convert_address_handler =>
    simp only [run_handler, convert_address_handler]; repeat' split
    all_goals rfl
  case create_socket_handler =>
    simp only [run_handler, create_socket_handler]; repeat' split
    all_goals rfl
  case bind_socket_handler =>
    simp only [run_handler, bind_socket_handler]; repeat' split
    all_goals rfl
  case listen_handler =>
    simp only [run_handler, listen_handler]; split <;> rfl
  case create_gui_thread_handler =>
    simp only [run_handler, create_gui_thread_handler]; split <;> rfl
  case create_server_thread_handler =>
    simp only [run_handler, create_server_thread_handler]; split <;> rfl
  case create_keyboard_thread_handler =>
    simp only [run_handler, create_keyboard_thread_handler]; split <;> rfl
  case listen_client_handler =>
    simp only [run_handler, listen_client_handler]; repeat' split
    · rfl
    · rfl
    · rw [send_calls_cons_other _ _ (by intros; simp), send_calls_stats_if_connected]
  case calculate_client_lossiness_handler =>
    simp only [run_handler, calculate_client_lossiness_handler]; repeat' split
    all_goals rfl
  case client_drop_packet_handler =>
    simp only [run_handler, client_drop_packet_handler, send_calls_stats_if_connected]
  case client_delay_packet_handler =>
    simp only [run_handler, client_delay_packet_handler]; split
    · rfl
    · rw [send_calls_cons_other _ _ (by intros; simp), send_calls_stats_if_connected]
  case client_corrupt_packet_handler =>
    simp only [run_handler, client_corrupt_packet_handler]; split
    · rfl
    · exact send_calls_stats_if_connected _ _
  case cleanup_handler =>
    simp only [run_handler, cleanup_handler, send_calls_append, send_calls_close_if_set]
    rfl
  case error_handler => rfl
  case listen_server_handler =>
    simp only [run_handler, listen_server_handler]; repeat' split
    · rfl
    · rfl
    · rw [send_calls_cons_other _ _ (by intros; simp), send_calls_stats_if_connected]
  case calculate_server_lossiness_handler =>
    simp only [run_handler, calculate_server_lossiness_handler]; repeat' split
    all_goals rfl
  case server_drop_packet_handler =>
    simp only [run_handler, server_drop_packet_handler, send_calls_stats_if_connected]
  case server_delay_packet_handler =>
    simp only [run_handler, server_delay_packet_handler]; split
    · rfl
    · rw [send_calls_cons_other _ _ (by intros; simp), send_calls_stats_if_connected]
  case server_corrupt_packet_handler =>
    simp only [run_handler, server_corrupt_packet_handler]; split
    · rfl
    · exact send_calls_stats_if_connected _ _

/-- C13: every call of `send_packet` for a client-originated packet (by
`send_client_packet_handler` and by `init_client_delay_thread`) is one call on
`server_sockfd`, with `client_packet` and destination `server_addr_struct`;
every call for a server-originated packet (by `send_server_packet_handler` and
by `init_server_delay_thread`) is one call on `client_sockfd`, with
`server_packet` and destination `client_addr_struct`; and no other handler of
the two transition tables calls `send_packet`. -/
theorem sends_go_to_opposite_side (cfg : proxy_config) (env : environment) (ctx : arguments)
    (h : handler) :
    send_calls (send_client_packet_handler env.send_result ctx).trace
        = [(ctx.server_sockfd, ctx.client_packet, ctx.server_addr_struct)]
      ∧ send_calls (init_client_delay_thread ctx)
        = [(ctx.server_sockfd, ctx.client_packet, ctx.server_addr_struct)]
      ∧ send_calls (send_server_packet_handler env.send_result ctx).trace
        = [(ctx.client_sockfd, ctx.server_packet, ctx.client_addr_struct)]
      ∧ send_calls (init_server_delay_thread ctx)
        = [(ctx.client_sockfd, ctx.server_packet, ctx.client_addr_struct)]
      ∧ send_calls (run_handler h cfg env ctx).trace
        = (if h = handler.send_client_packet_handler then
             [(ctx.server_sockfd, ctx.client_packet, ctx.server_addr_struct)]
           else if h = handler.send_server_packet_handler then
             [(ctx.client_sockfd, ctx.server_packet, ctx.client_addr_struct)]
           else []) := by
  have hc : send_calls (send_client_packet_handler env.send_result ctx).trace
      = [(ctx.server_sockfd, ctx.client_packet, ctx.server_addr_struct)] := by
    unfold send_client_packet_handler stats_if_connected send_calls
    by_cases hs : env.send_result < 0 <;> by_cases hg : ctx.is_connected_gui = 0 <;>
      simp [hs, hg]
  have hsv : send_calls (send_server_packet_handler env.send_result ctx).trace
      = [(ctx.client_sockfd, ctx.server_packet, ctx.client_addr_struct)] := by
    unfold send_server_packet_handler stats_if_connected send_calls
    by_cases hs : env.send_result < 0 <;> by_cases hg : ctx.is_connected_gui = 0 <;>
      simp [hs, hg]
  refine ⟨hc, ?_, hsv, ?_, ?_⟩
  · unfold init_client_delay_thread stats_if_connected send_calls
    by_cases hg : ctx.is_connected_gui = 0 <;> simp [hg]
  · unfold init_server_delay_thread stats_if_connected send_calls
    by_cases hg : ctx.is_connected_gui = 0 <;> simp [hg]
  · by_cases h1 : h = handler.send_client_packet_handler
    · subst h1
      simpa [run_handler] using hc
    · by_cases h2 : h = handler.send_server_packet_handler
      · subst h2
        simpa [run_handler] using hsv
      · rw [if_neg h1, if_neg h2]
        exact send_calls_other_handlers cfg env ctx h h1 h2

/-- C14: when `exit_flag` is set on entry, `listen_client_handler` returns
`STATE_CLEANUP` and `listen_server_handler` returns `FSM_EXIT`, both without
any call (no `receive_packet`, no statistics code) and with the context
unchanged; when `exit_flag` is clear each performs exactly one
`receive_packet`, on its own socket, before it returns. -/
theorem listen_checks_exit_flag (exit_flag receive_result : Int) (received : packet)
    (ctx : arguments) :
    (exit_flag ≠ 0 →
      (listen_client_handler exit_flag receive_result received ctx).next = STATE_CLEANUP
        ∧ (listen_client_handler exit_flag receive_result received ctx).trace = []
        ∧ (listen_client_handler exit_flag receive_result received ctx).args = ctx
        ∧ (listen_server_handler exit_flag receive_result received ctx).next = FSM_EXIT
        ∧ (listen_server_handler exit_flag receive_result received ctx).trace = []
        ∧ (listen_server_handler exit_flag receive_result received ctx).args = ctx)
    ∧ (exit_flag = 0 →
      receive_calls (listen_client_handler exit_flag receive_result received ctx).trace
          = [ctx.client_sockfd]
        ∧ receive_calls (listen_server_handler exit_flag receive_result received ctx).trace
          = [ctx.server_sockfd]) := by
  constructor
  · intro h
    simp [listen_client_handler, listen_server_handler, h]
  · intro h
    unfold listen_client_handler listen_server_handler stats_if_connected receive_calls
    by_cases hr : receive_result = -1 <;> by_cases hg : ctx.is_connected_gui = 0 <;>
      simp [h, hr, hg]

/-- The witness of C14: `exit_flag` set to `1` and `exit_flag` clear, with an
observer connected. -/
theorem listen_checks_exit_flag_witness :
    (1 : Int) ≠ 0 ∧ (0 : Int) = 0
      ∧ (listen_client_handler 1 0 (sample_packet 392 [98, 0, 0, 0])
          (sample_args (sample_packet 0 [0, 0, 0, 0]) (sample_packet 0 [0, 0, 0, 0]))).trace = []
      ∧ receive_calls (listen_client_handler 0 0 (sample_packet 392 [98, 0, 0, 0])
          (sample_args (sample_packet 0 [0, 0, 0, 0]) (sample_packet 0 [0, 0, 0, 0]))).trace
          = [3] :=
  ⟨by decide, by decide,
   ((listen_checks_exit_flag 1 0 (sample_packet 392 [98, 0, 0, 0])
      (sample_args (sample_packet 0 [0, 0, 0, 0]) (sample_packet 0 [0, 0, 0, 0]))).1
      (by decide)).2.1,
   ((listen_checks_exit_flag 0 0 (sample_packet 392 [98, 0, 0, 0])
      (sample_args (sample_packet 0 [0, 0, 0, 0]) (sample_packet 0 [0, 0, 0, 0]))).2
      rfl).1⟩

/-! ## Direction of the drop and delay codes -/

/-- C17, as stated, fails on one path: with an observer connected, when the
thread-pool `realloc` fails the delay handler of either direction sends no
code and returns `STATE_ERROR`, not its listen state. -/
theorem delay_handler_realloc_failure :
    (sample_args (sample_packet 0 [0, 0, 0, 0]) (sample_packet 0 [0, 0, 0, 0])).is_connected_gui
        ≠ 0
      ∧ stats_codes (client_delay_packet_handler false
          (sample_args (sample_packet 0 [0, 0, 0, 0]) (sample_packet 0 [0, 0, 0, 0]))).trace = []
      ∧ (client_delay_packet_handler false
          (sample_args (sample_packet 0 [0, 0, 0, 0]) (sample_packet 0 [0, 0, 0, 0]))).next
        ≠ STATE_LISTEN_CLIENT
      ∧ stats_codes (server_delay_packet_handler false
          (sample_args (sample_packet 0 [0, 0, 0, 0]) (sample_packet 0 [0, 0, 0, 0]))).trace = []
      ∧ (server_delay_packet_handler false
          (sample_args (sample_packet 0 [0, 0, 0, 0]) (sample_packet 0 [0, 0, 0, 0]))).next
        ≠ STATE_LISTEN_SERVER := by
  decide

/-- C17, amended: with an observer connected, the client pipeline's drop
handler sends exactly `DROPPED_CLIENT_PACKET` and returns
`STATE_LISTEN_CLIENT`, and its delay handler, when the thread-pool `realloc`
succeeds, sends exactly `DELAYED_CLIENT_PACKET` and returns
`STATE_LISTEN_CLIENT`; the server pipeline's handlers do the same with
`DROPPED_SERVER_PACKET`, `DELAYED_SERVER_PACKET` and `STATE_LISTEN_SERVER`.
When `realloc` fails a delay handler sends no code and returns
`STATE_ERROR`. So no client handler ever sends a `*_SERVER_PACKET` code and no
server handler a `*_CLIENT_PACKET` code. -/
theorem drop_delay_codes_by_direction (ctx : arguments) (hconn : ctx.is_connected_gui ≠ 0) :
    (stats_codes (client_drop_packet_handler ctx).trace = [DROPPED_CLIENT_PACKET]
      ∧ (client_drop_packet_handler ctx).next = STATE_LISTEN_CLIENT
      ∧ stats_codes (client_delay_packet_handler true ctx).trace = [DELAYED_CLIENT_PACKET]
      ∧ (client_delay_packet_handler true ctx).next = STATE_LISTEN_CLIENT
      ∧ stats_codes (client_delay_packet_handler false ctx).trace = []
      ∧ (client_delay_packet_handler false ctx).next = STATE_ERROR)
    ∧ (stats_codes (server_drop_packet_handler ctx).trace = [DROPPED_SERVER_PACKET]
      ∧ (server_drop_packet_handler ctx).next = STATE_LISTEN_SERVER
      ∧ stats_codes (server_delay_packet_handler true ctx).trace = [DELAYED_SERVER_PACKET]
      ∧ (server_delay_packet_handler true ctx).next = STATE_LISTEN_SERVER
      ∧ stats_codes (server_delay_packet_handler false ctx).trace = []
      ∧ (server_delay_packet_handler false ctx).next = STATE_ERROR) := by
  simp [client_drop_packet_handler, client_delay_packet_handler, server_drop_packet_handler,
    server_delay_packet_handler, stats_if_connected, stats_codes, hconn]

/-- The witness of C17 (amended): a context with an observer connected. -/
theorem drop_delay_codes_by_direction_witness :
    (sample_args (sample_packet 0 [0, 0, 0, 0]) (sample_packet 0 [0, 0, 0, 0])).is_connected_gui
        ≠ 0
      ∧ stats_codes (client_delay_packet_handler true
          (sample_args (sample_packet 0 [0, 0, 0, 0]) (sample_packet 0 [0, 0, 0, 0]))).trace
        = [DELAYED_CLIENT_PACKET]
      ∧ stats_codes (server_drop_packet_handler
          (sample_args (sample_packet 0 [0, 0, 0, 0]) (sample_packet 0 [0, 0, 0, 0]))).trace
        = [DROPPED_SERVER_PACKET] :=
  ⟨by decide,
   (drop_delay_codes_by_direction
      (sample_args (sample_packet 0 [0, 0, 0, 0]) (sample_packet 0 [0, 0, 0, 0]))
      (by decide)).1.2.2.1,
   (drop_delay_codes_by_direction
      (sample_args (sample_packet 0 [0, 0, 0, 0]) (sample_packet 0 [0, 0, 0, 0]))
      (by decide)).2.1⟩

/-! ## Flags and numeric arguments -/

/-- C18: with the six flag constants pairwise different, `read_flags` maps a
`flags` value equal to `SYN`, `SYNACK`, `ACK`, `PSHACK`, `FINACK`, `RSTACK` to
`ESTABLISH_HANDSHAKE`, `SEND_HANDSHAKE_ACK`, `RECV_ACK`, `SEND_ACK`,
`END_CONNECTION`, `RECV_RST` respectively, and every other value to
`UNKNOWN_FLAG`. -/
theorem read_flags_classifies (k : flag_constants) (flags : Nat)
    (hk : [k.SYN, k.SYNACK, k.ACK, k.PSHACK, k.FINACK, k.RSTACK].Nodup) :
    ((flags : Int) = k.SYN → read_flags k flags = ESTABLISH_HANDSHAKE)
      ∧ ((flags : Int) = k.SYNACK → read_flags k flags = SEND_HANDSHAKE_ACK)
      ∧ ((flags : Int) = k.ACK → read_flags k flags = RECV_ACK)
      ∧ ((flags : Int) = k.PSHACK → read_flags k flags = SEND_ACK)
      ∧ ((flags : Int) = k.FINACK → read_flags k flags = END_CONNECTION)
      ∧ ((flags : Int) = k.RSTACK → read_flags k flags = RECV_RST)
      ∧ ((flags : Int) ≠ k.SYN → (flags : Int) ≠ k.SYNACK → (flags : Int) ≠ k.ACK →
          (flags : Int) ≠ k.PSHACK → (flags : Int) ≠ k.FINACK → (flags : Int) ≠ k.RSTACK →
          read_flags k flags = UNKNOWN_FLAG) := by
  simp only [List.nodup_cons, List.mem_cons, List.mem_singleton, List.not_mem_nil, not_or,
    List.nodup_nil, or_false, not_false_eq_true, and_true] at hk
  obtain ⟨⟨h12, h13, h14, h15, h16⟩, ⟨h23, h24, h25, h26⟩, ⟨h34, h35, h36⟩, ⟨h45, h46⟩, h56⟩ := hk
  unfold read_flags
  refine ⟨?_, ?_, ?_, ?_, ?_, ?_, ?_⟩
  · intro h; rw [if_pos h]
  · intro h; rw [h, if_neg (Ne.symm h12), if_pos rfl]
  · intro h
    rw [h, if_neg (Ne.symm h13), if_neg (Ne.symm h23), if_neg h34, if_pos rfl]
  · intro h; rw [h, if_neg (Ne.symm h14), if_neg (Ne.symm h24), if_pos rfl]
  · intro h
    rw [h, if_neg (Ne.symm h15), if_neg (Ne.symm h25), if_neg (Ne.symm h45),
      if_neg (Ne.symm h35), if_pos rfl]
  · intro h
    rw [h, if_neg (Ne.symm h16), if_neg (Ne.symm h26), if_neg (Ne.symm h46),
      if_neg (Ne.symm h36), if_neg (Ne.symm h56), if_pos rfl]
  · intro a b c d e f
    rw [if_neg a, if_neg b, if_neg d, if_neg c, if_neg e, if_neg f]

/-- The witness of C18: constants `1, 2, 4, 8, 16, 32`; the value `8` is
`PSHACK` and is classified `SEND_ACK`, the value `77` is none of the six and is
classified `UNKNOWN_FLAG`. -/
theorem read_flags_classifies_witness :
    [sample_flags.SYN, sample_flags.SYNACK, sample_flags.ACK, sample_flags.PSHACK,
        sample_flags.FINACK, sample_flags.RSTACK].Nodup
      ∧ read_flags sample_flags 8 = SEND_ACK
      ∧ read_flags sample_flags 77 = UNKNOWN_FLAG :=
  ⟨by decide,
   (read_flags_classifies sample_flags 8 (by decide)).2.2.2.1 (by decide),
   (read_flags_classifies sample_flags 77 (by decide)).2.2.2.2.2.2
      (by decide) (by decide) (by decide) (by decide) (by decide) (by decide)⟩

/-- Given what `strtoumax` left behind, `convert_to_int` returns `0` exactly when `strtoumax` reported no
error, stopped at the end of the string and gave a value of at most `100`, and
then `*value` holds that value; in every other case it returns `-1` and
`*value` is what it was. -/
theorem convert_to_int_validates (r : strtoumax_result) (value : Nat) :
    convert_to_int r value
        = (if r.errno = 0 ∧ r.end_char = 0 ∧ r.parsed_value ≤ 100 then (0, r.parsed_value)
           else (-1, value))
      ∧ ((convert_to_int r value).1 = 0
          ↔ (r.errno = 0 ∧ r.end_char = 0 ∧ r.parsed_value ≤ 100))
      ∧ ((convert_to_int r value).1 = 0 ∨ (convert_to_int r value).1 = -1)
      ∧ ((convert_to_int r value).1 = 0 ∨ (convert_to_int r value).2 = value) := by
  unfold convert_to_int
  by_cases h1 : r.errno = 0
  · by_cases h2 : r.end_char = 0
    · by_cases h3 : r.parsed_value ≤ 100
      · have h4 : ¬ r.parsed_value > 100 := by omega
        have h5 : r.parsed_value % 256 = r.parsed_value := by omega
        simp [h1, h2, h3, h4, h5]
      · have h4 : r.parsed_value > 100 := by omega
        simp [h1, h2, h3, h4]
    · simp [h1, h2]
  · simp [h1]

/-- C19, evaluated at failing inputs. For the string `-18446744073709551615`
(the character `45` and twenty digits) `strtoumax` converts the digits without
range error, negates the value in `uintmax_t`, which gives `1`, leaves `errno`
at `0` and `endptr` at the terminating null byte, so `convert_to_int` returns
`0` and stores `1`, although the string does not denote a value between `0`
and `100`. The strings `+5` and `" 5"` store `5`, and `-0` stores `0`; where
the library leaves `errno` at `0` when no conversion is done, the empty string
is accepted and stores `0`. Strings of digits are treated as stated: `100` is
stored, `101`, `5a` and `99999999999999999999` are refused with `*value` left
as it was. -/
theorem convert_to_int_accepts_negated_value :
    convert_to_int (strtoumax 0
        [45, 49, 56, 52, 52, 54, 55, 52, 52, 48, 55, 51, 55, 48, 57, 53, 53, 49, 54, 49, 53]) 7
        = (0, 1)
      ∧ convert_to_int (strtoumax 22
        [45, 49, 56, 52, 52, 54, 55, 52, 52, 48, 55, 51, 55, 48, 57, 53, 53, 49, 54, 49, 53]) 7
        = (0, 1)
      ∧ convert_to_int (strtoumax 22 [43, 53]) 7 = (0, 5)
      ∧ convert_to_int (strtoumax 22 [32, 53]) 7 = (0, 5)
      ∧ convert_to_int (strtoumax 22 [45, 48]) 7 = (0, 0)
      ∧ convert_to_int (strtoumax 0 []) 7 = (0, 0)
      ∧ convert_to_int (strtoumax 22 []) 7 = (-1, 7)
      ∧ convert_to_int (strtoumax 22 [49, 48, 48]) 7 = (0, 100)
      ∧ convert_to_int (strtoumax 22 [49, 48, 49]) 7 = (-1, 7)
      ∧ convert_to_int (strtoumax 22 [53, 97]) 7 = (-1, 7)
      ∧ convert_to_int (strtoumax 22
          [57, 57, 57, 57, 57, 57, 57, 57, 57, 57, 57, 57, 57, 57, 57, 57, 57, 57, 57, 57]) 7
        = (-1, 7) := by
  decide

/-- C20: with the six flag constants pairwise different,
`read_received_packet` returns `0` exactly when the packet's flags are one of
`SYN`, `SYNACK`, `PSHACK`, `FINACK`, and `-1` otherwise: in particular for
`RSTACK`, for `ACK` (whose code `RECV_ACK` has no case) and for every value
that is none of the six. -/
theorem read_received_packet_result (k : flag_constants) (pt : packet)
    (hk : [k.SYN, k.SYNACK, k.ACK, k.PSHACK, k.FINACK, k.RSTACK].Nodup) :
    ((read_received_packet k pt).1 = 0
        ↔ ((pt.hd.flags : Int) = k.SYN ∨ (pt.hd.flags : Int) = k.SYNACK
            ∨ (pt.hd.flags : Int) = k.PSHACK ∨ (pt.hd.flags : Int) = k.FINACK))
      ∧ ((read_received_packet k pt).1 = 0 ∨ (read_received_packet k pt).1 = -1)
      ∧ ((pt.hd.flags : Int) = k.RSTACK → (read_received_packet k pt).1 = -1)
      ∧ ((pt.hd.flags : Int) = k.ACK → (read_received_packet k pt).1 = -1)
      ∧ ((pt.hd.flags : Int) ≠ k.SYN → (pt.hd.flags : Int) ≠ k.SYNACK →
          (pt.hd.flags : Int) ≠ k.ACK → (pt.hd.flags : Int) ≠ k.PSHACK →
          (pt.hd.flags : Int) ≠ k.FINACK → (pt.hd.flags : Int) ≠ k.RSTACK →
          (read_received_packet k pt).1 = -1) := by
  obtain ⟨c1, c2, c3, c4, c5, c6, c7⟩ := read_flags_classifies k pt.hd.flags hk
  simp only [List.nodup_cons, List.mem_cons, List.mem_singleton, List.not_mem_nil, not_or,
    List.nodup_nil, or_false, not_false_eq_true, and_true] at hk
  obtain ⟨⟨h12, h13, h14, h15, h16⟩, ⟨h23, h24, h25, h26⟩, ⟨h34, h35, h36⟩, ⟨h45, h46⟩, h56⟩ := hk
  unfold read_received_packet
  by_cases a1 : (pt.hd.flags : Int) = k.SYN
  · rw [c1 a1]; simp [a1, h12, h13, h14, h15, h16, h23, h24, h25, h26, h34, h35, h36, h45, h46, h56]
  · by_cases a2 : (pt.hd.flags : Int) = k.SYNACK
    · rw [c2 a2]; simp [a2, h12, h13, h14, h15, h16, h23, h24, h25, h26, h34, h35, h36, h45, h46, h56]
    · by_cases a4 : (pt.hd.flags : Int) = k.PSHACK
      · rw [c4 a4]; simp [a4, h12, h13, h14, h15, h16, h23, h24, h25, h26, h34, h35, h36, h45, h46, h56,
          Ne.symm h14, Ne.symm h24, Ne.symm h34]
      · by_cases a5 : (pt.hd.flags : Int) = k.FINACK
        · rw [c5 a5]; simp [a5, h12, h13, h14, h15, h16, h23, h24, h25, h26, h34, h35, h36, h45, h46, h56,
            Ne.symm h15, Ne.symm h25, Ne.symm h35, Ne.symm h45]
        · by_cases a3 : (pt.hd.flags : Int) = k.ACK
          · rw [c3 a3]; simp [a1, a2, a4, a5]
          · by_cases a6 : (pt.hd.flags : Int) = k.RSTACK
            · rw [c6 a6]; simp [a1, a2, a4, a5]
            · rw [c7 a1 a2 a3 a4 a5 a6]; simp [a1, a2, a4, a5]

/-- The witness of C20: constants `1, 2, 4, 8, 16, 32`; a packet with flags
`4` (`ACK`) yields `-1`, a packet with flags `8` (`PSHACK`) yields `0`. -/
theorem read_received_packet_result_witness :
    [sample_flags.SYN, sample_flags.SYNACK, sample_flags.ACK, sample_flags.PSHACK,
        sample_flags.FINACK, sample_flags.RSTACK].Nodup
      ∧ (read_received_packet sample_flags
          { hd := { seq_number := 1, ack_number := 2, flags := 4, window_size := 5,
                    checksum := 0 },
            data := [0, 0, 0, 0] }).1 = -1
      ∧ (read_received_packet sample_flags (sample_packet 392 [98, 0, 0, 0])).1 = 0 :=
  ⟨by decide,
   (read_received_packet_result sample_flags
      { hd := { seq_number := 1, ack_number := 2, flags := 4, window_size := 5,
                checksum := 0 },
        data := [0, 0, 0, 0] } (by decide)).2.2.2.1 (by decide),
   (read_received_packet_result sample_flags (sample_packet 392 [98, 0, 0, 0])
      (by decide)).1.mpr (by decide)⟩

/-! ## Runs of the harness -/

theorem fsm_run_step (table : List fsm_transition) (cfg : proxy_config)
    (envs : Nat → environment) (fuel k : Nat) (from_id to_id : fsm_state) (ctx : arguments)
    (h : handler) (n : fsm_state)
    (hfind : (find_transition table from_id to_id).map (fun row => row.perform)
      = some (some h))
    (hnext : (run_handler h cfg (envs k) ctx).next = n) (hne : n ≠ FSM_EXIT) :
    fsm_run table cfg envs (fuel + 1) k from_id to_id ctx
      = { fsm_run table cfg envs fuel (k + 1) to_id n (run_handler h cfg (envs k) ctx).args with
          calls := h :: (fsm_run table cfg envs fuel (k + 1) to_id n
            (run_handler h cfg (envs k) ctx).args).calls
          trace := (run_handler h cfg (envs k) ctx).trace
            ++ (fsm_run table cfg envs fuel (k + 1) to_id n
              (run_handler h cfg (envs k) ctx).args).trace } := by
  rw [fsm_run]
  cases hrow : find_transition table from_id to_id with
  | none => rw [hrow] at hfind; simp at hfind
  | some row =>
    rw [hrow] at hfind
    obtain ⟨a, b, p⟩ := row
    simp only [Option.map_some', Option.some.injEq] at hfind
    subst hfind
    subst hnext
    simp only []
    rw [if_neg hne]

theorem fsm_run_exit (table : List fsm_transition) (cfg : proxy_config)
    (envs : Nat → environment) (fuel k : Nat) (from_id to_id : fsm_state) (ctx : arguments)
    (h : handler)
    (hfind : (find_transition table from_id to_id).map (fun row => row.perform)
      = some (some h))
    (hnext : (run_handler h cfg (envs k) ctx).next = FSM_EXIT) :
    fsm_run table cfg envs (fuel + 1) k from_id to_id ctx
      = { finished := true, from_id := to_id, to_id := FSM_EXIT,
          args := (run_handler h cfg (envs k) ctx).args, calls := [h],
          trace := (run_handler h cfg (envs k) ctx).trace } := by
  rw [fsm_run]
  cases hrow : find_transition table from_id to_id with
  | none => rw [hrow] at hfind; simp at hfind
  | some row =>
    rw [hrow] at hfind
    obtain ⟨a, b, p⟩ := row
    simp only [Option.map_some', Option.some.injEq] at hfind
    subst hfind
    simp only []
    rw [if_pos hnext]

theorem fsm_run_calls_step (table : List fsm_transition) (cfg : proxy_config)
    (envs : Nat → environment) (fuel k : Nat) (from_id to_id : fsm_state) (ctx : arguments)
    (h : handler) (n : fsm_state)
    (hfind : (find_transition table from_id to_id).map (fun row => row.perform)
      = some (some h))
    (hnext : (run_handler h cfg (envs k) ctx).next = n) (hne : n ≠ FSM_EXIT) :
    (fsm_run table cfg envs (fuel + 1) k from_id to_id ctx).calls
      = h :: (fsm_run table cfg envs fuel (k + 1) to_id n
          (run_handler h cfg (envs k) ctx).args).calls := by
  rw [fsm_run_step table cfg envs fuel k from_id to_id ctx h n hfind hnext hne]

/-- Whatever a handler returns, a run that starts with a pair that has a row
with a handler calls that handler first. -/
theorem fsm_run_calls_head (table : List fsm_transition) (cfg : proxy_config)
    (envs : Nat → environment) (fuel k : Nat) (from_id to_id : fsm_state) (ctx : arguments)
    (h : handler)
    (hfind : (find_transition table from_id to_id).map (fun row => row.perform)
      = some (some h)) :
    ∃ rest, (fsm_run table cfg envs (fuel + 1) k from_id to_id ctx).calls = h :: rest := by
  by_cases hx : (run_handler h cfg (envs k) ctx).next = FSM_EXIT
  · rw [fsm_run_exit table cfg envs fuel k from_id to_id ctx h hfind hx]
    exact ⟨[], rfl⟩
  · rw [fsm_run_calls_step table cfg envs fuel k from_id to_id ctx h _ hfind rfl hx]
    exact ⟨_, rfl⟩

/-- In the table of `main`, a pair `(s, STATE_ERROR)` that has the row with
`error_handler` leads to `error_handler`, then `cleanup_handler`, and the run
ends. -/
theorem main_error_tail (cfg : proxy_config) (envs : Nat → environment) (fuel k : Nat)
    (s : fsm_state) (ctx : arguments)
    (hrow : (find_transition main_transitions s STATE_ERROR).map (fun row => row.perform)
      = some (some handler.error_handler)) :
    fsm_run main_transitions cfg envs (fuel + 2) k s STATE_ERROR ctx
      = { finished := true, from_id := STATE_CLEANUP, to_id := FSM_EXIT, args := ctx,
          calls := [handler.error_handler, handler.cleanup_handler],
          trace := (cleanup_handler ctx).trace } := by
  rw [fsm_run_step main_transitions cfg envs (fuel + 1) k s STATE_ERROR ctx
    handler.error_handler STATE_CLEANUP hrow rfl (by decide)]
  rw [fsm_run_exit main_transitions cfg envs fuel (k + 1) STATE_ERROR STATE_CLEANUP _
    handler.cleanup_handler (by decide) rfl]
  rfl

/-! ## Receive errors -/

/-- C12, evaluated at a failing input: `receive_packet` returns `-1` in the
server pipeline. `listen_server_handler` returns `STATE_ERROR`; the table of
`init_server_thread` has no row for the pair
`(STATE_LISTEN_SERVER, STATE_ERROR)` and no row with `STATE_CLEANUP`, so the
run of the server thread ends after that one handler: `cleanup_handler` is not
called and nothing is closed. -/
theorem server_receive_error_skips_cleanup :
    (fsm_run server_transitions (sample_config 0)
        (fun _ => sample_environment (sample_packet 392 [98, 0, 0, 0]) 0 true) 10 0 FSM_INIT
        STATE_LISTEN_SERVER
        (sample_args (sample_packet 0 [0, 0, 0, 0]) (sample_packet 0 [0, 0, 0, 0]))).calls
        = [handler.listen_server_handler, handler.calculate_server_lossiness_handler,
            handler.send_server_packet_handler, handler.listen_server_handler,
            handler.calculate_server_lossiness_handler, handler.send_server_packet_handler,
            handler.listen_server_handler, handler.calculate_server_lossiness_handler,
            handler.send_server_packet_handler, handler.listen_server_handler]
      ∧ (fsm_run server_transitions (sample_config 0)
        (fun _ => { sample_environment (sample_packet 392 [98, 0, 0, 0]) 0 true with
                    receive_result := -1 }) 10 0 FSM_INIT
        STATE_LISTEN_SERVER
        (sample_args (sample_packet 0 [0, 0, 0, 0]) (sample_packet 0 [0, 0, 0, 0]))).calls
        = [handler.listen_server_handler]
      ∧ (fsm_run server_transitions (sample_config 0)
        (fun _ => { sample_environment (sample_packet 392 [98, 0, 0, 0]) 0 true with
                    receive_result := -1 }) 10 0 FSM_INIT
        STATE_LISTEN_SERVER
        (sample_args (sample_packet 0 [0, 0, 0, 0]) (sample_packet 0 [0, 0, 0, 0]))).trace
        = [action.receive_packet 4]
      ∧ (fsm_run server_transitions (sample_config 0)
        (fun _ => { sample_environment (sample_packet 392 [98, 0, 0, 0]) 0 true with
                    receive_result := -1 }) 10 0 FSM_INIT
        STATE_LISTEN_SERVER
        (sample_args (sample_packet 0 [0, 0, 0, 0]) (sample_packet 0 [0, 0, 0, 0]))).to_id
        = STATE_ERROR
      ∧ find_transition server_transitions STATE_LISTEN_SERVER STATE_ERROR = none := by
  decide

/-- The sibling path: whenever `receive_packet` returns `-1` (with `exit_flag`
clear), `listen_client_handler` and `listen_server_handler` return
`STATE_ERROR` and send no statistics code, and in the client pipeline the
table of `main` has the row `(STATE_LISTEN_CLIENT, STATE_ERROR)`, so that
`error_handler` and `cleanup_handler` run and the state machine ends. -/
theorem receive_error_client_path (cfg : proxy_config) (envs : Nat → environment)
    (fuel k : Nat) (ctx : arguments) (client_from : fsm_state)
    (hexit : (envs k).exit_flag = 0) (hrecv : (envs k).receive_result = -1)
    (hc : client_from ∈ [STATE_CREATE_KEYBOARD_THREAD, STATE_CLIENT_DROP,
      STATE_CLIENT_DELAY_PACKET, STATE_SEND_CLIENT_PACKET]) :
    ((listen_client_handler (envs k).exit_flag (envs k).receive_result (envs k).received
          ctx).next = STATE_ERROR
      ∧ stats_codes (listen_client_handler (envs k).exit_flag (envs k).receive_result
          (envs k).received ctx).trace = []
      ∧ (listen_server_handler (envs k).exit_flag (envs k).receive_result (envs k).received
          ctx).next = STATE_ERROR
      ∧ stats_codes (listen_server_handler (envs k).exit_flag (envs k).receive_result
          (envs k).received ctx).trace = [])
    ∧ ((fsm_run main_transitions cfg envs (fuel + 3) k client_from STATE_LISTEN_CLIENT
          ctx).finished = true
      ∧ (fsm_run main_transitions cfg envs (fuel + 3) k client_from STATE_LISTEN_CLIENT
          ctx).calls
        = [handler.listen_client_handler, handler.error_handler, handler.cleanup_handler]
      ∧ (fsm_run main_transitions cfg envs (fuel + 3) k client_from STATE_LISTEN_CLIENT
          ctx).to_id = FSM_EXIT) := by
  have hlc : run_handler handler.listen_client_handler cfg (envs k) ctx
      = { next := STATE_ERROR, args := { ctx with client_packet := (envs k).received },
          trace := [action.receive_packet ctx.client_sockfd] } := by
    simp [run_handler, listen_client_handler, hexit, hrecv]
  refine ⟨?_, ?_⟩
  · simp [listen_client_handler, listen_server_handler, hexit, hrecv, stats_codes]
  · have hfind : (find_transition main_transitions client_from STATE_LISTEN_CLIENT).map
        (fun row => row.perform) = some (some handler.listen_client_handler) := by
      simp only [List.mem_cons, List.mem_singleton, List.not_mem_nil, or_false] at hc
      rcases hc with h | h | h | h <;> subst h <;> decide
    have e : fuel + 3 = fuel + 2 + 1 := rfl
    rw [e, fsm_run_step main_transitions cfg envs (fuel + 2) k client_from STATE_LISTEN_CLIENT
      ctx handler.listen_client_handler STATE_ERROR hfind (by rw [hlc]) (by decide),
      main_error_tail cfg envs fuel (k + 1) STATE_LISTEN_CLIENT _ (by decide)]
    exact ⟨rfl, rfl, rfl⟩

/-! ## Start-up -/

theorem parse_result (cfg : proxy_config) (env : environment) (ctx : arguments) :
    (run_handler handler.parse_arguments_handler cfg env ctx).next
      = (if parse_ok env then STATE_HANDLE_ARGUMENTS else STATE_ERROR) := by
  simp only [run_handler, parse_arguments_handler, parse_ok]
  by_cases h : env.parse_arguments_result = -1 <;> simp [h]

theorem handle_result (cfg : proxy_config) (env : environment) (ctx : arguments) :
    (run_handler handler.handle_arguments_handler cfg env ctx).next
      = (if handle_ok env then STATE_CONVERT_ADDRESS else STATE_ERROR) := by
  simp only [run_handler, handle_arguments_handler, handle_ok, create_file]
  by_cases h1 : env.handle_arguments_result = 0 <;>
    by_cases h2 : env.fopen_received_data = 0 <;>
    by_cases h3 : env.fopen_sent_data = 0 <;> simp [h1, h2, h3]

theorem convert_result (cfg : proxy_config) (env : environment) (ctx : arguments) :
    (run_handler handler.convert_address_handler cfg env ctx).next
      = (if convert_ok env then STATE_CREATE_SOCKET else STATE_ERROR) := by
  simp only [run_handler, convert_address_handler, convert_ok]
  by_cases h0 : env.convert_address_result 0 = 0 <;>
    by_cases h1 : env.convert_address_result 1 = 0 <;>
    by_cases h2 : env.convert_address_result 2 = 0 <;>
    by_cases h3 : env.convert_address_result 3 = 0 <;> simp [h0, h1, h2, h3]

theorem sockets_result (cfg : proxy_config) (env : environment) (ctx : arguments) :
    (run_handler handler.create_socket_handler cfg env ctx).next
      = (if sockets_ok env then STATE_BIND_SOCKET else STATE_ERROR) := by
  simp only [run_handler, create_socket_handler, sockets_ok]
  by_cases h0 : env.socket_create_result 0 = -1 <;>
    by_cases h1 : env.socket_create_result 1 = -1 <;>
    by_cases h2 : env.socket_create_result 2 = -1 <;> simp [h0, h1, h2]

theorem bind_result (cfg : proxy_config) (env : environment) (ctx : arguments) :
    (run_handler handler.bind_socket_handler cfg env ctx).next
      = (if bind_ok env then STATE_LISTEN else STATE_ERROR) := by
  simp only [run_handler, bind_socket_handler, bind_ok]
  by_cases h0 : env.socket_bind_result 0 = 0 <;>
    by_cases h1 : env.socket_bind_result 1 = 0 <;>
    by_cases h2 : env.socket_bind_result 2 = 0 <;> simp [h0, h1, h2]

theorem listen_result (cfg : proxy_config) (env : environment) (ctx : arguments) :
    (run_handler handler.listen_handler cfg env ctx).next
      = (if listen_ok env then STATE_CREATE_GUI_THREAD else STATE_ERROR) := by
  simp only [run_handler, listen_handler, listen_ok]
  by_cases h : env.start_listening_result = 0 <;> simp [h]

theorem gui_thread_result (cfg : proxy_config) (env : environment) (ctx : arguments) :
    (run_handler handler.create_gui_thread_handler cfg env ctx).next
        = (if thread_ok env thread_routine.init_gui_function then STATE_CREATE_SERVER_THREAD
           else STATE_ERROR)
      ∧ (run_handler handler.create_gui_thread_handler cfg env ctx).trace
        = [action.pthread_create thread_routine.init_gui_function none] := by
  simp only [run_handler, create_gui_thread_handler, thread_ok]
  by_cases h : env.pthread_create_result thread_routine.init_gui_function < 0 <;> simp [h]

theorem server_thread_result (cfg : proxy_config) (env : environment) (ctx : arguments) :
    (run_handler handler.create_server_thread_handler cfg env ctx).next
        = (if thread_ok env thread_routine.init_server_thread then
             STATE_CREATE_KEYBOARD_THREAD
           else STATE_ERROR)
      ∧ (run_handler handler.create_server_thread_handler cfg env ctx).trace
        = [action.pthread_create thread_routine.init_server_thread none] := by
  simp only [run_handler, create_server_thread_handler, thread_ok]
  by_cases h : env.pthread_create_result thread_routine.init_server_thread < 0 <;> simp [h]

theorem keyboard_thread_result (cfg : proxy_config) (env : environment) (ctx : arguments) :
    (run_handler handler.create_keyboard_thread_handler cfg env ctx).next
        = (if thread_ok env thread_routine.init_keyboard_thread then STATE_LISTEN_CLIENT
           else STATE_ERROR)
      ∧ (run_handler handler.create_keyboard_thread_handler cfg env ctx).trace
        = [action.pthread_create thread_routine.init_keyboard_thread none] := by
  simp only [run_handler, create_keyboard_thread_handler, thread_ok]
  by_cases h : env.pthread_create_result thread_routine.init_keyboard_thread < 0 <;> simp [h]

theorem parse_next_ok (cfg : proxy_config) (env : environment) (h : parse_ok env)
    (ctx : arguments) :
    (run_handler handler.parse_arguments_handler cfg env ctx).next = STATE_HANDLE_ARGUMENTS := by
  rw [(parse_result cfg env ctx), if_pos h]

theorem parse_next_fail (cfg : proxy_config) (env : environment) (h : ¬ parse_ok env)
    (ctx : arguments) :
    (run_handler handler.parse_arguments_handler cfg env ctx).next = STATE_ERROR := by
  rw [(parse_result cfg env ctx), if_neg h]

theorem handle_next_ok (cfg : proxy_config) (env : environment) (h : handle_ok env)
    (ctx : arguments) :
    (run_handler handler.handle_arguments_handler cfg env ctx).next = STATE_CONVERT_ADDRESS := by
  rw [(handle_result cfg env ctx), if_pos h]

theorem handle_next_fail (cfg : proxy_config) (env : environment) (h : ¬ handle_ok env)
    (ctx : arguments) :
    (run_handler handler.handle_arguments_handler cfg env ctx).next = STATE_ERROR := by
  rw [(handle_result cfg env ctx), if_neg h]

theorem convert_next_ok (cfg : proxy_config) (env : environment) (h : convert_ok env)
    (ctx : arguments) :
    (run_handler handler.convert_address_handler cfg env ctx).next = STATE_CREATE_SOCKET := by
  rw [(convert_result cfg env ctx), if_pos h]

theorem sockets_next_ok (cfg : proxy_config) (env : environment) (h : sockets_ok env)
    (ctx : arguments) :
    (run_handler handler.create_socket_handler cfg env ctx).next = STATE_BIND_SOCKET := by
  rw [(sockets_result cfg env ctx), if_pos h]

theorem bind_next_ok (cfg : proxy_config) (env : environment) (h : bind_ok env)
    (ctx : arguments) :
    (run_handler handler.bind_socket_handler cfg env ctx).next = STATE_LISTEN := by
  rw [(bind_result cfg env ctx), if_pos h]

theorem listen_next_ok (cfg : proxy_config) (env : environment) (h : listen_ok env)
    (ctx : arguments) :
    (run_handler handler.listen_handler cfg env ctx).next = STATE_CREATE_GUI_THREAD := by
  rw [(listen_result cfg env ctx), if_pos h]

theorem listen_next_fail (cfg : proxy_config) (env : environment) (h : ¬ listen_ok env)
    (ctx : arguments) :
    (run_handler handler.listen_handler cfg env ctx).next = STATE_ERROR := by
  rw [(listen_result cfg env ctx), if_neg h]

theorem gui_thread_next_ok (cfg : proxy_config) (env : environment) (h : thread_ok env thread_routine.init_gui_function)
    (ctx : arguments) :
    (run_handler handler.create_gui_thread_handler cfg env ctx).next = STATE_CREATE_SERVER_THREAD := by
  rw [(gui_thread_result cfg env ctx).1, if_pos h]

theorem gui_thread_next_fail (cfg : proxy_config) (env : environment) (h : ¬ thread_ok env thread_routine.init_gui_function)
    (ctx : arguments) :
    (run_handler handler.create_gui_thread_handler cfg env ctx).next = STATE_ERROR := by
  rw [(gui_thread_result cfg env ctx).1, if_neg h]

theorem server_thread_next_ok (cfg : proxy_config) (env : environment) (h : thread_ok env thread_routine.init_server_thread)
    (ctx : arguments) :
    (run_handler handler.create_server_thread_handler cfg env ctx).next = STATE_CREATE_KEYBOARD_THREAD := by
  rw [(server_thread_result cfg env ctx).1, if_pos h]

theorem server_thread_next_fail (cfg : proxy_config) (env : environment) (h : ¬ thread_ok env thread_routine.init_server_thread)
    (ctx : arguments) :
    (run_handler handler.create_server_thread_handler cfg env ctx).next = STATE_ERROR := by
  rw [(server_thread_result cfg env ctx).1, if_neg h]

theorem keyboard_thread_next_ok (cfg : proxy_config) (env : environment) (h : thread_ok env thread_routine.init_keyboard_thread)
    (ctx : arguments) :
    (run_handler handler.create_keyboard_thread_handler cfg env ctx).next = STATE_LISTEN_CLIENT := by
  rw [(keyboard_thread_result cfg env ctx).1, if_pos h]

theorem keyboard_thread_next_fail (cfg : proxy_config) (env : environment) (h : ¬ thread_ok env thread_routine.init_keyboard_thread)
    (ctx : arguments) :
    (run_handler handler.create_keyboard_thread_handler cfg env ctx).next = STATE_ERROR := by
  rw [(keyboard_thread_result cfg env ctx).1, if_neg h]

/-! ## The exit code -/

theorem parse_args (cfg : proxy_config) (env : environment) (ctx : arguments) :
    (run_handler handler.parse_arguments_handler cfg env ctx).args
        = { ctx with
            client_delay_rate := env.parsed_rates.1
            client_drop_rate := env.parsed_rates.2.1
            server_delay_rate := env.parsed_rates.2.2.1
            server_drop_rate := env.parsed_rates.2.2.2.1
            corruption_rate := env.parsed_rates.2.2.2.2 }
      ∧ (run_handler handler.parse_arguments_handler cfg env ctx).trace = [] := by
  simp only [run_handler, parse_arguments_handler]
  split <;> exact ⟨rfl, rfl⟩

theorem handle_args_ok (cfg : proxy_config) (env : environment) (ctx : arguments)
    (h : handle_ok env) :
    (run_handler handler.handle_arguments_handler cfg env ctx).args
        = { ctx with received_data := env.fopen_received_data,
                     sent_data := env.fopen_sent_data }
      ∧ (run_handler handler.handle_arguments_handler cfg env ctx).trace = [] := by
  obtain ⟨h1, h2, h3⟩ := h
  simp [run_handler, handle_arguments_handler, create_file, h1, h2, h3]

/-- When `parse_arguments` fails, `cleanup_handler` runs on the initial context
and calls `fclose` with its two null file pointers: `main` has no defined
result, however many handler calls are allowed. -/
theorem main_undefined_on_parse_failure :
    main (sample_config 0)
        (fun _ => { sample_environment (sample_packet 392 [98, 0, 0, 0]) 0 true with
                    parse_arguments_result := -1 }) 3 4 = none
      ∧ main (sample_config 0)
        (fun _ => { sample_environment (sample_packet 392 [98, 0, 0, 0]) 0 true with
                    parse_arguments_result := -1 }) 10 4 = none := by
  decide

theorem convert_args_ok (cfg : proxy_config) (env : environment) (ctx : arguments)
    (h : convert_ok env) :
    (run_handler handler.convert_address_handler cfg env ctx).args
        = { ctx with proxy_addr_struct := env.converted_address 0,
                     server_addr_struct := env.converted_address 1,
                     client_addr_struct := env.converted_address 2,
                     gui_addr_struct := env.converted_address 3 }
      ∧ (run_handler handler.convert_address_handler cfg env ctx).trace = [] := by
  obtain ⟨h0, h1, h2, h3⟩ := h
  simp [run_handler, convert_address_handler, h0, h1, h2, h3]

theorem sockets_args_ok (cfg : proxy_config) (env : environment) (ctx : arguments)
    (h : sockets_ok env) :
    (run_handler handler.create_socket_handler cfg env ctx).args
        = { ctx with client_sockfd := env.socket_create_result 0,
                     server_sockfd := env.socket_create_result 1,
                     proxy_gui_fd := env.socket_create_result 2 }
      ∧ (run_handler handler.create_socket_handler cfg env ctx).trace = [] := by
  obtain ⟨h0, h1, h2⟩ := h
  simp [run_handler, create_socket_handler, h0, h1, h2]

theorem bind_args (cfg : proxy_config) (env : environment) (ctx : arguments) :
    (run_handler handler.bind_socket_handler cfg env ctx).args = ctx
      ∧ (run_handler handler.bind_socket_handler cfg env ctx).trace = [] := by
  simp only [run_handler, bind_socket_handler]
  repeat' split
  all_goals exact ⟨rfl, rfl⟩

theorem listen_args (cfg : proxy_config) (env : environment) (ctx : arguments) :
    (run_handler handler.listen_handler cfg env ctx).args = ctx
      ∧ (run_handler handler.listen_handler cfg env ctx).trace = [] := by
  simp only [run_handler, listen_handler]
  split <;> exact ⟨rfl, rfl⟩

theorem gui_thread_args (cfg : proxy_config) (env : environment) (ctx : arguments) :
    (run_handler handler.create_gui_thread_handler cfg env ctx).args = ctx := by
  simp only [run_handler, create_gui_thread_handler]
  split <;> rfl

/-- C16, as stated, fails in the last part of the order: on the all-success
start-up path `create_keyboard_thread_handler` (which starts the control-input
thread) is called before `listen_client_handler` (the client-to-server listen
loop), so the control-input task is started before the second pipeline, not
after both. -/
theorem keyboard_thread_starts_before_client_loop :
    (fsm_run main_transitions (sample_config 0)
        (fun _ => sample_environment (sample_packet 392 [98, 0, 0, 0]) 0 true) 10 0 FSM_INIT
        STATE_PARSE_ARGUMENTS (initial_arguments 4)).calls
        = [handler.parse_arguments_handler, handler.handle_arguments_handler,
            handler.convert_address_handler, handler.create_socket_handler,
            handler.bind_socket_handler, handler.listen_handler,
            handler.create_gui_thread_handler, handler.create_server_thread_handler,
            handler.create_keyboard_thread_handler, handler.listen_client_handler]
      ∧ (fsm_run main_transitions (sample_config 0)
        (fun _ => sample_environment (sample_packet 392 [98, 0, 0, 0]) 0 true) 10 0 FSM_INIT
        STATE_PARSE_ARGUMENTS (initial_arguments 4)).trace
        = [action.pthread_create thread_routine.init_gui_function none,
            action.pthread_create thread_routine.init_server_thread none,
            action.pthread_create thread_routine.init_keyboard_thread none,
            action.receive_packet 3] := by
  decide

/-- C16, amended. On the all-success start-up path of the table of `main`,
the first ten handler calls are, in this order, `parse_arguments_handler`,
`handle_arguments_handler` (which opens both log files),
`convert_address_handler`, `create_socket_handler`, `bind_socket_handler`,
`listen_handler`, `create_gui_thread_handler` (stats-accept task),
`create_server_thread_handler` (server-to-client pipeline),
`create_keyboard_thread_handler` (control-input task) and
`listen_client_handler` (client-to-server listen loop); the first three threads
started are `init_gui_function`, `init_server_thread`, `init_keyboard_thread`;
and after seven handler calls, when `create_server_thread_handler` is the next
to run, both file pointers are the non-null results of `fopen` and the three
sockets are the results of `socket_create`, none of them `-1`. -/
theorem startup_order (cfg : proxy_config) (envs : Nat → environment) (fuel : Nat)
    (max_payload : Nat)
    (h0 : parse_ok (envs 0)) (h1 : handle_ok (envs 1)) (h2 : convert_ok (envs 2))
    (h3 : sockets_ok (envs 3)) (h4 : bind_ok (envs 4)) (h5 : listen_ok (envs 5))
    (h6 : thread_ok (envs 6) thread_routine.init_gui_function)
    (h7 : thread_ok (envs 7) thread_routine.init_server_thread)
    (h8 : thread_ok (envs 8) thread_routine.init_keyboard_thread) :
    (fsm_run main_transitions cfg envs (fuel + 10) 0 FSM_INIT STATE_PARSE_ARGUMENTS
        (initial_arguments max_payload)).calls.take 10
        = [handler.parse_arguments_handler, handler.handle_arguments_handler,
            handler.convert_address_handler, handler.create_socket_handler,
            handler.bind_socket_handler, handler.listen_handler,
            handler.create_gui_thread_handler, handler.create_server_thread_handler,
            handler.create_keyboard_thread_handler, handler.listen_client_handler]
      ∧ (started_threads (fsm_run main_transitions cfg envs (fuel + 10) 0 FSM_INIT
          STATE_PARSE_ARGUMENTS (initial_arguments max_payload)).trace).take 3
        = [thread_routine.init_gui_function, thread_routine.init_server_thread,
            thread_routine.init_keyboard_thread]
      ∧ (fsm_run main_transitions cfg envs 7 0 FSM_INIT STATE_PARSE_ARGUMENTS
          (initial_arguments max_payload)).to_id = STATE_CREATE_SERVER_THREAD
      ∧ (fsm_run main_transitions cfg envs 7 0 FSM_INIT STATE_PARSE_ARGUMENTS
          (initial_arguments max_payload)).args.received_data = (envs 1).fopen_received_data
      ∧ (fsm_run main_transitions cfg envs 7 0 FSM_INIT STATE_PARSE_ARGUMENTS
          (initial_arguments max_payload)).args.sent_data = (envs 1).fopen_sent_data
      ∧ (envs 1).fopen_received_data ≠ 0 ∧ (envs 1).fopen_sent_data ≠ 0
      ∧ (fsm_run main_transitions cfg envs 7 0 FSM_INIT STATE_PARSE_ARGUMENTS
          (initial_arguments max_payload)).args.client_sockfd = (envs 3).socket_create_result 0
      ∧ (fsm_run main_transitions cfg envs 7 0 FSM_INIT STATE_PARSE_ARGUMENTS
          (initial_arguments max_payload)).args.server_sockfd = (envs 3).socket_create_result 1
      ∧ (fsm_run main_transitions cfg envs 7 0 FSM_INIT STATE_PARSE_ARGUMENTS
          (initial_arguments max_payload)).args.proxy_gui_fd = (envs 3).socket_create_result 2
      ∧ (envs 3).socket_create_result 0 ≠ -1 ∧ (envs 3).socket_create_result 1 ≠ -1
      ∧ (envs 3).socket_create_result 2 ≠ -1 := by
  have step7 : ∀ f, fsm_run main_transitions cfg envs (f + 7) 0 FSM_INIT STATE_PARSE_ARGUMENTS
      (initial_arguments max_payload)
      = { fsm_run main_transitions cfg envs f 7 STATE_CREATE_GUI_THREAD
            STATE_CREATE_SERVER_THREAD
            { initial_arguments max_payload with
              client_delay_rate := (envs 0).parsed_rates.1
              client_drop_rate := (envs 0).parsed_rates.2.1
              server_delay_rate := (envs 0).parsed_rates.2.2.1
              server_drop_rate := (envs 0).parsed_rates.2.2.2.1
              corruption_rate := (envs 0).parsed_rates.2.2.2.2
              received_data := (envs 1).fopen_received_data
              sent_data := (envs 1).fopen_sent_data
              proxy_addr_struct := (envs 2).converted_address 0
              server_addr_struct := (envs 2).converted_address 1
              client_addr_struct := (envs 2).converted_address 2
              gui_addr_struct := (envs 2).converted_address 3
              client_sockfd := (envs 3).socket_create_result 0
              server_sockfd := (envs 3).socket_create_result 1
              proxy_gui_fd := (envs 3).socket_create_result 2 } with
          calls := [handler.parse_arguments_handler, handler.handle_arguments_handler,
              handler.convert_address_handler, handler.create_socket_handler,
              handler.bind_socket_handler, handler.listen_handler,
              handler.create_gui_thread_handler]
            ++ (fsm_run main_transitions cfg envs f 7 STATE_CREATE_GUI_THREAD
              STATE_CREATE_SERVER_THREAD
              { initial_arguments max_payload with
                client_delay_rate := (envs 0).parsed_rates.1
                client_drop_rate := (envs 0).parsed_rates.2.1
                server_delay_rate := (envs 0).parsed_rates.2.2.1
                server_drop_rate := (envs 0).parsed_rates.2.2.2.1
                corruption_rate := (envs 0).parsed_rates.2.2.2.2
                received_data := (envs 1).fopen_received_data
                sent_data := (envs 1).fopen_sent_data
                proxy_addr_struct := (envs 2).converted_address 0
                server_addr_struct := (envs 2).converted_address 1
                client_addr_struct := (envs 2).converted_address 2
                gui_addr_struct := (envs 2).converted_address 3
                client_sockfd := (envs 3).socket_create_result 0
                server_sockfd := (envs 3).socket_create_result 1
                proxy_gui_fd := (envs 3).socket_create_result 2 }).calls
          trace := action.pthread_create thread_routine.init_gui_function none
            :: (fsm_run main_transitions cfg envs f 7 STATE_CREATE_GUI_THREAD
              STATE_CREATE_SERVER_THREAD
              { initial_arguments max_payload with
                client_delay_rate := (envs 0).parsed_rates.1
                client_drop_rate := (envs 0).parsed_rates.2.1
                server_delay_rate := (envs 0).parsed_rates.2.2.1
                server_drop_rate := (envs 0).parsed_rates.2.2.2.1
                corruption_rate := (envs 0).parsed_rates.2.2.2.2
                received_data := (envs 1).fopen_received_data
                sent_data := (envs 1).fopen_sent_data
                proxy_addr_struct := (envs 2).converted_address 0
                server_addr_struct := (envs 2).converted_address 1
                client_addr_struct := (envs 2).converted_address 2
                gui_addr_struct := (envs 2).converted_address 3
                client_sockfd := (envs 3).socket_create_result 0
                server_sockfd := (envs 3).socket_create_result 1
                proxy_gui_fd := (envs 3).socket_create_result 2 }).trace } := by
    intro f
    have e : f + 7 = f + 1 + 1 + 1 + 1 + 1 + 1 + 1 := rfl
    rw [e, fsm_run_step main_transitions cfg envs _ 0 FSM_INIT
      STATE_PARSE_ARGUMENTS _ handler.parse_arguments_handler STATE_HANDLE_ARGUMENTS
      (by decide) (parse_next_ok cfg (envs 0) h0 _) (by decide),
      fsm_run_step main_transitions cfg envs _ 1 STATE_PARSE_ARGUMENTS
      STATE_HANDLE_ARGUMENTS _ handler.handle_arguments_handler STATE_CONVERT_ADDRESS
      (by decide) (handle_next_ok cfg (envs 1) h1 _) (by decide),
      fsm_run_step main_transitions cfg envs _ 2 STATE_HANDLE_ARGUMENTS
      STATE_CONVERT_ADDRESS _ handler.convert_address_handler STATE_CREATE_SOCKET
      (by decide) (convert_next_ok cfg (envs 2) h2 _) (by decide),
      fsm_run_step main_transitions cfg envs _ 3 STATE_CONVERT_ADDRESS
      STATE_CREATE_SOCKET _ handler.create_socket_handler STATE_BIND_SOCKET
      (by decide) (sockets_next_ok cfg (envs 3) h3 _) (by decide),
      fsm_run_step main_transitions cfg envs _ 4 STATE_CREATE_SOCKET
      STATE_BIND_SOCKET _ handler.bind_socket_handler STATE_LISTEN
      (by decide) (bind_next_ok cfg (envs 4) h4 _) (by decide),
      fsm_run_step main_transitions cfg envs _ 5 STATE_BIND_SOCKET
      STATE_LISTEN _ handler.listen_handler STATE_CREATE_GUI_THREAD
      (by decide) (listen_next_ok cfg (envs 5) h5 _) (by decide),
      fsm_run_step main_transitions cfg envs _ 6 STATE_LISTEN
      STATE_CREATE_GUI_THREAD _ handler.create_gui_thread_handler STATE_CREATE_SERVER_THREAD
      (by decide) (gui_thread_next_ok cfg (envs 6) h6 _) (by decide)]
    simp only [(parse_args cfg (envs 0) _).1, (parse_args cfg (envs 0) _).2,
      (handle_args_ok cfg (envs 1) _ h1).1, (handle_args_ok cfg (envs 1) _ h1).2,
      (convert_args_ok cfg (envs 2) _ h2).1, (convert_args_ok cfg (envs 2) _ h2).2,
      (sockets_args_ok cfg (envs 3) _ h3).1, (sockets_args_ok cfg (envs 3) _ h3).2,
      (bind_args cfg (envs 4) _).1, (bind_args cfg (envs 4) _).2,
      (listen_args cfg (envs 5) _).1, (listen_args cfg (envs 5) _).2,
      gui_thread_args, (gui_thread_result cfg (envs 6) _).2]
    rfl
  have tail3 : ∀ (f : Nat) (ctx : arguments), ∃ rest_calls rest_trace,
      (fsm_run main_transitions cfg envs (f + 3) 7 STATE_CREATE_GUI_THREAD
          STATE_CREATE_SERVER_THREAD ctx).calls
        = handler.create_server_thread_handler :: handler.create_keyboard_thread_handler
            :: handler.listen_client_handler :: rest_calls
      ∧ (fsm_run main_transitions cfg envs (f + 3) 7 STATE_CREATE_GUI_THREAD
          STATE_CREATE_SERVER_THREAD ctx).trace
        = action.pthread_create thread_routine.init_server_thread none
            :: action.pthread_create thread_routine.init_keyboard_thread none
            :: rest_trace := by
    intro f ctx
    have e : f + 3 = f + 1 + 1 + 1 := rfl
    rw [e, fsm_run_step main_transitions cfg envs _ 7 STATE_CREATE_GUI_THREAD
      STATE_CREATE_SERVER_THREAD _ handler.create_server_thread_handler
      STATE_CREATE_KEYBOARD_THREAD
      (by decide) (server_thread_next_ok cfg (envs 7) h7 _) (by decide),
      fsm_run_step main_transitions cfg envs _ 8 STATE_CREATE_SERVER_THREAD
      STATE_CREATE_KEYBOARD_THREAD _ handler.create_keyboard_thread_handler
      STATE_LISTEN_CLIENT
      (by decide) (keyboard_thread_next_ok cfg (envs 8) h8 _) (by decide)]
    obtain ⟨rest, hrest⟩ := fsm_run_calls_head main_transitions cfg envs f (8 + 1)
      STATE_CREATE_KEYBOARD_THREAD STATE_LISTEN_CLIENT
      (run_handler handler.create_keyboard_thread_handler cfg (envs 8)
        (run_handler handler.create_server_thread_handler cfg (envs 7) ctx).args).args
      handler.listen_client_handler (by decide)
    refine ⟨rest, (fsm_run main_transitions cfg envs (f + 1) (8 + 1)
      STATE_CREATE_KEYBOARD_THREAD STATE_LISTEN_CLIENT
      (run_handler handler.create_keyboard_thread_handler cfg (envs 8)
        (run_handler handler.create_server_thread_handler cfg (envs 7) ctx).args).args).trace,
      ?_, ?_⟩
    · simp only [hrest]
    · simp only [(server_thread_result cfg (envs 7) _).2,
        (keyboard_thread_result cfg (envs 8) _).2, List.singleton_append]
  have r7 : fsm_run main_transitions cfg envs 7 0 FSM_INIT STATE_PARSE_ARGUMENTS
      (initial_arguments max_payload) = _ := step7 0
  have e10 : fuel + 10 = fuel + 3 + 7 := rfl
  refine ⟨?_, ?_, ?_, ?_, ?_, h1.2.1, h1.2.2, ?_, ?_, ?_, h3.1, h3.2.1, h3.2.2⟩
  · rw [e10, step7 (fuel + 3)]
    obtain ⟨rc, rt, hc, _⟩ := tail3 fuel
      { initial_arguments max_payload with
        client_delay_rate := (envs 0).parsed_rates.1
        client_drop_rate := (envs 0).parsed_rates.2.1
        server_delay_rate := (envs 0).parsed_rates.2.2.1
        server_drop_rate := (envs 0).parsed_rates.2.2.2.1
        corruption_rate := (envs 0).parsed_rates.2.2.2.2
        received_data := (envs 1).fopen_received_data
        sent_data := (envs 1).fopen_sent_data
        proxy_addr_struct := (envs 2).converted_address 0
        server_addr_struct := (envs 2).converted_address 1
        client_addr_struct := (envs 2).converted_address 2
        gui_addr_struct := (envs 2).converted_address 3
        client_sockfd := (envs 3).socket_create_result 0
        server_sockfd := (envs 3).socket_create_result 1
        proxy_gui_fd := (envs 3).socket_create_result 2 }
    simp only [hc]
    rfl
  · rw [e10, step7 (fuel + 3)]
    obtain ⟨rc, rt, _, ht⟩ := tail3 fuel
      { initial_arguments max_payload with
        client_delay_rate := (envs 0).parsed_rates.1
        client_drop_rate := (envs 0).parsed_rates.2.1
        server_delay_rate := (envs 0).parsed_rates.2.2.1
        server_drop_rate := (envs 0).parsed_rates.2.2.2.1
        corruption_rate := (envs 0).parsed_rates.2.2.2.2
        received_data := (envs 1).fopen_received_data
        sent_data := (envs 1).fopen_sent_data
        proxy_addr_struct := (envs 2).converted_address 0
        server_addr_struct := (envs 2).converted_address 1
        client_addr_struct := (envs 2).converted_address 2
        gui_addr_struct := (envs 2).converted_address 3
        client_sockfd := (envs 3).socket_create_result 0
        server_sockfd := (envs 3).socket_create_result 1
        proxy_gui_fd := (envs 3).socket_create_result 2 }
    simp only [ht]
    rfl
  · rw [r7]; rfl
  · rw [r7]; rfl
  · rw [r7]; rfl
  · rw [r7]; rfl
  · rw [r7]; rfl
  · rw [r7]; rfl

/-- The witness of C16 (amended): every start-up call succeeds. -/
theorem startup_order_witness :
    parse_ok (sample_environment (sample_packet 392 [98, 0, 0, 0]) 0 true)
      ∧ handle_ok (sample_environment (sample_packet 392 [98, 0, 0, 0]) 0 true)
      ∧ convert_ok (sample_environment (sample_packet 392 [98, 0, 0, 0]) 0 true)
      ∧ sockets_ok (sample_environment (sample_packet 392 [98, 0, 0, 0]) 0 true)
      ∧ bind_ok (sample_environment (sample_packet 392 [98, 0, 0, 0]) 0 true)
      ∧ listen_ok (sample_environment (sample_packet 392 [98, 0, 0, 0]) 0 true)
      ∧ (started_threads (fsm_run main_transitions (sample_config 0)
          (fun _ => sample_environment (sample_packet 392 [98, 0, 0, 0]) 0 true) (0 + 10) 0
          FSM_INIT STATE_PARSE_ARGUMENTS (initial_arguments 4)).trace).take 3
        = [thread_routine.init_gui_function, thread_routine.init_server_thread,
            thread_routine.init_keyboard_thread]
      ∧ (fsm_run main_transitions (sample_config 0)
          (fun _ => sample_environment (sample_packet 392 [98, 0, 0, 0]) 0 true) 7 0
          FSM_INIT STATE_PARSE_ARGUMENTS (initial_arguments 4)).args.received_data = 8 :=
  ⟨by decide, by decide, by decide, by decide, by decide, by decide,
   (startup_order (sample_config 0)
      (fun _ => sample_environment (sample_packet 392 [98, 0, 0, 0]) 0 true) 0 4
      (by decide) (by decide) (by decide) (by decide) (by decide) (by decide) (by decide)
      (by decide) (by decide)).2.1,
   (startup_order (sample_config 0)
      (fun _ => sample_environment (sample_packet 392 [98, 0, 0, 0]) 0 true) 0 4
      (by decide) (by decide) (by decide) (by decide) (by decide) (by decide) (by decide)
      (by decide) (by decide)).2.2.2.1⟩

/-! ## Statistics codes in use -/

theorem stats_codes_append (a b : List action) :
    stats_codes (a ++ b) = stats_codes a ++ stats_codes b := by
  unfold stats_codes
  exact List.filterMap_append _ _ _

theorem stats_codes_close_if_set (fd : Int) : stats_codes (close_if_set fd) = [] := by
  unfold close_if_set stats_codes
  split <;> rfl

/-- While `is_connected_gui` is `0` no handler sends a statistics code. -/
theorem stats_codes_unconnected (cfg : proxy_config) (env : environment) (ctx : arguments)
    (h : handler) (hg : ctx.is_connected_gui = 0) :
    stats_codes (run_handler h cfg env ctx).trace = [] := by
  cases h
  case cleanup_handler =>
    simp only [run_handler, cleanup_handler, stats_codes_append, stats_codes_close_if_set]
    rfl
  all_goals
    simp only [run_handler, parse_arguments_handler, handle_arguments_handler,
      convert_address_handler, create_socket_handler, bind_socket_handler, listen_handler,
      create_gui_thread_handler, create_server_thread_handler,
      create_keyboard_thread_handler, listen_client_handler,
      calculate_client_lossiness_handler, client_drop_packet_handler,
      client_delay_packet_handler, client_corrupt_packet_handler,
      send_client_packet_handler, error_handler, listen_server_handler,
      calculate_server_lossiness_handler, server_drop_packet_handler,
      server_delay_packet_handler, server_corrupt_packet_handler,
      send_server_packet_handler, stats_if_connected, hg, ne_eq, not_true_eq_false,
      if_false]
    repeat' split
    all_goals rfl

/-- On every path of every handler, each statistics code sent is one of the
seven codes in use. -/
theorem stats_codes_allowed (cfg : proxy_config) (env : environment) (ctx : arguments)
    (h : handler) :
    ∀ code ∈ stats_codes (run_handler h cfg env ctx).trace,
      code ∈ [SENT_PACKET, RECEIVED_PACKET, DROPPED_CLIENT_PACKET, DELAYED_CLIENT_PACKET,
        DROPPED_SERVER_PACKET, DELAYED_SERVER_PACKET, CORRUPTED_DATA] := by
  cases h
  case cleanup_handler =>
    simp only [run_handler, cleanup_handler, stats_codes_append, stats_codes_close_if_set]
    simp [stats_codes]
  all_goals
    simp only [run_handler, parse_arguments_handler, handle_arguments_handler,
      convert_address_handler, create_socket_handler, bind_socket_handler, listen_handler,
      create_gui_thread_handler, create_server_thread_handler,
      create_keyboard_thread_handler, listen_client_handler,
      calculate_client_lossiness_handler, client_drop_packet_handler,
      client_delay_packet_handler, client_corrupt_packet_handler,
      send_client_packet_handler, error_handler, listen_server_handler,
      calculate_server_lossiness_handler, server_drop_packet_handler,
      server_delay_packet_handler, server_corrupt_packet_handler,
      send_server_packet_handler, stats_if_connected]
    repeat' split
    all_goals simp [stats_codes]

/-- C21: on every path of every handler of the two transition tables and of
both delay tasks, each code passed to `send_stats_gui` is one of `SENT_PACKET`,
`RECEIVED_PACKET`, `DROPPED_CLIENT_PACKET`, `DELAYED_CLIENT_PACKET`,
`DROPPED_SERVER_PACKET`, `DELAYED_SERVER_PACKET`, `CORRUPTED_DATA`, never
`RECEIVED_ACK` or `RESENT_PACKET` (a delay task sends `SENT_PACKET` only); and
while `is_connected_gui` is `0` nothing is sent at all. -/
theorem unused_codes_never_sent (cfg : proxy_config) (env : environment) (ctx : arguments)
    (h : handler) :
    (∀ code ∈ stats_codes (run_handler h cfg env ctx).trace,
        code ∈ [SENT_PACKET, RECEIVED_PACKET, DROPPED_CLIENT_PACKET, DELAYED_CLIENT_PACKET,
          DROPPED_SERVER_PACKET, DELAYED_SERVER_PACKET, CORRUPTED_DATA]
        ∧ code ≠ RECEIVED_ACK ∧ code ≠ RESENT_PACKET)
      ∧ (∀ code ∈ stats_codes (init_client_delay_thread ctx), code = SENT_PACKET)
      ∧ (∀ code ∈ stats_codes (init_server_delay_thread ctx), code = SENT_PACKET)
      ∧ (ctx.is_connected_gui = 0 →
          stats_codes (run_handler h cfg env ctx).trace = []
            ∧ stats_codes (init_client_delay_thread ctx) = []
            ∧ stats_codes (init_server_delay_thread ctx) = []) := by
  refine ⟨?_, ?_, ?_, ?_⟩
  · intro code hcode
    have hmem := stats_codes_allowed cfg env ctx h code hcode
    refine ⟨hmem, ?_, ?_⟩
    · intro hc; subst hc; simp at hmem
    · intro hc; subst hc; simp at hmem
  · unfold init_client_delay_thread stats_if_connected stats_codes
    by_cases hg : ctx.is_connected_gui = 0 <;> simp [hg]
  · unfold init_server_delay_thread stats_if_connected stats_codes
    by_cases hg : ctx.is_connected_gui = 0 <;> simp [hg]
  · intro hg
    refine ⟨stats_codes_unconnected cfg env ctx h hg, ?_, ?_⟩
    · simp [init_client_delay_thread, stats_if_connected, stats_codes, hg]
    · simp [init_server_delay_thread, stats_if_connected, stats_codes, hg]

/-- The witness of C21: the context before start-up, where `is_connected_gui`
is `0`; the client send handler sends no code. -/
theorem unused_codes_never_sent_witness :
    (initial_arguments 4).is_connected_gui = 0
      ∧ stats_codes (run_handler handler.send_client_packet_handler (sample_config 0)
          (sample_environment (sample_packet 392 [98, 0, 0, 0]) 0 true)
          (initial_arguments 4)).trace = []
      ∧ stats_codes (init_client_delay_thread (initial_arguments 4)) = [] :=
  ⟨rfl,
   ((unused_codes_never_sent (sample_config 0)
      (sample_environment (sample_packet 392 [98, 0, 0, 0]) 0 true) (initial_arguments 4)
      handler.send_client_packet_handler).2.2.2 rfl).1,
   ((unused_codes_never_sent (sample_config 0)
      (sample_environment (sample_packet 392 [98, 0, 0, 0]) 0 true) (initial_arguments 4)
      handler.send_client_packet_handler).2.2.2 rfl).2.1⟩

/-! ## The delay pool -/

/-- In both delay handlers, when `realloc` succeeds, the pool holds
`num_of_threads + 1` cells afterwards and the handle of the new thread is
stored at index `num_of_threads + 1`. -/
theorem delay_pool_index (ctx : arguments) :
    (client_delay_packet_handler true ctx).args.thread_pool = ctx.num_of_threads + 1
      ∧ pool_indices (client_delay_packet_handler true ctx).trace = [ctx.num_of_threads + 1]
      ∧ (server_delay_packet_handler true ctx).args.thread_pool = ctx.num_of_threads + 1
      ∧ pool_indices (server_delay_packet_handler true ctx).trace
        = [ctx.num_of_threads + 1] := by
  unfold client_delay_packet_handler server_delay_packet_handler stats_if_connected
    pool_indices
  by_cases hg : ctx.is_connected_gui = 0 <;> simp [hg]

/-- C22, evaluated at a failing input: with `num_of_threads = 0` on entry, each
delay handler increments it to `1`, the pool is reallocated to `1` cell (valid
index `0`), and the handle of the new thread is stored at index `1`, which is
not less than `1`. -/
theorem delay_pool_index_out_of_bounds :
    (sample_args (sample_packet 0 [0, 0, 0, 0]) (sample_packet 0 [0, 0, 0, 0])).num_of_threads = 0
      ∧ (client_delay_packet_handler true
          (sample_args (sample_packet 0 [0, 0, 0, 0])
            (sample_packet 0 [0, 0, 0, 0]))).args.num_of_threads = 1
      ∧ (client_delay_packet_handler true
          (sample_args (sample_packet 0 [0, 0, 0, 0])
            (sample_packet 0 [0, 0, 0, 0]))).args.thread_pool = 1
      ∧ pool_indices (client_delay_packet_handler true
          (sample_args (sample_packet 0 [0, 0, 0, 0])
            (sample_packet 0 [0, 0, 0, 0]))).trace = [1]
      ∧ (server_delay_packet_handler true
          (sample_args (sample_packet 0 [0, 0, 0, 0])
            (sample_packet 0 [0, 0, 0, 0]))).args.thread_pool = 1
      ∧ pool_indices (server_delay_packet_handler true
          (sample_args (sample_packet 0 [0, 0, 0, 0])
            (sample_packet 0 [0, 0, 0, 0]))).trace = [1]
      ∧ ¬ ((1 : Int) < 1) := by
  decide

/-! ## Closure of the transition tables -/

/-- C23, evaluated at failing inputs. In the table of `main`, the row
`(STATE_BIND_SOCKET, STATE_LISTEN, listen_handler)` is followed by no row for
`(STATE_LISTEN, STATE_ERROR)`, although `listen_handler` returns
`STATE_ERROR` when `start_listening` fails; the pairs without row are
`(STATE_LISTEN, STATE_ERROR)`, `(STATE_CREATE_GUI_THREAD, STATE_ERROR)` and
`(STATE_CLIENT_DELAY_PACKET, STATE_ERROR)`, the last reached when `realloc`
fails. In the table of `init_server_thread` the pairs without row are
`(STATE_LISTEN_SERVER, STATE_ERROR)`, `(STATE_SERVER_DELAY_PACKET, STATE_ERROR)`
and `(STATE_SEND_SERVER_PACKET, STATE_ERROR)`, the last reached when
`send_packet` fails. -/
theorem transition_tables_not_closed :
    ({ from_id := STATE_BIND_SOCKET, to_id := STATE_LISTEN,
        perform := some handler.listen_handler } : fsm_transition) ∈ main_transitions
      ∧ (run_handler handler.listen_handler (sample_config 0)
          { sample_environment (sample_packet 392 [98, 0, 0, 0]) 0 true with
            start_listening_result := -1 }
          (initial_arguments 4)).next = STATE_ERROR
      ∧ find_transition main_transitions STATE_LISTEN STATE_ERROR = none
      ∧ (run_handler handler.client_delay_packet_handler (sample_config 0)
          (sample_environment (sample_packet 392 [98, 0, 0, 0]) 0 false)
          (initial_arguments 4)).next = STATE_ERROR
      ∧ find_transition main_transitions STATE_CLIENT_DELAY_PACKET STATE_ERROR = none
      ∧ (run_handler handler.send_server_packet_handler (sample_config 0)
          (sample_environment (sample_packet 392 [98, 0, 0, 0]) (-1) true)
          (initial_arguments 4)).next = STATE_ERROR
      ∧ find_transition server_transitions STATE_SEND_SERVER_PACKET STATE_ERROR = none
      ∧ open_pairs main_transitions
        = [(STATE_LISTEN, STATE_ERROR), (STATE_CREATE_GUI_THREAD, STATE_ERROR),
            (STATE_CLIENT_DELAY_PACKET, STATE_ERROR)]
      ∧ open_pairs server_transitions
        = [(STATE_LISTEN_SERVER, STATE_ERROR), (STATE_SERVER_DELAY_PACKET, STATE_ERROR),
            (STATE_SEND_SERVER_PACKET, STATE_ERROR)] := by
  decide

/-! ## What clean-up touches -/

/-- C24, evaluated at a failing input: `parse_arguments` fails. The run of
`main` calls `parse_arguments_handler`, `error_handler`, `cleanup_handler`;
no thread was started and no file opened, and `cleanup_handler` calls
`pthread_join(server_thread)` once and `fclose` on the two null file
pointers. -/
theorem cleanup_touches_uninitialised_resources :
    (fsm_run main_transitions (sample_config 0)
        (fun _ => { sample_environment (sample_packet 392 [98, 0, 0, 0]) 0 true with
                    parse_arguments_result := -1 }) 3 0 FSM_INIT STATE_PARSE_ARGUMENTS
        (initial_arguments 4)).calls
        = [handler.parse_arguments_handler, handler.error_handler, handler.cleanup_handler]
      ∧ (fsm_run main_transitions (sample_config 0)
        (fun _ => { sample_environment (sample_packet 392 [98, 0, 0, 0]) 0 true with
                    parse_arguments_result := -1 }) 3 0 FSM_INIT STATE_PARSE_ARGUMENTS
        (initial_arguments 4)).trace
        = [action.pthread_join_server_thread, action.fclose 0, action.fclose 0]
      ∧ started_threads (fsm_run main_transitions (sample_config 0)
        (fun _ => { sample_environment (sample_packet 392 [98, 0, 0, 0]) 0 true with
                    parse_arguments_result := -1 }) 3 0 FSM_INIT STATE_PARSE_ARGUMENTS
        (initial_arguments 4)).trace = []
      ∧ join_calls (fsm_run main_transitions (sample_config 0)
        (fun _ => { sample_environment (sample_packet 392 [98, 0, 0, 0]) 0 true with
                    parse_arguments_result := -1 }) 3 0 FSM_INIT STATE_PARSE_ARGUMENTS
        (initial_arguments 4)).trace = 1
      ∧ fclose_calls (fsm_run main_transitions (sample_config 0)
        (fun _ => { sample_environment (sample_packet 392 [98, 0, 0, 0]) 0 true with
                    parse_arguments_result := -1 }) 3 0 FSM_INIT STATE_PARSE_ARGUMENTS
        (initial_arguments 4)).trace = [0, 0] := by
  decide

/-! ## The checksum: order of the bytes and signedness of `char` -/

theorem weighted_sum_perm (a b : List (Fin 256)) (hp : a.Perm b) :
    weighted_sum a = weighted_sum b := by
  unfold weighted_sum
  rw [(hp.map (fun x => x.val * 34)).sum_eq]

theorem xor_all_perm (a b : List (Fin 256)) (hp : a.Perm b) : xor_all a = xor_all b := by
  unfold xor_all
  refine hp.foldl_eq' ?_ 0
  intro x _ y _ z
  rw [Nat.xor_assoc, Nat.xor_comm x.val y.val, ← Nat.xor_assoc]

theorem checksum_two_lt (s : Bool) (data : List (Fin 256)) (n : Nat) :
    checksum_two s data n < 256 := by
  unfold checksum_two
  induction n with
  | zero => simp
  | succ k ih =>
    rw [List.range_succ, List.foldl_append]
    simp only [List.foldl_cons, List.foldl_nil]
    rw [xor_step_eq s _ ih]
    exact @Nat.xor_lt_two_pow _ (read_char data k).val 8 ih (read_char data k).isLt

theorem checksum_two_signedness (data : List (Fin 256)) (n : Nat) :
    checksum_two true data n = checksum_two false data n := by
  induction n with
  | zero => rfl
  | succ k ih =>
    have ht := checksum_two_lt true data k
    have hf := checksum_two_lt false data k
    unfold checksum_two at ih ht hf ⊢
    rw [List.range_succ, List.foldl_append, List.foldl_append]
    simp only [List.foldl_cons, List.foldl_nil]
    rw [xor_step_eq true _ ht, xor_step_eq false _ hf, ih]

/-- C25: for every two buffers whose first `n` bytes are permutations of each
other, under either signedness of `char`, `checksum_one`, `checksum_two` and
`calculate_checksum` over `n` bytes agree on the two buffers; so
`compare_checksum` gives the same answer on both for every stored checksum,
and answers `1` on the reordered buffer for the checksum of the original. -/
theorem checksum_ignores_byte_order (char_is_signed : Bool) (data other : List (Fin 256))
    (n : Nat) (checksum : Nat) (h : n ≤ data.length) (h2 : n ≤ other.length)
    (hp : (other.take n).Perm (data.take n)) :
    checksum_one char_is_signed other n = checksum_one char_is_signed data n
      ∧ checksum_two char_is_signed other n = checksum_two char_is_signed data n
      ∧ calculate_checksum char_is_signed other n = calculate_checksum char_is_signed data n
      ∧ compare_checksum char_is_signed checksum other n
        = compare_checksum char_is_signed checksum data n
      ∧ compare_checksum char_is_signed (calculate_checksum char_is_signed data n) other n
        = 1 := by
  have e1 : checksum_one char_is_signed other n = checksum_one char_is_signed data n := by
    rw [checksum_one_eq _ _ _ h, checksum_one_eq _ _ _ h2, weighted_sum_perm _ _ hp]
  have e2 : checksum_two char_is_signed other n = checksum_two char_is_signed data n := by
    rw [checksum_two_eq _ _ _ h, checksum_two_eq _ _ _ h2, xor_all_perm _ _ hp]
  have e3 : calculate_checksum char_is_signed other n
      = calculate_checksum char_is_signed data n := by
    unfold calculate_checksum
    rw [e1, e2]
  refine ⟨e1, e2, e3, ?_, ?_⟩
  · unfold compare_checksum
    rw [e3]
  · unfold compare_checksum
    rw [e3, if_pos rfl]

/-- The witness of C25: the bytes `1, 2, 3, 200` and their reordering
`200, 3, 1, 2`, with `char` signed; both have checksum `92 * 200 = 18400`. -/
theorem checksum_ignores_byte_order_witness :
    calculate_checksum true [200, 3, 1, 2] 4 = 18400
      ∧ calculate_checksum true [1, 2, 3, 200] 4 = 18400
      ∧ compare_checksum true (calculate_checksum true [1, 2, 3, 200] 4) [200, 3, 1, 2] 4
        = 1 :=
  have hp : (([200, 3, 1, 2] : List (Fin 256)).take 4).Perm
      (([1, 2, 3, 200] : List (Fin 256)).take 4) := by decide
  ⟨by decide, by decide,
   (checksum_ignores_byte_order true [1, 2, 3, 200] [200, 3, 1, 2] 4 0 (by decide)
      (by decide) hp).2.2.2.2⟩

/-- C26: for every buffer and every length (also one past the end of the
list, where the cells read as `0`), `checksum_one`, `checksum_two` and
`calculate_checksum` return the same value when `char` is signed (each byte
read in `[-128, 127]`, sign-extended before the multiplication by 34 and
before the XOR, the result converted to `unsigned char`) as when `char` is
unsigned (each byte read in `[0, 255]`). -/
theorem checksum_ignores_char_signedness (data : List (Fin 256)) (n : Nat) :
    checksum_one true data n = checksum_one false data n
      ∧ checksum_two true data n = checksum_two false data n
      ∧ calculate_checksum true data n = calculate_checksum false data n := by
  have e1 : checksum_one true data n = checksum_one false data n := by
    unfold checksum_one
    simp only [add_step_eq]
  have e2 := checksum_two_signedness data n
  refine ⟨e1, e2, ?_⟩
  unfold calculate_checksum
  rw [e1, e2]

/-! ## Port numbers -/

/-- C27, evaluated at failing inputs. For the string `+80` (the characters
`43, 56, 48`) `strtoumax` consumes the sign and the digits, leaves `errno` at
`0` and `endptr` at the terminating null byte, so `parse_in_port_t` returns `0`
and stores `80`, although the string does not consist of decimal digits only;
the same holds for `" 80"` (leading white space) and for `-0`, which stores
`0`; and where the library leaves `errno` at `0` when no conversion is done,
the empty string is accepted with port `0`. Strings of digits are treated as
stated: `80` and `65535` are stored, `65536`, `80a` and
`99999999999999999999` are refused with the port left as it was. -/
theorem parse_in_port_t_accepts_signs_and_space :
    parse_in_port_t (strtoumax 0 [43, 56, 48]) 7 = (0, 80)
      ∧ parse_in_port_t (strtoumax 22 [43, 56, 48]) 7 = (0, 80)
      ∧ parse_in_port_t (strtoumax 22 [32, 56, 48]) 7 = (0, 80)
      ∧ parse_in_port_t (strtoumax 22 [45, 48]) 7 = (0, 0)
      ∧ parse_in_port_t (strtoumax 0 []) 7 = (0, 0)
      ∧ parse_in_port_t (strtoumax 22 []) 7 = (-1, 7)
      ∧ parse_in_port_t (strtoumax 22 [56, 48]) 7 = (0, 80)
      ∧ parse_in_port_t (strtoumax 22 [54, 53, 53, 51, 53]) 7 = (0, 65535)
      ∧ parse_in_port_t (strtoumax 22 [54, 53, 53, 51, 54]) 7 = (-1, 7)
      ∧ parse_in_port_t (strtoumax 22 [56, 48, 97]) 7 = (-1, 7)
      ∧ parse_in_port_t (strtoumax 22
          [57, 57, 57, 57, 57, 57, 57, 57, 57, 57, 57, 57, 57, 57, 57, 57, 57, 57, 57, 57]) 7
        = (-1, 7) := by
  decide

end ReliableUdp
